import Mathlib

/-!
# Log handler core of `src/logservice/ob_log_handler.cpp`

A shallow embedding of `ObLogHandler`: the handler object is a record of its
member variables, every method is a function from the handler (and from the
answers of the collaborators it calls) to its return code, its out-parameters
and the new handler.  Calls into collaborators whose code is not part of the
sources (the log engine `PalfHandle`, the apply status, the clock) are taken as
parameters: the embedding is told what they answer and records that they were
called.
-/

namespace oceanbase
namespace logservice

/-! ## Data model -/

/-- Modelled from the spec: `lib/ob_errno.h` is not among the sources, so the
return codes used by the handler are kept symbolic and pairwise distinct;
`OB_OTHER` stands for every code the handler never names. -/
inductive ObRet where
  | OB_SUCCESS
  | OB_INVALID_ARGUMENT
  | OB_INIT_TWICE
  | OB_NOT_INIT
  | OB_TIMEOUT
  | OB_ERR_UNEXPECTED
  | OB_EAGAIN
  | OB_NOT_MASTER
  | OB_NOT_RUNNING
  | OB_STATE_NOT_MATCH
  | OB_NOT_ALLOW_REMOVING_LEADER
  | OB_OTHER (code : Int)
  deriving DecidableEq, Repr

/-- Modelled from the spec: `common/ob_role.h` is not among the sources; the
spec's data model gives `Role` as the tagged variant `{Leader, Follower}`. -/
inductive ObRole where
  | LEADER
  | FOLLOWER
  deriving DecidableEq, Repr

/-- Log sequence number (`palf::LSN`), its 64-bit value kept as a natural. -/
structure LSN where
  val_ : Nat
  deriving DecidableEq, Repr

/-- Modelled from the spec: `common::ObAddr` is not among the sources; an
address is a plain value that knows whether it is valid. -/
structure ObAddr where
  ip_port : Nat
  valid : Bool
  deriving DecidableEq, Repr

/-- The engine handle `palf::PalfHandle` held by value in the handler.
Modelled from the spec: `PalfHandle` and `PalfEnv::close` are not among the
sources; a handle is valid until the environment closes it. -/
structure PalfHandle where
  valid : Bool
  deriving DecidableEq, Repr

/-- The method `PalfHandle::is_valid`. -/
def PalfHandle.is_valid (p : PalfHandle) : Bool := p.valid

/-- The effect of `palf_env_->close(palf_handle_)` on the handle. -/
def PalfHandle.close (_p : PalfHandle) : PalfHandle := { valid := false }

/-- Modelled from the spec: `ob_append_callback.h` is not among the sources;
the spec's `AppendCallback` carries a start timestamp, a finish timestamp, an
assigned LSN and an assigned commit timestamp.  `owner` stands for the rest of
the user's callback object, which the handler never touches. -/
structure AppendCb where
  owner : Nat
  append_start_ts_ : Int
  append_finish_ts_ : Int
  lsn_ : LSN
  ts_ns_ : Int
  deriving DecidableEq, Repr

/-- Setter `AppendCb::set_append_start_ts`. -/
def AppendCb.set_append_start_ts (cb : AppendCb) (ts : Int) : AppendCb :=
  { cb with append_start_ts_ := ts }

/-- Setter `AppendCb::set_append_finish_ts`. -/
def AppendCb.set_append_finish_ts (cb : AppendCb) (ts : Int) : AppendCb :=
  { cb with append_finish_ts_ := ts }

/-- Setter `AppendCb::__set_lsn`. -/
def AppendCb.set_lsn (cb : AppendCb) (lsn : LSN) : AppendCb :=
  { cb with lsn_ := lsn }

/-- Setter `AppendCb::__set_ts_ns`. -/
def AppendCb.set_ts_ns (cb : AppendCb) (ts_ns : Int) : AppendCb :=
  { cb with ts_ns_ := ts_ns }

/-- Modelled from the spec: `lib/ob_define.h` is not among the sources; the
constant `OB_INVALID_TIMESTAMP` is a timestamp no clock reading takes, here `-1`. -/
def OB_INVALID_TIMESTAMP : Int := -1

/-- The member variables of `ObLogHandler` (with those of its base class that
the methods use).  A pointer member is `none` when it is `NULL`. -/
structure ObLogHandler where
  self_ : ObAddr
  id_ : Int
  palf_handle_ : PalfHandle
  palf_env_ : Option Nat
  apply_status_ : Option Nat
  apply_service_ : Option Nat
  replay_service_ : Option Nat
  lc_cb_ : Option Nat
  rpc_proxy_ : Option Nat
  role_ : ObRole
  proposal_id_ : Int
  cached_is_log_sync_ : Bool
  last_check_sync_ts_ : Int
  last_renew_loc_ts_ : Int
  is_in_stop_state_ : Bool
  is_inited_ : Bool
  get_max_decided_log_ts_ns_debug_time_ : Int
  deriving DecidableEq, Repr

/-- What the constructor `ObLogHandler::ObLogHandler()` establishes; the
members of the base class are left as the base class made them. -/
def ObLogHandler.constructed (h : ObLogHandler) : Prop :=
  h.apply_status_ = none ∧ h.apply_service_ = none ∧ h.replay_service_ = none ∧
  h.lc_cb_ = none ∧ h.rpc_proxy_ = none ∧ h.cached_is_log_sync_ = false ∧
  h.last_check_sync_ts_ = OB_INVALID_TIMESTAMP ∧
  h.last_renew_loc_ts_ = OB_INVALID_TIMESTAMP ∧
  h.is_in_stop_state_ = true ∧ h.is_inited_ = false ∧
  h.get_max_decided_log_ts_ns_debug_time_ = OB_INVALID_TIMESTAMP

/-! ## Lifecycle: `init`, `is_valid`, `stop`, `destroy` -/

/-- The arguments of `ObLogHandler::init`. -/
structure InitArgs where
  id : Int
  self : ObAddr
  apply_service : Option Nat
  replay_service : Option Nat
  palf_handle : PalfHandle
  palf_env : Option Nat
  lc_cb : Option Nat
  rpc_proxy : Option Nat
  deriving DecidableEq, Repr

/-- The answer of `apply_service->get_apply_status(ls_id, guard)`: its return
code and the pointer `guard.get_apply_status()` yields afterwards. -/
structure GetApplyStatusResp where
  ret : ObRet
  apply_status : Option Nat
  deriving DecidableEq, Repr

/-- The method `ObLogHandler::init` (lines 58-102). -/
def ObLogHandler.init (h : ObLogHandler) (a : InitArgs) (g : GetApplyStatusResp) :
    ObRet × ObLogHandler :=
  if h.is_inited_ then
    (ObRet.OB_INIT_TWICE, h)
  else if a.palf_handle.is_valid = false ∨ a.palf_env = none ∨ a.apply_service = none ∨
      a.lc_cb = none ∨ a.rpc_proxy = none then
    (ObRet.OB_INVALID_ARGUMENT, h)
  else if g.ret ≠ ObRet.OB_SUCCESS then
    (g.ret, h)
  else if g.apply_status = none then
    (ObRet.OB_ERR_UNEXPECTED, { h with apply_status_ := none })
  else
    (ObRet.OB_SUCCESS,
      { h with
        apply_status_ := g.apply_status
        get_max_decided_log_ts_ns_debug_time_ := OB_INVALID_TIMESTAMP
        apply_service_ := a.apply_service
        replay_service_ := a.replay_service
        id_ := a.id
        self_ := a.self
        palf_handle_ := a.palf_handle
        palf_env_ := a.palf_env
        role_ := ObRole.FOLLOWER
        lc_cb_ := a.lc_cb
        rpc_proxy_ := a.rpc_proxy
        is_in_stop_state_ := false
        is_inited_ := true })

/-- The method `ObLogHandler::is_valid` (lines 104-115). -/
def ObLogHandler.is_valid (h : ObLogHandler) : Bool :=
  h.is_inited_ == true &&
  h.is_in_stop_state_ == false &&
  h.self_.valid &&
  h.palf_handle_.is_valid == true &&
  h.palf_env_ != none &&
  h.apply_status_ != none &&
  h.apply_service_ != none &&
  h.lc_cb_ != none &&
  h.rpc_proxy_ != none

/-- The method `ObLogHandler::stop` (lines 117-133); `apply_status_stop` is
what `apply_status_->stop()` answers. -/
def ObLogHandler.stop (h : ObLogHandler) (apply_status_stop : ObRet) :
    ObRet × ObLogHandler :=
  if h.is_inited_ then
    let h1 := { h with is_in_stop_state_ := true }
    if apply_status_stop ≠ ObRet.OB_SUCCESS then
      (apply_status_stop, h1)
    else if h1.palf_handle_.is_valid then
      (ObRet.OB_SUCCESS, { h1 with palf_handle_ := h1.palf_handle_.close })
    else
      (ObRet.OB_SUCCESS, h1)
  else
    (ObRet.OB_SUCCESS, h)

/-- The method `ObLogHandler::destroy` (lines 158-179). -/
def ObLogHandler.destroy (h : ObLogHandler) : ObLogHandler :=
  if h.is_inited_ then
    { h with
      is_inited_ := false
      is_in_stop_state_ := true
      apply_status_ := none
      apply_service_ := none
      replay_service_ := none
      palf_handle_ := if h.palf_handle_.is_valid = true then h.palf_handle_.close
                      else h.palf_handle_
      lc_cb_ := none
      rpc_proxy_ := none
      palf_env_ := none
      id_ := -1
      get_max_decided_log_ts_ns_debug_time_ := OB_INVALID_TIMESTAMP }
  else h

/-! ## Role cache: `switch_role`, `get_role` -/

/-- The method `ObLogHandler::switch_role` (lines 243-248). -/
def ObLogHandler.switch_role (h : ObLogHandler) (role : ObRole) (proposal_id : Int) :
    ObLogHandler :=
  { h with role_ := role, proposal_id_ := proposal_id }

/-- The answer of the engine's `palf_handle_.get_role`: its return code and
what it left in its three out-parameters. -/
structure PalfGetRoleResp where
  ret : ObRet
  role : ObRole
  proposal_id : Int
  is_pending_state : Bool
  deriving DecidableEq, Repr

/-- The result of `ObLogHandler::get_role`: the return code and the two
out-parameters as the caller finds them after the call. -/
structure GetRoleResult where
  ret : ObRet
  role : ObRole
  proposal_id : Int
  deriving DecidableEq, Repr

/-- The method `ObLogHandler::get_role` (lines 250-278).  `role` and
`proposal_id` are the caller's variables before the call: a branch that does
not assign them leaves them as they were. -/
def ObLogHandler.get_role (h : ObLogHandler) (palf : PalfGetRoleResp)
    (role : ObRole) (proposal_id : Int) : GetRoleResult :=
  let saved_proposal_id := h.proposal_id_
  let saved_role := h.role_
  if h.is_inited_ = false then
    { ret := ObRet.OB_NOT_INIT, role := role, proposal_id := proposal_id }
  else if h.is_in_stop_state_ then
    { ret := ObRet.OB_NOT_RUNNING, role := role, proposal_id := proposal_id }
  else if ObRole.FOLLOWER = saved_role then
    { ret := ObRet.OB_SUCCESS, role := ObRole.FOLLOWER, proposal_id := saved_proposal_id }
  else if palf.ret ≠ ObRet.OB_SUCCESS then
    { ret := palf.ret, role := role, proposal_id := proposal_id }
  else if palf.proposal_id ≠ saved_proposal_id then
    { ret := ObRet.OB_SUCCESS, role := ObRole.FOLLOWER, proposal_id := saved_proposal_id }
  else
    { ret := ObRet.OB_SUCCESS, role := palf.role, proposal_id := saved_proposal_id }

/-! ## Append path -/

/-- The options `palf::PalfAppendOptions` handed to the engine. -/
structure PalfAppendOptions where
  need_nonblock : Bool
  need_check_proposal_id : Bool
  proposal_id : Int
  deriving DecidableEq, Repr

/-- The answer of the engine's `palf_handle_.append`: its return code and what
it left in the out-parameters `lsn` and `ts_ns`. -/
structure PalfAppendResp where
  ret : ObRet
  lsn : LSN
  ts_ns : Int
  deriving DecidableEq, Repr

/-- What one pass of the append loop meets outside the handler: the two clock
readings of `ObTimeUtility::fast_current_time()`, the engine (as a function of
what it is called with) and `apply_status_->push_append_cb` (as a function of
the callback it is handed). -/
structure PassEnv where
  start_time : Int
  palf_append : PalfAppendOptions → List Nat → Int → Int → PalfAppendResp
  finish_time : Int
  push_append_cb : AppendCb → ObRet

/-- The calls `append` makes that are visible outside the handler. -/
inductive Effect where
  | palf_append (opts : PalfAppendOptions) (buffer : List Nat) (nbytes : Int) (ref_ts_ns : Int)
  | push_append_cb (cb : AppendCb) (ret : ObRet)
  | ob_usleep (sleep_us : Nat)
  deriving DecidableEq, Repr

/-- The local variables and out-parameters of `ObLogHandler::append`, with the
calls made so far. -/
structure AppendState where
  ret : ObRet
  wait_times : Nat
  cb : AppendCb
  lsn : LSN
  ts_ns : Int
  effects : List Effect
  deriving DecidableEq, Repr

/-- The state in which `append` enters its loop. -/
def AppendState.entry (cb : AppendCb) (lsn : LSN) (ts_ns : Int) : AppendState :=
  { ret := ObRet.OB_SUCCESS, wait_times := 0, cb := cb, lsn := lsn, ts_ns := ts_ns,
    effects := [] }

/-- One pass through the `do { ... } while (0)` block of `append`
(lines 198-219): stamp the start time, gate on the lifecycle and the cached
role, call the engine, and on success stamp and push the callback. -/
def ObLogHandler.append_pass (h : ObLogHandler) (opts : PalfAppendOptions)
    (buffer : List Nat) (nbytes ref_ts_ns : Int) (e : PassEnv) (s : AppendState) :
    AppendState :=
  let cb1 := s.cb.set_append_start_ts e.start_time
  if h.is_inited_ = false then
    { s with cb := cb1, ret := ObRet.OB_NOT_INIT }
  else if h.is_in_stop_state_ then
    { s with cb := cb1, ret := ObRet.OB_NOT_RUNNING }
  else if ObRole.LEADER ≠ h.role_ then
    { s with cb := cb1, ret := ObRet.OB_NOT_MASTER }
  else
    let r := e.palf_append opts buffer nbytes ref_ts_ns
    let called := s.effects ++ [Effect.palf_append opts buffer nbytes ref_ts_ns]
    if r.ret ≠ ObRet.OB_SUCCESS then
      { s with cb := cb1, ret := r.ret, lsn := r.lsn, ts_ns := r.ts_ns, effects := called }
    else
      let cb2 := ((cb1.set_append_finish_ts e.finish_time).set_lsn r.lsn).set_ts_ns r.ts_ns
      let pushed := e.push_append_cb cb2
      { s with cb := cb2, ret := pushed, lsn := r.lsn, ts_ns := r.ts_ns,
               effects := called ++ [Effect.push_append_cb cb2 pushed] }

/-- The constant `MAX_SLEEP_US` of `append`. -/
def MAX_SLEEP_US : Nat := 100

/-- The block-mode branch of `append` (lines 224-232): count the retry, sleep
`wait_times * 10` microseconds capped at `MAX_SLEEP_US`.  The counter is an
`int64_t` in the source and a natural number here: `wait_times * 10` stays
below `2 ^ 63` for the first `922337203685477580` retries, each of which sleeps. -/
def AppendState.sleep_and_retry (s : AppendState) : AppendState :=
  let wait_times := s.wait_times + 1
  let sleep_us := if wait_times * 10 > MAX_SLEEP_US then MAX_SLEEP_US else wait_times * 10
  { s with wait_times := wait_times, effects := s.effects ++ [Effect.ob_usleep sleep_us] }

/-- The `while (true)` loop of `append` (lines 195-237).  The pass made after
`wait_times` retries meets `env wait_times`.  `fuel` bounds the number of
passes; `none` means the loop was still retrying when the fuel ran out. -/
def ObLogHandler.append_loop (h : ObLogHandler) (buffer : List Nat) (nbytes ref_ts_ns : Int)
    (need_nonblock : Bool) (env : Nat → PassEnv) : Nat → AppendState → Option AppendState
  | 0, _ => none
  | fuel + 1, s =>
    let opts : PalfAppendOptions :=
      { need_nonblock := need_nonblock, need_check_proposal_id := true,
        proposal_id := h.proposal_id_ }
    let s1 := h.append_pass opts buffer nbytes ref_ts_ns (env s.wait_times) s
    if opts.need_nonblock then some s1
    else if ObRet.OB_EAGAIN = s1.ret then
      h.append_loop buffer nbytes ref_ts_ns need_nonblock env fuel s1.sleep_and_retry
    else some s1

/-- The method `ObLogHandler::append` (lines 181-241).  `cb`, `lsn` and
`ts_ns` are the caller's callback and out-parameters before the call; the
result holds them after the call, with the return code and the calls made.
The cost statistics kept around the loop are not part of the embedding. -/
def ObLogHandler.append (h : ObLogHandler) (buffer : List Nat) (nbytes ref_ts_ns : Int)
    (need_nonblock : Bool) (cb : AppendCb) (lsn : LSN) (ts_ns : Int)
    (env : Nat → PassEnv) (fuel : Nat) : Option AppendState :=
  h.append_loop buffer nbytes ref_ts_ns need_nonblock env fuel (AppendState.entry cb lsn ts_ns)

/-! ## Sequences of operations -/

/-- The operations applied to one handler, as far as they change its member
variables.  `append` and `get_role` change none.  Every other public method
of the file (`safe_to_destroy`, `is_in_sync`, `get_max_decided_log_ts_ns`, the
reconfiguration entry points and the calls forwarded to the engine) assigns no
member except the four cached values `other` carries. -/
inductive Op where
  | init (a : InitArgs) (g : GetApplyStatusResp)
  | stop (apply_status_stop : ObRet)
  | destroy
  | switch_role (role : ObRole) (proposal_id : Int)
  | append
  | get_role
  | other (cached_is_log_sync : Bool) (last_check_sync_ts last_renew_loc_ts debug_time : Int)
  deriving DecidableEq, Repr

/-- The handler after one operation. -/
def ObLogHandler.step (h : ObLogHandler) : Op → ObLogHandler
  | Op.init a g => (h.init a g).2
  | Op.stop apply_status_stop => (h.stop apply_status_stop).2
  | Op.destroy => h.destroy
  | Op.switch_role role proposal_id => h.switch_role role proposal_id
  | Op.append => h
  | Op.get_role => h
  | Op.other c t1 t2 t3 =>
    { h with cached_is_log_sync_ := c, last_check_sync_ts_ := t1, last_renew_loc_ts_ := t2,
             get_max_decided_log_ts_ns_debug_time_ := t3 }

/-- The handler after a sequence of operations, first operation first. -/
def ObLogHandler.run (h : ObLogHandler) : List Op → ObLogHandler
  | [] => h
  | op :: ops => (h.step op).run ops

/-- Whether the operation, applied to `h`, is an `init` that returns `OB_SUCCESS`. -/
def ObLogHandler.is_successful_init (h : ObLogHandler) : Op → Bool
  | Op.init a g => decide ((h.init a g).1 = ObRet.OB_SUCCESS)
  | _ => false

/-- Whether no operation of the sequence, applied from `h` on, is a successful `init`. -/
def ObLogHandler.no_successful_init (h : ObLogHandler) : List Op → Bool
  | [] => true
  | op :: ops => !(h.is_successful_init op) && (h.step op).no_successful_init ops

/-- The handler is Running: initialised and not in stop state. -/
def ObLogHandler.running (h : ObLogHandler) : Prop :=
  h.is_inited_ = true ∧ h.is_in_stop_state_ = false

instance (h : ObLogHandler) : Decidable h.running := by
  unfold ObLogHandler.running; infer_instance

/-- Whether the call is an engine append. -/
def Effect.is_palf_append : Effect → Bool
  | Effect.palf_append _ _ _ _ => true
  | _ => false

/-- Whether the call is a push of a callback into the apply status. -/
def Effect.is_push_append_cb : Effect → Bool
  | Effect.push_append_cb _ _ => true
  | _ => false

/-- Whether the call is a sleep. -/
def Effect.is_ob_usleep : Effect → Bool
  | Effect.ob_usleep _ => true
  | _ => false

/-- Whether every `switch_role` of the sequence, applied from `h` on, carries a
proposal id that is not below the one cached when it is called. -/
def ObLogHandler.switch_roles_not_below (h : ObLogHandler) : List Op → Bool
  | [] => true
  | Op.switch_role role proposal_id :: ops =>
    decide (h.proposal_id_ ≤ proposal_id) &&
      (h.step (Op.switch_role role proposal_id)).switch_roles_not_below ops
  | op :: ops => (h.step op).switch_roles_not_below ops

/-- The dependencies a Running handler relies on: the engine handle is valid
and the apply status, the leader locator and the RPC client are not `NULL`. -/
def ObLogHandler.dependencies_present (h : ObLogHandler) : Prop :=
  h.palf_handle_.is_valid = true ∧ h.apply_status_ ≠ none ∧ h.lc_cb_ ≠ none ∧
  h.rpc_proxy_ ≠ none

/-- The invariant of the data model: a Running handler has its dependencies. -/
def ObLogHandler.invariant (h : ObLogHandler) : Prop :=
  h.running → h.dependencies_present

/-! ## The passes of one `append` call -/

/-- The options `append` builds for every pass (lines 191-197). -/
def ObLogHandler.append_opts (h : ObLogHandler) (need_nonblock : Bool) : PalfAppendOptions :=
  { need_nonblock := need_nonblock, need_check_proposal_id := true,
    proposal_id := h.proposal_id_ }

/-- The state in which the loop enters the pass that follows `k` retries,
counted from the state `s` in which it was entered first. -/
def ObLogHandler.append_entering (h : ObLogHandler) (buffer : List Nat)
    (nbytes ref_ts_ns : Int) (need_nonblock : Bool) (env : Nat → PassEnv) (s : AppendState) :
    Nat → AppendState
  | 0 => s
  | k + 1 =>
    let s0 := h.append_entering buffer nbytes ref_ts_ns need_nonblock env s k
    (h.append_pass (h.append_opts need_nonblock) buffer nbytes ref_ts_ns
      (env s0.wait_times) s0).sleep_and_retry

/-- The state in which the pass that follows `k` retries leaves the loop body:
its `ret` is the outcome of that pass. -/
def ObLogHandler.append_outcome (h : ObLogHandler) (buffer : List Nat)
    (nbytes ref_ts_ns : Int) (need_nonblock : Bool) (env : Nat → PassEnv) (s : AppendState)
    (k : Nat) : AppendState :=
  let s0 := h.append_entering buffer nbytes ref_ts_ns need_nonblock env s k
  h.append_pass (h.append_opts need_nonblock) buffer nbytes ref_ts_ns (env s0.wait_times) s0

/-- The gate of a pass (lines 202-207): the code with which the pass turns the
call away before it reaches the engine, if it does. -/
def ObLogHandler.append_gate (h : ObLogHandler) : Option ObRet :=
  if h.is_inited_ = false then some ObRet.OB_NOT_INIT
  else if h.is_in_stop_state_ then some ObRet.OB_NOT_RUNNING
  else if ObRole.LEADER ≠ h.role_ then some ObRet.OB_NOT_MASTER
  else none

/-- The duration of the call if it is a sleep. -/
def Effect.sleep_us : Effect → Option Nat
  | Effect.ob_usleep us => some us
  | _ => none

/-- The durations of the sleeps among the calls, in order. -/
def sleeps (es : List Effect) : List Nat := es.filterMap Effect.sleep_us

/-- Whether the call is a push that the apply status answered with `OB_SUCCESS`. -/
def Effect.is_accepted_push : Effect → Bool
  | Effect.push_append_cb _ ObRet.OB_SUCCESS => true
  | _ => false

/-- The callback as a pass stamps it when the engine accepts the log at
`(lsn, ts_ns)`: lines 201 and 213-215. -/
def AppendCb.stamped (cb : AppendCb) (e : PassEnv) (lsn : LSN) (ts_ns : Int) : AppendCb :=
  { owner := cb.owner, append_start_ts_ := e.start_time, append_finish_ts_ := e.finish_time,
    lsn_ := lsn, ts_ns_ := ts_ns }

/-! ## Sample values -/

/-- A handler as the constructor leaves it. -/
def sample_constructed : ObLogHandler :=
  { self_ := { ip_port := 0, valid := false }
    id_ := 0
    palf_handle_ := { valid := false }
    palf_env_ := none
    apply_status_ := none
    apply_service_ := none
    replay_service_ := none
    lc_cb_ := none
    rpc_proxy_ := none
    role_ := ObRole.FOLLOWER
    proposal_id_ := 0
    cached_is_log_sync_ := false
    last_check_sync_ts_ := OB_INVALID_TIMESTAMP
    last_renew_loc_ts_ := OB_INVALID_TIMESTAMP
    is_in_stop_state_ := true
    is_inited_ := false
    get_max_decided_log_ts_ns_debug_time_ := OB_INVALID_TIMESTAMP }

/-- Arguments with which `init` succeeds: stream 1, all collaborators present. -/
def sample_init_args : InitArgs :=
  { id := 1
    self := { ip_port := 2882, valid := true }
    apply_service := some 10
    replay_service := some 11
    palf_handle := { valid := true }
    palf_env := some 12
    lc_cb := some 13
    rpc_proxy := some 14 }

/-- The apply service hands out an apply status. -/
def sample_apply_status : GetApplyStatusResp :=
  { ret := ObRet.OB_SUCCESS, apply_status := some 15 }

/-- The handler after `init(stream = 1)`. -/
def sample_running : ObLogHandler :=
  (sample_constructed.init sample_init_args sample_apply_status).2

/-- The handler after `init(stream = 1)` and `switch_role(LEADER, 7)`. -/
def sample_leader : ObLogHandler := sample_running.switch_role ObRole.LEADER 7

/-- The handler after `init(stream = 1)` and `switch_role(FOLLOWER, 7)`. -/
def sample_follower : ObLogHandler := sample_running.switch_role ObRole.FOLLOWER 7

/-- A fresh callback of the caller. -/
def sample_cb : AppendCb :=
  { owner := 42, append_start_ts_ := 0, append_finish_ts_ := 0, lsn_ := { val_ := 0 },
    ts_ns_ := 0 }

/-- A pass in which the clock reads 5 then 6, the engine answers `engine` and
the apply status answers `pushed`. -/
def sample_pass (engine : PalfAppendResp) (pushed : ObRet) : PassEnv :=
  { start_time := 5
    palf_append := fun _ _ _ _ => engine
    finish_time := 6
    push_append_cb := fun _ => pushed }

/-- The engine accepts the log at `(lsn, ts_ns)`. -/
def engine_accepts (lsn : Nat) (ts_ns : Int) : PalfAppendResp :=
  { ret := ObRet.OB_SUCCESS, lsn := { val_ := lsn }, ts_ns := ts_ns }

/-- The engine rejects the log with `ret`, touching neither out-parameter of a
caller that passed `(0, 0)`. -/
def engine_rejects (ret : ObRet) : PalfAppendResp :=
  { ret := ret, lsn := { val_ := 0 }, ts_ns := 0 }

/-! ## Teardown: `safe_to_destroy`, the calls of `destroy`, `wait_append_sync` -/

/-- The answer of `apply_status_->is_apply_done(is_done, end_lsn)`: its return
code and what it left in its two out-parameters. -/
structure IsApplyDoneResp where
  ret : ObRet
  is_done : Bool
  end_lsn : LSN
  deriving DecidableEq, Repr

/-- The method `ObLogHandler::safe_to_destroy` (lines 137-156): the return code
and the handler, which no branch assigns to. -/
def ObLogHandler.safe_to_destroy (h : ObLogHandler) (apply : IsApplyDoneResp) :
    ObRet × ObLogHandler :=
  if h.is_inited_ then
    if h.palf_handle_.is_valid = true ∨ h.is_in_stop_state_ = false then
      (ObRet.OB_STATE_NOT_MATCH, h)
    else if apply.ret ≠ ObRet.OB_SUCCESS then
      (apply.ret, h)
    else if false = apply.is_done then
      (ObRet.OB_EAGAIN, h)
    else
      (ObRet.OB_SUCCESS, h)
  else
    (ObRet.OB_SUCCESS, h)

/-- Modelled from the spec: `palf::PalfBaseInfo` is not among the sources; it is
the base metadata handed through to the engine, kept as a plain value. -/
structure PalfBaseInfo where
  base_lsn : LSN
  deriving DecidableEq, Repr

/-- Modelled from the spec: `common::ObMember` is not among the sources; a
member is a server address with metadata. -/
structure ObMember where
  server_ : ObAddr
  timestamp_ : Int
  deriving DecidableEq, Repr

/-- The method `ObMember::get_server`. -/
def ObMember.get_server (m : ObMember) : ObAddr := m.server_

/-- Modelled from the spec: `logrpc/ob_log_rpc_req.h` is not among the sources;
the kinds of reconfiguration command are those of the spec's wire message. -/
inductive LogConfigChangeCmdType where
  | CHANGE_REPLICA_NUM_CMD
  | ADD_MEMBER_CMD
  | REMOVE_MEMBER_CMD
  | REPLACE_MEMBER_CMD
  | ADD_LEARNER_CMD
  | REMOVE_LEARNER_CMD
  | SWITCH_TO_ACCEPTOR_CMD
  | SWITCH_TO_LEARNER_CMD
  | ADD_ARB_MEMBER_CMD
  | REMOVE_ARB_MEMBER_CMD
  | REPLACE_ARB_MEMBER_CMD
  deriving DecidableEq, Repr

/-- Modelled from the spec: `logrpc/ob_log_rpc_req.h` is not among the sources;
the request `LogConfigChangeCmd` has the fields of the spec's wire message
`ConfigChangeCmd`.  Its methods `is_valid`, `is_add_member_list` and
`is_remove_member_list` are not among the sources either: what they answer for
this request is carried with it. -/
structure LogConfigChangeCmd where
  src_ : ObAddr
  palf_id_ : Int
  added_member_ : ObMember
  removed_member_ : ObMember
  curr_member_list_ : List ObMember
  curr_replica_num_ : Int
  new_replica_num_ : Int
  cmd_type_ : LogConfigChangeCmdType
  timeout_ns_ : Int
  is_valid : Bool
  is_add_member_list : Bool
  is_remove_member_list : Bool
  deriving DecidableEq, Repr

/-- The calls into collaborators made by the methods of the handler other than
`append`, each with what it was called with and, where the method looks at it,
what it answered. -/
inductive Call where
  | wait_quiescent
  | revert_apply_status (apply_status : Option Nat)
  | palf_close
  | replay_is_enabled (id : Int) (ret : ObRet) (is_enabled : Bool)
  | palf_advance_base_info (info : PalfBaseInfo) (is_rebuild : Bool) (ret : ObRet)
  | remove_from_election_blacklist (id : Int) (server : ObAddr) (ret : ObRet)
  | add_to_election_blacklist (id : Int) (server : ObAddr) (ret : ObRet)
  | get_leader (id : Int) (ret : ObRet) (leader : ObAddr)
  | handle_config_change_cmd (req : LogConfigChangeCmd) (ret : ObRet)
  | send_log_config_change_cmd (leader : ObAddr) (conn_timeout_us : Int)
      (max_process_handler_time_us : Int) (req : LogConfigChangeCmd) (rpc_ret : ObRet)
      (resp_ret : ObRet)
  | nonblock_renew_leader (id : Int) (ret : ObRet)
  | ob_usleep (sleep_us : Int)
  deriving DecidableEq, Repr

/-- The calls `ObLogHandler::destroy` makes, in order (lines 158-179): under the
write lock and the dependency lock it reverts the apply status and, if the
engine handle is still valid, closes it. -/
def ObLogHandler.destroy_calls (h : ObLogHandler) : List Call :=
  if h.is_inited_ then
    [Call.revert_apply_status h.apply_status_] ++
      (if h.palf_handle_.is_valid = true then [Call.palf_close] else [])
  else []

/-- The calls `ObLogHandler::wait_append_sync` makes (lines 1114-1116):
`WaitQuiescent(ls_qs_)`. -/
def ObLogHandler.wait_append_sync_calls (_h : ObLogHandler) : List Call :=
  [Call.wait_quiescent]

/-! ## `advance_base_info` -/

/-- The answer of `replay_service_->is_enabled(ls_id, is_replay_enabled)`. -/
structure ReplayIsEnabledResp where
  ret : ObRet
  is_enabled : Bool
  deriving DecidableEq, Repr

/-- The result of `advance_base_info`: the return code and the calls made. -/
structure AdvanceBaseInfoResult where
  ret : ObRet
  calls : List Call
  deriving DecidableEq, Repr

/-- The method `ObLogHandler::advance_base_info` (lines 435-459).
`replay_is_enabled` is the replay service, `palf_advance_base_info` the engine,
each as a function of what it is called with. -/
def ObLogHandler.advance_base_info (h : ObLogHandler) (palf_base_info : PalfBaseInfo)
    (is_rebuild : Bool) (replay_is_enabled : Int → ReplayIsEnabledResp)
    (palf_advance_base_info : PalfBaseInfo → Bool → ObRet) : AdvanceBaseInfoResult :=
  if h.is_inited_ = false then
    { ret := ObRet.OB_NOT_INIT, calls := [] }
  else if h.is_in_stop_state_ then
    { ret := ObRet.OB_NOT_RUNNING, calls := [] }
  else
    let r := replay_is_enabled h.id_
    let asked := [Call.replay_is_enabled h.id_ r.ret r.is_enabled]
    if r.ret ≠ ObRet.OB_SUCCESS then
      { ret := r.ret, calls := asked }
    else if r.is_enabled then
      { ret := ObRet.OB_ERR_UNEXPECTED, calls := asked }
    else
      let a := palf_advance_base_info palf_base_info is_rebuild
      { ret := a, calls := asked ++ [Call.palf_advance_base_info palf_base_info is_rebuild a] }

/-- Whether the call is the engine's `advance_base_info`. -/
def Call.is_palf_advance_base_info : Call → Bool
  | Call.palf_advance_base_info _ _ _ => true
  | _ => false

/-! ## `get_max_decided_log_ts_ns` -/

/-- The value an `int64_t` holds after an arithmetic result `x` is stored in it
(two's complement wrap-around). -/
def wrap_int64 (x : Int) : Int := (x + 2 ^ 63) % 2 ^ 64 - 2 ^ 63

/-- The answer of a call that yields a timestamp: its return code and what it
left in its out-parameter. -/
structure TsResp where
  ret : ObRet
  ts_ns : Int
  deriving DecidableEq, Repr

/-- The answer of `palf_reach_time_interval(interval, warn_time)`, which is not
among the sources: whether the interval has passed since `warn_time`, and the
value it leaves in `warn_time`, which it takes by reference. -/
structure ReachResp where
  reached : Bool
  warn_time : Int
  deriving DecidableEq, Repr

/-- What `get_max_decided_log_ts_ns` meets outside the handler: the apply
service, the replay service, and `palf_reach_time_interval` at its two call
sites (lines 1220 and 1227), each as a function of the interval and of the
timestamp it is handed. -/
structure MaxDecidedEnv where
  get_min_unapplied_log_ts_ns : Int → TsResp
  get_min_unreplayed_log_ts_ns : Int → TsResp
  reach_first : Int → Int → ReachResp
  reach_second : Int → Int → ReachResp

/-- The result of `get_max_decided_log_ts_ns`: the return code, the out-parameter
`log_ts` as the caller finds it, and the handler. -/
structure MaxDecidedResult where
  ret : ObRet
  log_ts : Int
  handler : ObLogHandler
  deriving DecidableEq, Repr

/-- The method `ObLogHandler::get_max_decided_log_ts_ns` (lines 1202-1238).
`log_ts` is the caller's variable before the call. -/
def ObLogHandler.get_max_decided_log_ts_ns (h : ObLogHandler) (e : MaxDecidedEnv)
    (log_ts : Int) : MaxDecidedResult :=
  if h.is_inited_ = false then
    { ret := ObRet.OB_NOT_INIT, log_ts := log_ts, handler := h }
  else if h.is_in_stop_state_ then
    { ret := ObRet.OB_STATE_NOT_MATCH, log_ts := log_ts, handler := h }
  else
    let apply := e.get_min_unapplied_log_ts_ns h.id_
    let min_unapply_log_ts_ns := apply.ts_ns
    if apply.ret ≠ ObRet.OB_SUCCESS then
      { ret := apply.ret, log_ts := log_ts, handler := h }
    else
      let replay := e.get_min_unreplayed_log_ts_ns h.id_
      let min_unreplay_log_ts_ns := replay.ts_ns
      if replay.ret ≠ ObRet.OB_SUCCESS then
        let h1 :=
          if ObRet.OB_STATE_NOT_MATCH ≠ replay.ret then h
          else { h with get_max_decided_log_ts_ns_debug_time_ :=
            (e.reach_first (1000 * 1000) h.get_max_decided_log_ts_ns_debug_time_).warn_time }
        if ObRet.OB_STATE_NOT_MATCH = replay.ret ∧
            OB_INVALID_TIMESTAMP ≠ min_unapply_log_ts_ns then
          { ret := ObRet.OB_SUCCESS
            log_ts := if wrap_int64 (min_unapply_log_ts_ns - 1) > 0
              then wrap_int64 (min_unapply_log_ts_ns - 1) else 0
            handler := { h1 with get_max_decided_log_ts_ns_debug_time_ :=
              (e.reach_second (1000 * 1000) h1.get_max_decided_log_ts_ns_debug_time_).warn_time } }
        else
          { ret := replay.ret, log_ts := log_ts, handler := h1 }
      else
        { ret := ObRet.OB_SUCCESS
          log_ts :=
            if max (wrap_int64 (min_unreplay_log_ts_ns - 1))
                (wrap_int64 (min_unapply_log_ts_ns - 1)) > 0
            then max (wrap_int64 (min_unreplay_log_ts_ns - 1))
              (wrap_int64 (min_unapply_log_ts_ns - 1))
            else 0
          handler := h }

/-- An environment in which the apply service answers `apply`, the replay
service answers `replay`, and no time interval is ever reached. -/
def sample_max_decided_env (apply replay : TsResp) : MaxDecidedEnv :=
  { get_min_unapplied_log_ts_ns := fun _ => apply
    get_min_unreplayed_log_ts_ns := fun _ => replay
    reach_first := fun _ t => { reached := false, warn_time := t }
    reach_second := fun _ t => { reached := false, warn_time := t } }

/-! ## Sync monitor: `is_in_sync`, `get_leader_max_ts_ns_` -/

/-- Modelled from the spec: `palf/lsn.h` is not among the sources; the value
`LOG_INVALID_LSN_VAL` marks an LSN that is not valid, here the largest 64-bit
value. -/
def LOG_INVALID_LSN_VAL : Nat := 2 ^ 64 - 1

/-- The method `LSN::is_valid`. -/
def LSN.is_valid (l : LSN) : Bool := l.val_ != LOG_INVALID_LSN_VAL

/-- The answer of a call that yields an LSN: its return code and what it left
in its out-parameter. -/
structure LsnResp where
  ret : ObRet
  lsn : LSN
  deriving DecidableEq, Repr

/-- The answer of `lc_cb_->get_leader(id_, leader)`. -/
structure GetLeaderResp where
  ret : ObRet
  leader : ObAddr
  deriving DecidableEq, Repr

/-- What `is_in_sync` meets outside the handler: the engine's `get_end_lsn`,
`get_last_rebuild_lsn`, `get_role` and `get_max_ts_ns`, the leader locator, the
`get_palf_stat` RPC (its return code and the `max_ts_ns_` of the response) as
a function of the leader it is sent to, and `palf_reach_time_interval` at its
two call sites (lines 523 and 560). -/
structure IsInSyncEnv where
  get_end_lsn : LsnResp
  get_last_rebuild_lsn : LsnResp
  get_role : PalfGetRoleResp
  get_max_ts_ns : TsResp
  reach_check_sync : Int → Int → ReachResp
  get_leader : Int → GetLeaderResp
  get_palf_stat : ObAddr → TsResp
  reach_renew_loc : Int → Int → ReachResp
  nonblock_renew_leader : Int → ObRet

/-- The result of `get_leader_max_ts_ns_`: the return code, the out-parameter
and the handler, whose `last_renew_loc_ts_` the method may update. -/
structure LeaderMaxTsResult where
  ret : ObRet
  max_ts_ns : Int
  handler : ObLogHandler
  deriving DecidableEq, Repr

/-- The renewal at the end of `get_leader_max_ts_ns_` (lines 560-562): when a
renewal is needed, `palf_reach_time_interval` is asked and takes
`last_renew_loc_ts_` by reference. -/
def ObLogHandler.renew_loc (h : ObLogHandler) (e : IsInSyncEnv) (need_renew_leader : Bool) :
    ObLogHandler :=
  if need_renew_leader then
    { h with last_renew_loc_ts_ := (e.reach_renew_loc (500 * 1000) h.last_renew_loc_ts_).warn_time }
  else h

/-- The method `ObLogHandler::get_leader_max_ts_ns_` (lines 542-564). -/
def ObLogHandler.get_leader_max_ts_ns_ (h : ObLogHandler) (e : IsInSyncEnv) :
    LeaderMaxTsResult :=
  let g := e.get_leader h.id_
  if g.ret ≠ ObRet.OB_SUCCESS then
    { ret := g.ret, max_ts_ns := OB_INVALID_TIMESTAMP, handler := h.renew_loc e true }
  else
    let r := e.get_palf_stat g.leader
    if r.ret ≠ ObRet.OB_SUCCESS then
      { ret := r.ret, max_ts_ns := OB_INVALID_TIMESTAMP, handler := h.renew_loc e true }
    else
      { ret := ObRet.OB_SUCCESS, max_ts_ns := r.ts_ns, handler := h.renew_loc e false }

/-- The constant `SYNC_DELAY_TIME_THRESHOLD_NS` of `is_in_sync`. -/
def SYNC_DELAY_TIME_THRESHOLD_NS : Int := 3 * 1000 * 1000 * 1000

/-- The constant `keepalive_service_interval_ns` of `is_in_sync`. -/
def keepalive_service_interval_ns : Int := 100 * 1000 * 1000

/-- The constant `log_sync_threshold_ns` of `is_in_sync`. -/
def log_sync_threshold_ns : Int := keepalive_service_interval_ns + SYNC_DELAY_TIME_THRESHOLD_NS

/-- The constant `SYNC_GET_LEADER_INFO_INTERVAL_US` of `is_in_sync`. -/
def SYNC_GET_LEADER_INFO_INTERVAL_US : Int := Int.tdiv (Int.tdiv log_sync_threshold_ns 1000) 2

/-- The result of `is_in_sync`: the return code, the two out-parameters and the
handler, whose cached values the method may update. -/
structure IsInSyncResult where
  ret : ObRet
  is_log_sync : Bool
  is_need_rebuild : Bool
  handler : ObLogHandler
  deriving DecidableEq, Repr

/-- The rebuild check of `is_in_sync` (lines 497-505), reached on a running
handler: the return code it leaves and the value of `is_need_rebuild`. -/
def rebuild_check (e : IsInSyncEnv) : ObRet × Bool :=
  if e.get_end_lsn.ret ≠ ObRet.OB_SUCCESS then
    (e.get_end_lsn.ret, false)
  else if e.get_end_lsn.lsn.is_valid = false then
    (ObRet.OB_SUCCESS, false)
  else if e.get_last_rebuild_lsn.ret ≠ ObRet.OB_SUCCESS then
    (e.get_last_rebuild_lsn.ret, false)
  else if e.get_last_rebuild_lsn.lsn.is_valid = true ∧
      e.get_end_lsn.lsn.val_ < e.get_last_rebuild_lsn.lsn.val_ then
    (ObRet.OB_SUCCESS, true)
  else
    (ObRet.OB_SUCCESS, false)

/-- The local variables of the sync check of `is_in_sync` after its chain of
branches (lines 516-530). -/
structure SyncCheck where
  ret : ObRet
  is_log_sync : Bool
  local_max_ts_ns : Int
  leader_max_ts_ns : Int
  handler : ObLogHandler
  deriving DecidableEq, Repr

/-- The chain of branches of the sync check (lines 516-530). -/
def ObLogHandler.sync_check (h : ObLogHandler) (e : IsInSyncEnv) : SyncCheck :=
  if e.get_role.ret ≠ ObRet.OB_SUCCESS then
    { ret := e.get_role.ret, is_log_sync := false, local_max_ts_ns := OB_INVALID_TIMESTAMP,
      leader_max_ts_ns := OB_INVALID_TIMESTAMP, handler := h }
  else if ObRole.LEADER = e.get_role.role then
    { ret := ObRet.OB_SUCCESS, is_log_sync := true, local_max_ts_ns := OB_INVALID_TIMESTAMP,
      leader_max_ts_ns := OB_INVALID_TIMESTAMP, handler := h }
  else if e.get_max_ts_ns.ret ≠ ObRet.OB_SUCCESS ∨
      OB_INVALID_TIMESTAMP = e.get_max_ts_ns.ts_ns then
    { ret := e.get_max_ts_ns.ret, is_log_sync := false,
      local_max_ts_ns := e.get_max_ts_ns.ts_ns,
      leader_max_ts_ns := OB_INVALID_TIMESTAMP, handler := h }
  else
    let p := e.reach_check_sync SYNC_GET_LEADER_INFO_INTERVAL_US h.last_check_sync_ts_
    let h1 := { h with last_check_sync_ts_ := p.warn_time }
    if p.reached then
      let r := h1.get_leader_max_ts_ns_ e
      { ret := r.ret, is_log_sync := false, local_max_ts_ns := e.get_max_ts_ns.ts_ns,
        leader_max_ts_ns := r.max_ts_ns, handler := r.handler }
    else
      { ret := ObRet.OB_SUCCESS, is_log_sync := h1.cached_is_log_sync_,
        local_max_ts_ns := e.get_max_ts_ns.ts_ns,
        leader_max_ts_ns := OB_INVALID_TIMESTAMP, handler := h1 }

/-- The method `ObLogHandler::is_in_sync` (lines 484-540). -/
def ObLogHandler.is_in_sync (h : ObLogHandler) (e : IsInSyncEnv) : IsInSyncResult :=
  if h.is_inited_ = false then
    { ret := ObRet.OB_NOT_INIT, is_log_sync := false, is_need_rebuild := false, handler := h }
  else if h.is_in_stop_state_ then
    { ret := ObRet.OB_NOT_RUNNING, is_log_sync := false, is_need_rebuild := false,
      handler := h }
  else
    let rb := rebuild_check e
    if rb.1 ≠ ObRet.OB_SUCCESS then
      { ret := rb.1, is_log_sync := false, is_need_rebuild := rb.2, handler := h }
    else
      let c := h.sync_check e
      if c.ret = ObRet.OB_SUCCESS ∧ c.leader_max_ts_ns ≠ OB_INVALID_TIMESTAMP then
        let is_log_sync :=
          decide (wrap_int64 (c.leader_max_ts_ns - c.local_max_ts_ns) ≤ log_sync_threshold_ns)
        { ret := ObRet.OB_SUCCESS, is_log_sync := is_log_sync, is_need_rebuild := rb.2,
          handler := { c.handler with cached_is_log_sync_ := is_log_sync } }
      else
        { ret := ObRet.OB_SUCCESS, is_log_sync := c.is_log_sync, is_need_rebuild := rb.2,
          handler := c.handler }

/-- An environment of `is_in_sync` on a follower: the engine reports
`end_lsn`, `last_rebuild_lsn` and the local `max_ts`, the poll interval has
passed (clock reading 1000000), the locator names a leader and the leader
answers `leader_max_ts`. -/
def sample_sync_env (end_lsn last_rebuild_lsn : Nat) (role : ObRole)
    (local_max_ts leader_max_ts : Int) : IsInSyncEnv :=
  { get_end_lsn := { ret := ObRet.OB_SUCCESS, lsn := { val_ := end_lsn } }
    get_last_rebuild_lsn := { ret := ObRet.OB_SUCCESS, lsn := { val_ := last_rebuild_lsn } }
    get_role := { ret := ObRet.OB_SUCCESS, role := role, proposal_id := 7,
                  is_pending_state := false }
    get_max_ts_ns := { ret := ObRet.OB_SUCCESS, ts_ns := local_max_ts }
    reach_check_sync := fun _ _ => { reached := true, warn_time := 1000000 }
    get_leader := fun _ => { ret := ObRet.OB_SUCCESS, leader := { ip_port := 2883, valid := true } }
    get_palf_stat := fun _ => { ret := ObRet.OB_SUCCESS, ts_ns := leader_max_ts }
    reach_renew_loc := fun _ _ => { reached := true, warn_time := 1000000 }
    nonblock_renew_leader := fun _ => ObRet.OB_SUCCESS }

/-! ## Reconfiguration dispatcher: `submit_config_change_cmd_` -/

/-- The answer of the RPC `send_log_config_change_cmd(req, resp)`: the return
code of the RPC itself and the `ret_` of the response it filled in. -/
structure ConfigChangeRpcResp where
  rpc_ret : ObRet
  resp_ret : ObRet
  deriving DecidableEq, Repr

/-- What one iteration of the dispatcher loop meets outside the handler: the
three clock readings of `current_time_ns()` (at the deadline test, at the
renewal test and when the renewal time is recorded), the election blacklist
adapter, the leader locator, the local command handler, the RPC to the leader
(as a function of the leader, the connect timeout, the processing budget and
the request) and `is_server_down_error`. -/
structure DispatchEnv where
  now_check : Int
  remove_from_election_blacklist : Int → ObAddr → ObRet
  get_leader : Int → GetLeaderResp
  handle_config_change_cmd : LogConfigChangeCmd → ObRet
  send_log_config_change_cmd : ObAddr → Int → Int → LogConfigChangeCmd → ConfigChangeRpcResp
  is_server_down_error : ObRet → Bool
  add_to_election_blacklist : Int → ObAddr → ObRet
  now_renew_test : Int
  now_renew_set : Int
  nonblock_renew_leader : Int → ObRet

/-- The local variables of `submit_config_change_cmd_` that live across
iterations, the number of iterations completed, and the calls made so far. -/
structure DispatchState where
  ret : ObRet
  last_renew_leader_ts_ns : Int
  has_added_to_blacklist : Bool
  has_removed_from_blacklist : Bool
  iterations : Nat
  calls : List Call
  deriving DecidableEq, Repr

/-- The constant `MIN_CONN_TIMEOUT_US` of the dispatcher. -/
def MIN_CONN_TIMEOUT_US : Int := 5 * 1000 * 1000

/-- The constant `RENEW_LEADER_INTERVAL_NS` of the dispatcher. -/
def RENEW_LEADER_INTERVAL_NS : Int := 500 * 1000 * 1000

/-- The local `timeout_us` of the dispatcher (line 988). -/
def LogConfigChangeCmd.timeout_us (req : LogConfigChangeCmd) : Int :=
  Int.tdiv req.timeout_ns_ 1000

/-- The local `conn_timeout_us` of the dispatcher (line 989). -/
def LogConfigChangeCmd.conn_timeout_us (req : LogConfigChangeCmd) : Int :=
  min req.timeout_us MIN_CONN_TIMEOUT_US

/-- How the part of an iteration that talks to the leader ends: the state, the
local `need_renew_leader`, and whether the loop was left by `break`. -/
structure CommandOutcome where
  state : DispatchState
  need_renew_leader : Bool
  broke : Bool
  deriving DecidableEq, Repr

/-- The branches of an iteration that look at the response code of the leader
(lines 1030-1058).  `OB_SUCC(resp.ret_)` stores the code in `ret` before it is
compared. -/
def ObLogHandler.dispatch_classify (h : ObLogHandler) (req : LogConfigChangeCmd)
    (e : DispatchEnv) (leader : ObAddr) (resp_ret : ObRet) (s : DispatchState) :
    CommandOutcome :=
  if resp_ret = ObRet.OB_SUCCESS then
    { state := { s with ret := ObRet.OB_SUCCESS }, need_renew_leader := false, broke := true }
  else if ObRet.OB_EAGAIN = resp_ret then
    { state := { s with ret := ObRet.OB_SUCCESS,
                        calls := s.calls ++ [Call.ob_usleep (50 * 1000)] },
      need_renew_leader := false, broke := false }
  else if ObRet.OB_NOT_MASTER = resp_ret then
    { state := { s with ret := ObRet.OB_NOT_MASTER }, need_renew_leader := true,
      broke := false }
  else if ObRet.OB_NOT_ALLOW_REMOVING_LEADER = resp_ret ∧ req.is_remove_member_list = true ∧
      req.removed_member_.get_server = leader then
    if true = s.has_added_to_blacklist then
      { state := { s with ret := ObRet.OB_SUCCESS }, need_renew_leader := false,
        broke := false }
    else if ObRet.OB_SUCCESS ≠ e.add_to_election_blacklist h.id_ leader then
      { state := { s with ret := ObRet.OB_SUCCESS,
                          calls := s.calls ++ [Call.add_to_election_blacklist h.id_ leader
                            (e.add_to_election_blacklist h.id_ leader)] },
        need_renew_leader := false, broke := false }
    else
      { state := { s with ret := ObRet.OB_SUCCESS, has_added_to_blacklist := true,
                          calls := s.calls ++ [Call.add_to_election_blacklist h.id_ leader
                            (e.add_to_election_blacklist h.id_ leader)] },
        need_renew_leader := true, broke := false }
  else
    { state := { s with ret := resp_ret }, need_renew_leader := false, broke := false }

/-- The part of an iteration that locates the leader and hands it the request,
locally or by RPC (lines 1011-1058). -/
def ObLogHandler.dispatch_command (h : ObLogHandler) (req : LogConfigChangeCmd)
    (e : DispatchEnv) (s : DispatchState) : CommandOutcome :=
  if h.is_inited_ = false ∨ h.lc_cb_ = none ∨ h.rpc_proxy_ = none then
    { state := { s with ret := ObRet.OB_NOT_INIT }, need_renew_leader := false,
      broke := false }
  else
    let g := e.get_leader h.id_
    let s1 := { s with calls := s.calls ++ [Call.get_leader h.id_ g.ret g.leader] }
    if g.ret ≠ ObRet.OB_SUCCESS then
      { state := { s1 with ret := ObRet.OB_SUCCESS }, need_renew_leader := true,
        broke := false }
    else if g.leader = h.self_ then
      let r := e.handle_config_change_cmd req
      h.dispatch_classify req e g.leader r
        { s1 with calls := s1.calls ++ [Call.handle_config_change_cmd req r] }
    else
      let r := e.send_log_config_change_cmd g.leader req.conn_timeout_us req.timeout_us req
      let s2 := { s1 with calls := s1.calls ++
        [Call.send_log_config_change_cmd g.leader req.conn_timeout_us req.timeout_us req
          r.rpc_ret r.resp_ret] }
      if r.rpc_ret ≠ ObRet.OB_SUCCESS then
        { state := { s2 with ret := ObRet.OB_SUCCESS },
          need_renew_leader := e.is_server_down_error ObRet.OB_SUCCESS, broke := false }
      else
        h.dispatch_classify req e g.leader r.resp_ret s2

/-- The renewal at the end of an iteration (lines 1059-1064): the result of
`nonblock_renew_leader` becomes the running `ret`. -/
def ObLogHandler.dispatch_renew (h : ObLogHandler) (e : DispatchEnv)
    (need_renew_leader : Bool) (s : DispatchState) : DispatchState :=
  if need_renew_leader = true ∧
      e.now_renew_test - s.last_renew_leader_ts_ns > RENEW_LEADER_INTERVAL_NS then
    { s with last_renew_leader_ts_ns := e.now_renew_set
             ret := e.nonblock_renew_leader h.id_
             calls := s.calls ++ [Call.nonblock_renew_leader h.id_
               (e.nonblock_renew_leader h.id_)] }
  else s

/-- The body of the dispatcher loop (lines 996-1064): the state it leaves and
whether it left the loop by `break`.  The clock readings are nanoseconds since
the epoch, so their differences are taken without wrap-around. -/
def ObLogHandler.dispatch_body (h : ObLogHandler) (req : LogConfigChangeCmd)
    (start_ts_ns : Int) (e : DispatchEnv) (s : DispatchState) : DispatchState × Bool :=
  if e.now_check - start_ts_ns ≥ req.timeout_ns_ then
    ({ s with ret := ObRet.OB_TIMEOUT }, true)
  else if req.is_add_member_list = true ∧ false = s.has_removed_from_blacklist ∧
      ObRet.OB_SUCCESS ≠
        e.remove_from_election_blacklist h.id_ req.added_member_.get_server then
    ({ s with calls := s.calls ++
        [Call.remove_from_election_blacklist h.id_ req.added_member_.get_server
          (e.remove_from_election_blacklist h.id_ req.added_member_.get_server),
         Call.ob_usleep (50 * 1000)] }, false)
  else
    let s1 :=
      if req.is_add_member_list = true ∧ false = s.has_removed_from_blacklist then
        { s with has_removed_from_blacklist := true
                 calls := s.calls ++
                   [Call.remove_from_election_blacklist h.id_ req.added_member_.get_server
                     (e.remove_from_election_blacklist h.id_ req.added_member_.get_server)] }
      else s
    let c := h.dispatch_command req e s1
    if c.broke then (c.state, true)
    else (h.dispatch_renew e c.need_renew_leader c.state, false)

/-- The `while` loop of the dispatcher (line 995).  The iteration made after
`iterations` completed ones meets `env iterations`.  `fuel` bounds the number of
tests of the loop condition; `none` means the loop was still going when the fuel
ran out. -/
def ObLogHandler.dispatch_loop (h : ObLogHandler) (req : LogConfigChangeCmd)
    (start_ts_ns : Int) (env : Nat → DispatchEnv) : Nat → DispatchState → Option DispatchState
  | 0, _ => none
  | fuel + 1, s =>
    if ObRet.OB_SUCCESS = s.ret ∨ ObRet.OB_NOT_MASTER = s.ret then
      let b := h.dispatch_body req start_ts_ns (env s.iterations) s
      if b.2 then some b.1
      else h.dispatch_loop req start_ts_ns env fuel { b.1 with iterations := b.1.iterations + 1 }
    else some s

/-- The state in which the dispatcher enters its loop (lines 990-994). -/
def DispatchState.entry : DispatchState :=
  { ret := ObRet.OB_SUCCESS, last_renew_leader_ts_ns := OB_INVALID_TIMESTAMP,
    has_added_to_blacklist := false, has_removed_from_blacklist := false,
    iterations := 0, calls := [] }

/-- The method `ObLogHandler::submit_config_change_cmd_` (lines 978-1068).
`start_ts_ns` is the clock reading taken on entry.  The result holds the code
returned and the calls made. -/
def ObLogHandler.submit_config_change_cmd_ (h : ObLogHandler) (req : LogConfigChangeCmd)
    (start_ts_ns : Int) (env : Nat → DispatchEnv) (fuel : Nat) : Option DispatchState :=
  if req.is_valid = false then
    some { DispatchState.entry with ret := ObRet.OB_INVALID_ARGUMENT }
  else
    h.dispatch_loop req start_ts_ns env fuel DispatchState.entry

/-- The state in which the loop tests its condition after `k` iterations, none
of which left the loop. -/
def ObLogHandler.dispatch_entering (h : ObLogHandler) (req : LogConfigChangeCmd)
    (start_ts_ns : Int) (env : Nat → DispatchEnv) (s : DispatchState) : Nat → DispatchState
  | 0 => s
  | k + 1 =>
    let s0 := h.dispatch_entering req start_ts_ns env s k
    { (h.dispatch_body req start_ts_ns (env s0.iterations) s0).1 with
      iterations := s0.iterations + 1 }

/-- Whether the loop goes on from `s`: its condition holds (line 995). -/
def DispatchState.goes_on (s : DispatchState) : Prop :=
  ObRet.OB_SUCCESS = s.ret ∨ ObRet.OB_NOT_MASTER = s.ret

instance (s : DispatchState) : Decidable s.goes_on := by
  unfold DispatchState.goes_on; infer_instance

/-- Whether the call is made to the election blacklist adapter, the leader
locator, the local command handler or the RPC proxy. -/
def Call.is_dispatch_call : Call → Bool
  | Call.remove_from_election_blacklist _ _ _ => true
  | Call.add_to_election_blacklist _ _ _ => true
  | Call.get_leader _ _ _ => true
  | Call.handle_config_change_cmd _ _ => true
  | Call.send_log_config_change_cmd _ _ _ _ _ _ => true
  | Call.nonblock_renew_leader _ _ => true
  | _ => false

/-- A request that removes the member at server 2883, with a timeout of 10 s. -/
def sample_remove_member_req : LogConfigChangeCmd :=
  { src_ := { ip_port := 2882, valid := true }
    palf_id_ := 1
    added_member_ := { server_ := { ip_port := 0, valid := false }, timestamp_ := 0 }
    removed_member_ := { server_ := { ip_port := 2883, valid := true }, timestamp_ := 1 }
    curr_member_list_ := []
    curr_replica_num_ := 0
    new_replica_num_ := 2
    cmd_type_ := LogConfigChangeCmdType.REMOVE_MEMBER_CMD
    timeout_ns_ := 10000000000
    is_valid := true
    is_add_member_list := false
    is_remove_member_list := true }

/-- An iteration at clock reading `now` in which the blacklist adapter
succeeds, the locator names the server at 2883 as leader, the RPC to it
succeeds with response code `resp_ret`, and a renewal of the leader location
answers `renew`. -/
def sample_dispatch_env (now : Int) (resp_ret renew : ObRet) : DispatchEnv :=
  { now_check := now
    remove_from_election_blacklist := fun _ _ => ObRet.OB_SUCCESS
    get_leader := fun _ =>
      { ret := ObRet.OB_SUCCESS, leader := { ip_port := 2883, valid := true } }
    handle_config_change_cmd := fun _ => ObRet.OB_SUCCESS
    send_log_config_change_cmd := fun _ _ _ _ =>
      { rpc_ret := ObRet.OB_SUCCESS, resp_ret := resp_ret }
    is_server_down_error := fun _ => false
    add_to_election_blacklist := fun _ _ => ObRet.OB_SUCCESS
    now_renew_test := now
    now_renew_set := now
    nonblock_renew_leader := fun _ => renew }

/-- What the entry points ask of declarations that are not among the sources:
`ObMember::is_valid`, `ObMemberList::is_valid` and `is_valid_replica_num`, each
as a function of what it is asked about. -/
structure ArgChecks where
  member_is_valid : ObMember → Bool
  member_list_is_valid : List ObMember → Bool
  is_valid_replica_num : Int → Bool

/-- What the three methods of a request answer (`is_valid`,
`is_add_member_list`, `is_remove_member_list`): they are not among the sources
and are told to the entry point that constructs the request. -/
structure CmdAnswers where
  is_valid : Bool
  is_add_member_list : Bool
  is_remove_member_list : Bool
  deriving DecidableEq, Repr

/-- Modelled from the spec: the default constructor of `common::ObMember` is
not among the sources; the `dummy_member` of the entry points is a member with
no valid server. -/
def ObMember.dummy : ObMember :=
  { server_ := { ip_port := 0, valid := false }, timestamp_ := OB_INVALID_TIMESTAMP }

/-- Modelled from the spec: the constructor `LogConfigChangeCmd(self, palf_id,
added_member, removed_member, new_replica_num, cmd_type, timeout_ns)` is not
among the sources; it fills the fields of the spec's wire message it is given
and leaves the member list empty. -/
def LogConfigChangeCmd.of_members (self : ObAddr) (palf_id : Int)
    (added_member removed_member : ObMember) (new_replica_num : Int)
    (cmd_type : LogConfigChangeCmdType) (timeout_ns : Int) (a : CmdAnswers) :
    LogConfigChangeCmd :=
  { src_ := self, palf_id_ := palf_id, added_member_ := added_member,
    removed_member_ := removed_member, curr_member_list_ := [], curr_replica_num_ := 0,
    new_replica_num_ := new_replica_num, cmd_type_ := cmd_type, timeout_ns_ := timeout_ns,
    is_valid := a.is_valid, is_add_member_list := a.is_add_member_list,
    is_remove_member_list := a.is_remove_member_list }

/-- Modelled from the spec: the constructor `LogConfigChangeCmd(self, palf_id,
member_list, curr_replica_num, new_replica_num, cmd_type, timeout_ns)` is not
among the sources; it fills the fields of the spec's wire message it is given
and leaves the two members default-constructed. -/
def LogConfigChangeCmd.of_member_list (self : ObAddr) (palf_id : Int)
    (member_list : List ObMember) (curr_replica_num new_replica_num : Int)
    (cmd_type : LogConfigChangeCmdType) (timeout_ns : Int) (a : CmdAnswers) :
    LogConfigChangeCmd :=
  { src_ := self, palf_id_ := palf_id, added_member_ := ObMember.dummy,
    removed_member_ := ObMember.dummy, curr_member_list_ := member_list,
    curr_replica_num_ := curr_replica_num, new_replica_num_ := new_replica_num,
    cmd_type_ := cmd_type, timeout_ns_ := timeout_ns,
    is_valid := a.is_valid, is_add_member_list := a.is_add_member_list,
    is_remove_member_list := a.is_remove_member_list }

/-- What a call of an entry point meets outside the handler: what the methods
of the request it constructs answer, the clock reading with which the
dispatcher starts, and what each iteration of the dispatcher meets. -/
structure SubmitEnv where
  answers : CmdAnswers
  start_ts_ns : Int
  env : Nat → DispatchEnv

/-- The result of an entry point: the return code and the calls made. -/
structure ReconfigResult where
  ret : ObRet
  calls : List Call
  deriving DecidableEq, Repr

/-- What the entry point hands back of the state in which the dispatcher
returned. -/
def DispatchState.result (s : DispatchState) : ReconfigResult :=
  { ret := s.ret, calls := s.calls }

/-- The call `submit_config_change_cmd_(req)` of an entry point. -/
def ObLogHandler.submit (h : ObLogHandler) (req : LogConfigChangeCmd) (w : SubmitEnv)
    (fuel : Nat) : Option ReconfigResult :=
  (h.submit_config_change_cmd_ req w.start_ts_ns w.env fuel).map DispatchState.result

/-- The method `ObLogHandler::change_replica_num` (lines 572-603). -/
def ObLogHandler.change_replica_num (h : ObLogHandler) (k : ArgChecks)
    (member_list : List ObMember) (curr_replica_num new_replica_num timeout_us : Int)
    (w : SubmitEnv) (fuel : Nat) : Option ReconfigResult :=
  if h.is_inited_ = false then
    some { ret := ObRet.OB_NOT_INIT, calls := [] }
  else if h.is_in_stop_state_ then
    some { ret := ObRet.OB_NOT_RUNNING, calls := [] }
  else if k.member_list_is_valid member_list = false ∨
      k.is_valid_replica_num curr_replica_num = false ∨
      k.is_valid_replica_num new_replica_num = false ∨
      curr_replica_num ≤ new_replica_num ∨
      timeout_us ≤ 0 then
    some { ret := ObRet.OB_INVALID_ARGUMENT, calls := [] }
  else
    h.submit (LogConfigChangeCmd.of_member_list h.self_ h.id_ member_list curr_replica_num
      new_replica_num LogConfigChangeCmdType.CHANGE_REPLICA_NUM_CMD
      (wrap_int64 (timeout_us * 1000)) w.answers) w fuel

/-- The method `ObLogHandler::add_member` (lines 611-636). -/
def ObLogHandler.add_member (h : ObLogHandler) (k : ArgChecks) (added_member : ObMember)
    (new_replica_num timeout_us : Int) (w : SubmitEnv) (fuel : Nat) : Option ReconfigResult :=
  if h.is_inited_ = false then
    some { ret := ObRet.OB_NOT_INIT, calls := [] }
  else if h.is_in_stop_state_ then
    some { ret := ObRet.OB_NOT_RUNNING, calls := [] }
  else if k.member_is_valid added_member = false ∨
      k.is_valid_replica_num new_replica_num = false ∨
      timeout_us ≤ 0 then
    some { ret := ObRet.OB_INVALID_ARGUMENT, calls := [] }
  else
    h.submit (LogConfigChangeCmd.of_members h.self_ h.id_ added_member ObMember.dummy
      new_replica_num LogConfigChangeCmdType.ADD_MEMBER_CMD
      (wrap_int64 (timeout_us * 1000)) w.answers) w fuel

/-- The method `ObLogHandler::remove_member` (lines 644-669). -/
def ObLogHandler.remove_member (h : ObLogHandler) (k : ArgChecks) (removed_member : ObMember)
    (new_replica_num timeout_us : Int) (w : SubmitEnv) (fuel : Nat) : Option ReconfigResult :=
  if h.is_inited_ = false then
    some { ret := ObRet.OB_NOT_INIT, calls := [] }
  else if h.is_in_stop_state_ then
    some { ret := ObRet.OB_NOT_RUNNING, calls := [] }
  else if k.member_is_valid removed_member = false ∨
      k.is_valid_replica_num new_replica_num = false ∨
      timeout_us ≤ 0 then
    some { ret := ObRet.OB_INVALID_ARGUMENT, calls := [] }
  else
    h.submit (LogConfigChangeCmd.of_members h.self_ h.id_ ObMember.dummy removed_member
      new_replica_num LogConfigChangeCmdType.REMOVE_MEMBER_CMD
      (wrap_int64 (timeout_us * 1000)) w.answers) w fuel

/-- The method `ObLogHandler::replace_member` (lines 679-703). -/
def ObLogHandler.replace_member (h : ObLogHandler) (k : ArgChecks)
    (added_member removed_member : ObMember) (timeout_us : Int) (w : SubmitEnv)
    (fuel : Nat) : Option ReconfigResult :=
  if h.is_inited_ = false then
    some { ret := ObRet.OB_NOT_INIT, calls := [] }
  else if h.is_in_stop_state_ then
    some { ret := ObRet.OB_NOT_RUNNING, calls := [] }
  else if k.member_is_valid added_member = false ∨
      k.member_is_valid removed_member = false ∨
      timeout_us ≤ 0 then
    some { ret := ObRet.OB_INVALID_ARGUMENT, calls := [] }
  else
    h.submit (LogConfigChangeCmd.of_members h.self_ h.id_ added_member removed_member 0
      LogConfigChangeCmdType.REPLACE_MEMBER_CMD (wrap_int64 (timeout_us * 1000)) w.answers)
      w fuel

/-- The method `ObLogHandler::add_learner` (lines 711-734). -/
def ObLogHandler.add_learner (h : ObLogHandler) (k : ArgChecks) (added_learner : ObMember)
    (timeout_us : Int) (w : SubmitEnv) (fuel : Nat) : Option ReconfigResult :=
  if h.is_inited_ = false then
    some { ret := ObRet.OB_NOT_INIT, calls := [] }
  else if h.is_in_stop_state_ then
    some { ret := ObRet.OB_NOT_RUNNING, calls := [] }
  else if k.member_is_valid added_learner = false ∨ timeout_us ≤ 0 then
    some { ret := ObRet.OB_INVALID_ARGUMENT, calls := [] }
  else
    h.submit (LogConfigChangeCmd.of_members h.self_ h.id_ added_learner ObMember.dummy 0
      LogConfigChangeCmdType.ADD_LEARNER_CMD (wrap_int64 (timeout_us * 1000)) w.answers)
      w fuel

/-- The method `ObLogHandler::remove_learner` (lines 742-766). -/
def ObLogHandler.remove_learner (h : ObLogHandler) (k : ArgChecks) (removed_learner : ObMember)
    (timeout_us : Int) (w : SubmitEnv) (fuel : Nat) : Option ReconfigResult :=
  if h.is_inited_ = false then
    some { ret := ObRet.OB_NOT_INIT, calls := [] }
  else if h.is_in_stop_state_ then
    some { ret := ObRet.OB_NOT_RUNNING, calls := [] }
  else if k.member_is_valid removed_learner = false ∨ timeout_us ≤ 0 then
    some { ret := ObRet.OB_INVALID_ARGUMENT, calls := [] }
  else
    h.submit (LogConfigChangeCmd.of_members h.self_ h.id_ ObMember.dummy removed_learner 0
      LogConfigChangeCmdType.REMOVE_LEARNER_CMD (wrap_int64 (timeout_us * 1000)) w.answers)
      w fuel

/-- The method `ObLogHandler::switch_learner_to_acceptor` (lines 774-796). -/
def ObLogHandler.switch_learner_to_acceptor (h : ObLogHandler) (k : ArgChecks)
    (learner : ObMember) (timeout_us : Int) (w : SubmitEnv) (fuel : Nat) :
    Option ReconfigResult :=
  if h.is_inited_ = false then
    some { ret := ObRet.OB_NOT_INIT, calls := [] }
  else if h.is_in_stop_state_ then
    some { ret := ObRet.OB_NOT_RUNNING, calls := [] }
  else if k.member_is_valid learner = false ∨ timeout_us ≤ 0 then
    some { ret := ObRet.OB_INVALID_ARGUMENT, calls := [] }
  else
    h.submit (LogConfigChangeCmd.of_members h.self_ h.id_ learner learner 0
      LogConfigChangeCmdType.SWITCH_TO_ACCEPTOR_CMD (wrap_int64 (timeout_us * 1000)) w.answers)
      w fuel

/-- The method `ObLogHandler::switch_acceptor_to_learner` (lines 804-826). -/
def ObLogHandler.switch_acceptor_to_learner (h : ObLogHandler) (k : ArgChecks)
    (member : ObMember) (timeout_us : Int) (w : SubmitEnv) (fuel : Nat) :
    Option ReconfigResult :=
  if h.is_inited_ = false then
    some { ret := ObRet.OB_NOT_INIT, calls := [] }
  else if h.is_in_stop_state_ then
    some { ret := ObRet.OB_NOT_RUNNING, calls := [] }
  else if k.member_is_valid member = false ∨ timeout_us ≤ 0 then
    some { ret := ObRet.OB_INVALID_ARGUMENT, calls := [] }
  else
    h.submit (LogConfigChangeCmd.of_members h.self_ h.id_ member member 0
      LogConfigChangeCmdType.SWITCH_TO_LEARNER_CMD (wrap_int64 (timeout_us * 1000)) w.answers)
      w fuel

/-- The method `ObLogHandler::add_arb_member` (lines 834-859). -/
def ObLogHandler.add_arb_member (h : ObLogHandler) (k : ArgChecks) (added_member : ObMember)
    (new_replica_num timeout_us : Int) (w : SubmitEnv) (fuel : Nat) : Option ReconfigResult :=
  if h.is_inited_ = false then
    some { ret := ObRet.OB_NOT_INIT, calls := [] }
  else if h.is_in_stop_state_ then
    some { ret := ObRet.OB_NOT_RUNNING, calls := [] }
  else if k.member_is_valid added_member = false ∨
      k.is_valid_replica_num new_replica_num = false ∨
      timeout_us ≤ 0 then
    some { ret := ObRet.OB_INVALID_ARGUMENT, calls := [] }
  else
    h.submit (LogConfigChangeCmd.of_members h.self_ h.id_ added_member ObMember.dummy
      new_replica_num LogConfigChangeCmdType.ADD_ARB_MEMBER_CMD
      (wrap_int64 (timeout_us * 1000)) w.answers) w fuel

/-- The method `ObLogHandler::remove_arb_member` (lines 867-892). -/
def ObLogHandler.remove_arb_member (h : ObLogHandler) (k : ArgChecks)
    (removed_member : ObMember) (new_replica_num timeout_us : Int) (w : SubmitEnv)
    (fuel : Nat) : Option ReconfigResult :=
  if h.is_inited_ = false then
    some { ret := ObRet.OB_NOT_INIT, calls := [] }
  else if h.is_in_stop_state_ then
    some { ret := ObRet.OB_NOT_RUNNING, calls := [] }
  else if k.member_is_valid removed_member = false ∨
      k.is_valid_replica_num new_replica_num = false ∨
      timeout_us ≤ 0 then
    some { ret := ObRet.OB_INVALID_ARGUMENT, calls := [] }
  else
    h.submit (LogConfigChangeCmd.of_members h.self_ h.id_ ObMember.dummy removed_member
      new_replica_num LogConfigChangeCmdType.REMOVE_ARB_MEMBER_CMD
      (wrap_int64 (timeout_us * 1000)) w.answers) w fuel

/-- The method `ObLogHandler::replace_arb_member` (lines 902-926). -/
def ObLogHandler.replace_arb_member (h : ObLogHandler) (k : ArgChecks)
    (added_member removed_member : ObMember) (timeout_us : Int) (w : SubmitEnv)
    (fuel : Nat) : Option ReconfigResult :=
  if h.is_inited_ = false then
    some { ret := ObRet.OB_NOT_INIT, calls := [] }
  else if h.is_in_stop_state_ then
    some { ret := ObRet.OB_NOT_RUNNING, calls := [] }
  else if k.member_is_valid added_member = false ∨
      k.member_is_valid removed_member = false ∨
      timeout_us ≤ 0 then
    some { ret := ObRet.OB_INVALID_ARGUMENT, calls := [] }
  else
    h.submit (LogConfigChangeCmd.of_members h.self_ h.id_ added_member removed_member 0
      LogConfigChangeCmdType.REPLACE_ARB_MEMBER_CMD (wrap_int64 (timeout_us * 1000))
      w.answers) w fuel

/-- A call of one of the entry points that go through the dispatcher, with its
arguments. -/
inductive ReconfigOp where
  | change_replica_num (member_list : List ObMember)
      (curr_replica_num new_replica_num timeout_us : Int)
  | add_member (added_member : ObMember) (new_replica_num timeout_us : Int)
  | remove_member (removed_member : ObMember) (new_replica_num timeout_us : Int)
  | replace_member (added_member removed_member : ObMember) (timeout_us : Int)
  | add_learner (added_learner : ObMember) (timeout_us : Int)
  | remove_learner (removed_learner : ObMember) (timeout_us : Int)
  | switch_learner_to_acceptor (learner : ObMember) (timeout_us : Int)
  | switch_acceptor_to_learner (member : ObMember) (timeout_us : Int)
  | add_arb_member (added_member : ObMember) (new_replica_num timeout_us : Int)
  | remove_arb_member (removed_member : ObMember) (new_replica_num timeout_us : Int)
  | replace_arb_member (added_member removed_member : ObMember) (timeout_us : Int)
  deriving DecidableEq, Repr

/-- The entry point the call names, applied to the handler. -/
def ObLogHandler.reconfigure (h : ObLogHandler) (k : ArgChecks) (w : SubmitEnv) (fuel : Nat) :
    ReconfigOp → Option ReconfigResult
  | ReconfigOp.change_replica_num l c n t => h.change_replica_num k l c n t w fuel
  | ReconfigOp.add_member m n t => h.add_member k m n t w fuel
  | ReconfigOp.remove_member m n t => h.remove_member k m n t w fuel
  | ReconfigOp.replace_member a r t => h.replace_member k a r t w fuel
  | ReconfigOp.add_learner m t => h.add_learner k m t w fuel
  | ReconfigOp.remove_learner m t => h.remove_learner k m t w fuel
  | ReconfigOp.switch_learner_to_acceptor m t => h.switch_learner_to_acceptor k m t w fuel
  | ReconfigOp.switch_acceptor_to_learner m t => h.switch_acceptor_to_learner k m t w fuel
  | ReconfigOp.add_arb_member m n t => h.add_arb_member k m n t w fuel
  | ReconfigOp.remove_arb_member m n t => h.remove_arb_member k m n t w fuel
  | ReconfigOp.replace_arb_member a r t => h.replace_arb_member k a r t w fuel

/-- The `timeout_us` argument of the call. -/
def ReconfigOp.timeout_us : ReconfigOp → Int
  | ReconfigOp.change_replica_num _ _ _ t => t
  | ReconfigOp.add_member _ _ t => t
  | ReconfigOp.remove_member _ _ t => t
  | ReconfigOp.replace_member _ _ t => t
  | ReconfigOp.add_learner _ t => t
  | ReconfigOp.remove_learner _ t => t
  | ReconfigOp.switch_learner_to_acceptor _ t => t
  | ReconfigOp.switch_acceptor_to_learner _ t => t
  | ReconfigOp.add_arb_member _ _ t => t
  | ReconfigOp.remove_arb_member _ _ t => t
  | ReconfigOp.replace_arb_member _ _ t => t

/-- The member arguments of the call. -/
def ReconfigOp.members : ReconfigOp → List ObMember
  | ReconfigOp.change_replica_num _ _ _ _ => []
  | ReconfigOp.add_member m _ _ => [m]
  | ReconfigOp.remove_member m _ _ => [m]
  | ReconfigOp.replace_member a r _ => [a, r]
  | ReconfigOp.add_learner m _ => [m]
  | ReconfigOp.remove_learner m _ => [m]
  | ReconfigOp.switch_learner_to_acceptor m _ => [m]
  | ReconfigOp.switch_acceptor_to_learner m _ => [m]
  | ReconfigOp.add_arb_member m _ _ => [m]
  | ReconfigOp.remove_arb_member m _ _ => [m]
  | ReconfigOp.replace_arb_member a r _ => [a, r]

/-- The member-list arguments of the call. -/
def ReconfigOp.member_lists : ReconfigOp → List (List ObMember)
  | ReconfigOp.change_replica_num l _ _ _ => [l]
  | _ => []

/-- The replica-number arguments of the call. -/
def ReconfigOp.replica_nums : ReconfigOp → List Int
  | ReconfigOp.change_replica_num _ c n _ => [c, n]
  | ReconfigOp.add_member _ n _ => [n]
  | ReconfigOp.remove_member _ n _ => [n]
  | ReconfigOp.add_arb_member _ n _ => [n]
  | ReconfigOp.remove_arb_member _ n _ => [n]
  | _ => []

/-- The arguments of the call are valid: the timeout is positive and every
member, member list and replica number among them is valid. -/
def ReconfigOp.args_valid (k : ArgChecks) (op : ReconfigOp) : Prop :=
  0 < op.timeout_us ∧ (∀ m ∈ op.members, k.member_is_valid m = true) ∧
  (∀ l ∈ op.member_lists, k.member_list_is_valid l = true) ∧
  (∀ n ∈ op.replica_nums, k.is_valid_replica_num n = true)

/-- The request a call hands to the leader, if it is one that does: the local
command handler or the RPC. -/
def Call.command : Call → Option LogConfigChangeCmd
  | Call.handle_config_change_cmd req _ => some req
  | Call.send_log_config_change_cmd _ _ _ req _ _ => some req
  | _ => none

/-- Whether the call runs the local command handler. -/
def Call.is_handle_config_change_cmd : Call → Bool
  | Call.handle_config_change_cmd _ _ => true
  | _ => false

/-- Whether the call is the RPC to the leader. -/
def Call.is_send_log_config_change_cmd : Call → Bool
  | Call.send_log_config_change_cmd _ _ _ _ _ _ => true
  | _ => false

/-- Whether the call asks the locator to renew the leader location. -/
def Call.is_nonblock_renew_leader : Call → Bool
  | Call.nonblock_renew_leader _ _ => true
  | _ => false

/-- Whether the call is made to the election blacklist adapter. -/
def Call.is_blacklist_call : Call → Bool
  | Call.remove_from_election_blacklist _ _ _ => true
  | Call.add_to_election_blacklist _ _ _ => true
  | _ => false

/-- The calls one iteration of the dispatcher loop adds to those made before. -/
def ObLogHandler.iteration_calls (h : ObLogHandler) (req : LogConfigChangeCmd)
    (start_ts_ns : Int) (e : DispatchEnv) (s : DispatchState) : List Call :=
  (h.dispatch_body req start_ts_ns e s).1.calls.drop s.calls.length

/-- The state in which the loop tests its condition after the iteration made
from `s`, when that iteration did not leave the loop. -/
def ObLogHandler.dispatch_next (h : ObLogHandler) (req : LogConfigChangeCmd)
    (start_ts_ns : Int) (env : Nat → DispatchEnv) (s : DispatchState) : DispatchState :=
  { (h.dispatch_body req start_ts_ns (env s.iterations) s).1 with
    iterations := s.iterations + 1 }

/-! ## `is_valid_member` -/

/-- The answer of the engine's `palf_handle_.get_paxos_member_list`: its return
code and what it left in its two out-parameters. -/
structure PaxosMemberListResp where
  ret : ObRet
  member_list : List ObMember
  paxos_replica_num : Int
  deriving DecidableEq, Repr

/-- Modelled from the spec: `ObMemberList::contains` is not among the sources;
a member list contains an address when one of its members has that server
address. -/
def member_list_contains (member_list : List ObMember) (addr : ObAddr) : Bool :=
  member_list.any (fun m => decide (m.get_server = addr))

/-- What `is_valid_member` meets outside the handler: the engine's `get_role`
at its first call (line 1090), `get_paxos_member_list` (line 1096) and
`get_role` at its second call (line 1099). -/
structure IsValidMemberEnv where
  get_role_first : PalfGetRoleResp
  get_paxos_member_list : PaxosMemberListResp
  get_role_second : PalfGetRoleResp
  deriving DecidableEq, Repr

/-- The result of `is_valid_member`: the return code and the out-parameter as
the caller finds it. -/
structure IsValidMemberResult where
  ret : ObRet
  is_valid : Bool
  deriving DecidableEq, Repr

/-- The method `ObLogHandler::is_valid_member` (lines 1070-1112).  `is_valid`
is the caller's variable before the call. -/
def ObLogHandler.is_valid_member (h : ObLogHandler) (addr : ObAddr) (is_valid : Bool)
    (e : IsValidMemberEnv) : IsValidMemberResult :=
  if h.is_inited_ = false then
    { ret := ObRet.OB_NOT_INIT, is_valid := is_valid }
  else if h.is_in_stop_state_ then
    { ret := ObRet.OB_NOT_RUNNING, is_valid := is_valid }
  else if addr.valid = false then
    { ret := ObRet.OB_INVALID_ARGUMENT, is_valid := is_valid }
  else if e.get_role_first.ret ≠ ObRet.OB_SUCCESS then
    { ret := ObRet.OB_ERR_UNEXPECTED, is_valid := is_valid }
  else if ObRole.LEADER ≠ e.get_role_first.role then
    { ret := ObRet.OB_NOT_MASTER, is_valid := is_valid }
  else if e.get_paxos_member_list.ret ≠ ObRet.OB_SUCCESS then
    { ret := ObRet.OB_ERR_UNEXPECTED, is_valid := is_valid }
  else if e.get_role_second.ret ≠ ObRet.OB_SUCCESS then
    { ret := ObRet.OB_ERR_UNEXPECTED, is_valid := is_valid }
  else if e.get_role_first.role = e.get_role_second.role ∧
      e.get_role_first.proposal_id = e.get_role_second.proposal_id then
    { ret := ObRet.OB_SUCCESS,
      is_valid := member_list_contains e.get_paxos_member_list.member_list addr }
  else
    { ret := ObRet.OB_NOT_MASTER, is_valid := is_valid }

/-- Whether a call is one the dispatcher of `req` on handler `h` makes: every
call to a collaborator is made for the stream of the handler, a command is the
request itself, an RPC carries its two timeouts, a blacklist removal names the
added member, and a sleep lasts 50 ms. -/
def Call.dispatched_for (h : ObLogHandler) (req : LogConfigChangeCmd) : Call → Prop
  | Call.remove_from_election_blacklist id server _ =>
    id = h.id_ ∧ server = req.added_member_.get_server
  | Call.add_to_election_blacklist id _ _ => id = h.id_
  | Call.get_leader id _ _ => id = h.id_
  | Call.handle_config_change_cmd r _ => r = req
  | Call.send_log_config_change_cmd _ conn_timeout_us max_process_handler_time_us r _ _ =>
    conn_timeout_us = req.conn_timeout_us ∧ max_process_handler_time_us = req.timeout_us ∧
    r = req
  | Call.nonblock_renew_leader id _ => id = h.id_
  | Call.ob_usleep sleep_us => sleep_us = 50 * 1000
  | _ => False

/-- Checks under which a member is valid when its server is, a member list when
it is not empty, and a replica number when it lies between 1 and 7. -/
def sample_arg_checks : ArgChecks :=
  { member_is_valid := fun m => m.server_.valid
    member_list_is_valid := fun l => !l.isEmpty
    is_valid_replica_num := fun n => decide (0 < n ∧ n ≤ 7) }

/-- A member list of three servers. -/
def sample_member_list : List ObMember :=
  [{ server_ := { ip_port := 2882, valid := true }, timestamp_ := 1 },
   { server_ := { ip_port := 2883, valid := true }, timestamp_ := 1 },
   { server_ := { ip_port := 2884, valid := true }, timestamp_ := 1 }]

/-- An environment of an entry point: the request it constructs is valid and
neither adds nor removes a member, the dispatcher starts at clock reading
1700000000000000000, and every iteration finds the leader at server 2883, which
answers `resp_ret`. -/
def sample_submit_env (resp_ret : ObRet) : SubmitEnv :=
  { answers := { is_valid := true, is_add_member_list := false,
                 is_remove_member_list := false }
    start_ts_ns := 1700000000000000000
    env := fun _ => sample_dispatch_env 1700000000000000001 resp_ret ObRet.OB_SUCCESS }

/-! ## The parts of one iteration of the dispatcher -/

/-- The state of an iteration after the blacklist removal of lines 1001-1010,
when that removal was not needed or did not fail. -/
def ObLogHandler.dispatch_removed (h : ObLogHandler) (req : LogConfigChangeCmd)
    (e : DispatchEnv) (s : DispatchState) : DispatchState :=
  if req.is_add_member_list = true ∧ false = s.has_removed_from_blacklist then
    { s with has_removed_from_blacklist := true
             calls := s.calls ++
               [Call.remove_from_election_blacklist h.id_ req.added_member_.get_server
                 (e.remove_from_election_blacklist h.id_ req.added_member_.get_server)] }
  else s

/-- The call that hands the request to the located leader (lines 1019-1022):
the local command handler when the leader is this server, the RPC otherwise. -/
def ObLogHandler.command_call (h : ObLogHandler) (req : LogConfigChangeCmd) (e : DispatchEnv)
    (leader : ObAddr) : Call :=
  if leader = h.self_ then
    Call.handle_config_change_cmd req (e.handle_config_change_cmd req)
  else
    Call.send_log_config_change_cmd leader req.conn_timeout_us req.timeout_us req
      (e.send_log_config_change_cmd leader req.conn_timeout_us req.timeout_us req).rpc_ret
      (e.send_log_config_change_cmd leader req.conn_timeout_us req.timeout_us req).resp_ret

/-- The state of an iteration once the locator has named `leader` and the
request has been handed to it. -/
def ObLogHandler.dispatch_asked (h : ObLogHandler) (req : LogConfigChangeCmd)
    (e : DispatchEnv) (s : DispatchState) (leader : ObAddr) : DispatchState :=
  { h.dispatch_removed req e s with
    calls := (h.dispatch_removed req e s).calls ++
      [Call.get_leader h.id_ ObRet.OB_SUCCESS leader] ++ [h.command_call req e leader] }

/-- The end of an iteration (lines 1033 and 1059-1064): the loop is left by
`break`, or the renewal is made if it is due. -/
def ObLogHandler.dispatch_finish (h : ObLogHandler) (e : DispatchEnv) (c : CommandOutcome) :
    DispatchState × Bool :=
  if c.broke = true then (c.state, true)
  else (h.dispatch_renew e c.need_renew_leader c.state, false)

/-- An iteration in which the leader, at server 2883, answers
`OB_NOT_ALLOW_REMOVING_LEADER`, the election blacklist answers `add` to an
addition and the locator answers `renew` to a renewal. -/
def sample_removing_env (now : Int) (add renew : ObRet) : DispatchEnv :=
  { sample_dispatch_env now ObRet.OB_NOT_ALLOW_REMOVING_LEADER renew with
    add_to_election_blacklist := fun _ _ => add }

/-- An iteration in which the leader is located at server 2883 and the RPC to
it fails with the code `OB_OTHER (-8001)`, a connect error: one of the codes for
which `is_server_down_error` answers `true`. -/
def sample_server_down_env (now : Int) : DispatchEnv :=
  { sample_dispatch_env now ObRet.OB_SUCCESS ObRet.OB_SUCCESS with
    send_log_config_change_cmd := fun _ _ _ _ =>
      { rpc_ret := ObRet.OB_OTHER (-8001), resp_ret := ObRet.OB_SUCCESS }
    is_server_down_error := fun r => decide (r = ObRet.OB_OTHER (-8001)) }

/-- Modelled from the spec: the engine is not among the sources; as the spec has
it, the engine re-checks an append against its own proposal id.  A pass against
an engine whose proposal id is `engine_pid`: an append whose options ask for the
check with another proposal id is rejected with `OB_NOT_MASTER`, any other is
accepted at `(100, 200)`. -/
def sample_checking_pass (engine_pid : Int) : PassEnv :=
  { start_time := 5
    palf_append := fun opts _ _ _ =>
      if opts.need_check_proposal_id = true ∧ opts.proposal_id ≠ engine_pid then
        engine_rejects ObRet.OB_NOT_MASTER
      else engine_accepts 100 200
    finish_time := 6
    push_append_cb := fun _ => ObRet.OB_SUCCESS }

/-- An environment of `is_in_sync` on a follower in which the RPC to the leader
fails with `OB_TIMEOUT`. -/
def sample_sync_rpc_fails : IsInSyncEnv :=
  { sample_sync_env 4096 8192 ObRole.FOLLOWER 1000 2000 with
    get_palf_stat := fun _ => { ret := ObRet.OB_TIMEOUT, ts_ns := OB_INVALID_TIMESTAMP } }

/-- The running handler with its cached sync flag set. -/
def sample_in_sync : ObLogHandler := { sample_running with cached_is_log_sync_ := true }

/-- Whether the operation closes the engine handle of an initialised handler
whose handle is valid: `destroy`, or a `stop` whose apply-status stop succeeds. -/
def Op.closes_handle : Op → Bool
  | Op.destroy => true
  | Op.stop apply_status_stop => decide (apply_status_stop = ObRet.OB_SUCCESS)
  | _ => false
/-! ## Lemmas on the lifecycle -/

theorem init_fail_keeps_lifecycle (h : ObLogHandler) (a : InitArgs) (g : GetApplyStatusResp)
    (hf : (h.init a g).1 ≠ ObRet.OB_SUCCESS) :
    (h.init a g).2.is_in_stop_state_ = h.is_in_stop_state_ ∧
    (h.init a g).2.is_inited_ = h.is_inited_ := by
  unfold ObLogHandler.init at hf ⊢
  split_ifs at hf ⊢ <;> simp_all

theorem stop_sets_stop_state (h : ObLogHandler) (r : ObRet) (hi : h.is_inited_ = true) :
    (h.stop r).2.is_in_stop_state_ = true ∧ (h.stop r).2.is_inited_ = true := by
  unfold ObLogHandler.stop
  dsimp only
  split_ifs <;> simp_all

theorem stop_keeps_stop_state (h : ObLogHandler) (r : ObRet)
    (hs : h.is_in_stop_state_ = true) :
    (h.stop r).2.is_in_stop_state_ = true ∧ (h.stop r).2.is_inited_ = h.is_inited_ := by
  unfold ObLogHandler.stop
  dsimp only
  split_ifs <;> simp_all

theorem destroy_lifecycle (h : ObLogHandler) (hs : h.is_in_stop_state_ = true) :
    h.destroy.is_in_stop_state_ = true ∧ h.destroy.is_inited_ = false := by
  unfold ObLogHandler.destroy
  by_cases hi : h.is_inited_ = true
  · simp [hi]
  · simp only [hi]
    exact ⟨hs, by simpa using hi⟩

theorem step_keeps_stop_state (h : ObLogHandler) (op : Op)
    (hs : h.is_in_stop_state_ = true) (hno : h.is_successful_init op = false) :
    (h.step op).is_in_stop_state_ = true ∧
    (h.step op).is_inited_ = (if op = Op.destroy then false else h.is_inited_) := by
  cases op with
  | init a g =>
    have hf : (h.init a g).1 ≠ ObRet.OB_SUCCESS := by
      simpa [ObLogHandler.is_successful_init] using hno
    have := init_fail_keeps_lifecycle h a g hf
    simp [ObLogHandler.step, this, hs]
  | stop r =>
    have := stop_keeps_stop_state h r hs
    simp [ObLogHandler.step, this]
  | destroy =>
    have := destroy_lifecycle h hs
    simp [ObLogHandler.step, this]
  | switch_role role p => simp [ObLogHandler.step, ObLogHandler.switch_role, hs]
  | append => simp [ObLogHandler.step, hs]
  | get_role => simp [ObLogHandler.step, hs]
  | other c t1 t2 t3 => simp [ObLogHandler.step, hs]

theorem run_keeps_stop_state (ops : List Op) (h : ObLogHandler)
    (hs : h.is_in_stop_state_ = true) (hno : h.no_successful_init ops = true) :
    (h.run ops).is_in_stop_state_ = true ∧
    (h.run ops).is_inited_ = (if Op.destroy ∈ ops then false else h.is_inited_) := by
  induction ops generalizing h with
  | nil => simp [ObLogHandler.run, hs]
  | cons op ops ih =>
    simp only [ObLogHandler.no_successful_init, Bool.and_eq_true, Bool.not_eq_true'] at hno
    obtain ⟨h1, h2⟩ := hno
    obtain ⟨hs1, hi1⟩ := step_keeps_stop_state h op hs h1
    obtain ⟨hs2, hi2⟩ := ih (h.step op) hs1 h2
    refine ⟨by simpa [ObLogHandler.run] using hs2, ?_⟩
    simp only [ObLogHandler.run, hi2, hi1, List.mem_cons]
    by_cases hd : Op.destroy ∈ ops
    · simp [hd]
    · by_cases ho : op = Op.destroy
      · simp [ho]
      · have : ¬ (Op.destroy = op) := fun e => ho e.symm
        simp [hd, ho, this]

/-- An append on a handler in stop state makes one pass, which the gate rejects. -/
theorem append_in_stop_state (h : ObLogHandler) (hs : h.is_in_stop_state_ = true)
    (buffer : List Nat) (nbytes ref_ts_ns : Int) (need_nonblock : Bool) (cb : AppendCb)
    (lsn : LSN) (ts_ns : Int) (env : Nat → PassEnv) (fuel : Nat) :
    h.append buffer nbytes ref_ts_ns need_nonblock cb lsn ts_ns env (fuel + 1) =
      some { ret := if h.is_inited_ = true then ObRet.OB_NOT_RUNNING else ObRet.OB_NOT_INIT
             wait_times := 0
             cb := cb.set_append_start_ts (env 0).start_time
             lsn := lsn
             ts_ns := ts_ns
             effects := [] } := by
  unfold ObLogHandler.append ObLogHandler.append_loop ObLogHandler.append_pass AppendState.entry
  cases hi : h.is_inited_ <;> cases need_nonblock <;> simp [hs]

/-! ## C1: no append after stop -/

/-- C1: on the handler reached by `stop` on an initialised handler and then any
sequence of operations without a successful `init`, every `append` (any buffer,
any `need_nonblock`, any cached role, any engine) returns after one pass with an
error, `OB_NOT_RUNNING` while the handler is still initialised (no `destroy` in
the sequence) and `OB_NOT_INIT` after a `destroy`, and has made no call at all:
no engine append and no push of the callback. -/
theorem append_after_stop_returns_error (h : ObLogHandler) (hi : h.is_inited_ = true)
    (apply_status_stop : ObRet) (ops : List Op)
    (hno : (h.stop apply_status_stop).2.no_successful_init ops = true)
    (buffer : List Nat) (nbytes ref_ts_ns : Int) (need_nonblock : Bool) (cb : AppendCb)
    (lsn : LSN) (ts_ns : Int) (env : Nat → PassEnv) (fuel : Nat) :
    ∃ res : AppendState,
      ((h.stop apply_status_stop).2.run ops).append buffer nbytes ref_ts_ns need_nonblock
        cb lsn ts_ns env (fuel + 1) = some res ∧
      res.ret ≠ ObRet.OB_SUCCESS ∧
      (Op.destroy ∉ ops → ((h.stop apply_status_stop).2.run ops).is_inited_ = true ∧
        res.ret = ObRet.OB_NOT_RUNNING) ∧
      (Op.destroy ∈ ops → ((h.stop apply_status_stop).2.run ops).is_inited_ = false ∧
        res.ret = ObRet.OB_NOT_INIT) ∧
      res.effects = [] ∧
      (∀ e ∈ res.effects, e.is_palf_append = false ∧ e.is_push_append_cb = false) := by
  obtain ⟨hs0, hi0⟩ := stop_sets_stop_state h apply_status_stop hi
  obtain ⟨hs, hin⟩ := run_keeps_stop_state ops _ hs0 hno
  refine ⟨_, append_in_stop_state _ hs buffer nbytes ref_ts_ns need_nonblock cb lsn ts_ns
    env fuel, ?_, ?_, ?_, rfl, by simp⟩
  · by_cases hd : Op.destroy ∈ ops <;> simp [hin, hi0, hd]
  · intro hd
    simp [hin, hi0, hd]
  · intro hd
    simp [hin, hd]

theorem append_after_stop_returns_error_witness :
    ∃ res : AppendState,
      ((sample_leader.stop ObRet.OB_SUCCESS).2.run
          [Op.switch_role ObRole.LEADER 8, Op.init sample_init_args sample_apply_status]).append
        [120] 1 0 false sample_cb { val_ := 0 } 0
        (fun _ => sample_pass (engine_accepts 3 30) ObRet.OB_SUCCESS) 1 = some res ∧
      res.ret ≠ ObRet.OB_SUCCESS ∧
      (Op.destroy ∉ [Op.switch_role ObRole.LEADER 8, Op.init sample_init_args sample_apply_status] →
        ((sample_leader.stop ObRet.OB_SUCCESS).2.run
          [Op.switch_role ObRole.LEADER 8,
            Op.init sample_init_args sample_apply_status]).is_inited_ = true ∧
        res.ret = ObRet.OB_NOT_RUNNING) ∧
      (Op.destroy ∈ [Op.switch_role ObRole.LEADER 8, Op.init sample_init_args sample_apply_status] →
        ((sample_leader.stop ObRet.OB_SUCCESS).2.run
          [Op.switch_role ObRole.LEADER 8,
            Op.init sample_init_args sample_apply_status]).is_inited_ = false ∧
        res.ret = ObRet.OB_NOT_INIT) ∧
      res.effects = [] ∧
      (∀ e ∈ res.effects, e.is_palf_append = false ∧ e.is_push_append_cb = false) :=
  append_after_stop_returns_error sample_leader (by decide) ObRet.OB_SUCCESS
    [Op.switch_role ObRole.LEADER 8, Op.init sample_init_args sample_apply_status] (by decide)
    [120] 1 0 false sample_cb { val_ := 0 } 0
    (fun _ => sample_pass (engine_accepts 3 30) ObRet.OB_SUCCESS) 0

/-! ## Lemmas on the append loop -/

theorem append_loop_opts (h : ObLogHandler) (buffer : List Nat) (nbytes ref_ts_ns : Int)
    (need_nonblock : Bool) (env : Nat → PassEnv) (fuel : Nat) (s : AppendState) :
    h.append_loop buffer nbytes ref_ts_ns need_nonblock env (fuel + 1) s =
      if need_nonblock = true then
        some (h.append_pass (h.append_opts need_nonblock) buffer nbytes ref_ts_ns
          (env s.wait_times) s)
      else if ObRet.OB_EAGAIN = (h.append_pass (h.append_opts need_nonblock) buffer nbytes
          ref_ts_ns (env s.wait_times) s).ret then
        h.append_loop buffer nbytes ref_ts_ns need_nonblock env fuel
          (h.append_pass (h.append_opts need_nonblock) buffer nbytes ref_ts_ns
            (env s.wait_times) s).sleep_and_retry
      else
        some (h.append_pass (h.append_opts need_nonblock) buffer nbytes ref_ts_ns
          (env s.wait_times) s) := by
  rfl

theorem append_entering_shift (h : ObLogHandler) (buffer : List Nat) (nbytes ref_ts_ns : Int)
    (need_nonblock : Bool) (env : Nat → PassEnv) (s : AppendState) (k : Nat) :
    h.append_entering buffer nbytes ref_ts_ns need_nonblock env s (k + 1) =
      h.append_entering buffer nbytes ref_ts_ns need_nonblock env
        (h.append_pass (h.append_opts need_nonblock) buffer nbytes ref_ts_ns
          (env s.wait_times) s).sleep_and_retry k := by
  induction k with
  | zero => rfl
  | succ k ih =>
    rw [ObLogHandler.append_entering, ih]
    rfl

theorem append_outcome_shift (h : ObLogHandler) (buffer : List Nat) (nbytes ref_ts_ns : Int)
    (need_nonblock : Bool) (env : Nat → PassEnv) (s : AppendState) (k : Nat) :
    h.append_outcome buffer nbytes ref_ts_ns need_nonblock env s (k + 1) =
      h.append_outcome buffer nbytes ref_ts_ns need_nonblock env
        (h.append_pass (h.append_opts need_nonblock) buffer nbytes ref_ts_ns
          (env s.wait_times) s).sleep_and_retry k := by
  unfold ObLogHandler.append_outcome
  rw [append_entering_shift]

theorem append_loop_nonblock (h : ObLogHandler) (buffer : List Nat) (nbytes ref_ts_ns : Int)
    (env : Nat → PassEnv) (fuel : Nat) (s : AppendState) :
    h.append_loop buffer nbytes ref_ts_ns true env (fuel + 1) s =
      some (h.append_outcome buffer nbytes ref_ts_ns true env s 0) := by
  rw [append_loop_opts]
  simp [ObLogHandler.append_outcome, ObLogHandler.append_entering]

theorem append_loop_block_at (h : ObLogHandler) (buffer : List Nat) (nbytes ref_ts_ns : Int)
    (env : Nat → PassEnv) (n : Nat) :
    ∀ (s : AppendState) (fuel : Nat), n < fuel →
      (∀ k < n, (h.append_outcome buffer nbytes ref_ts_ns false env s k).ret =
        ObRet.OB_EAGAIN) →
      (h.append_outcome buffer nbytes ref_ts_ns false env s n).ret ≠ ObRet.OB_EAGAIN →
      h.append_loop buffer nbytes ref_ts_ns false env fuel s =
        some (h.append_outcome buffer nbytes ref_ts_ns false env s n) := by
  induction n with
  | zero =>
    intro s fuel hf _ hend
    obtain ⟨f, rfl⟩ : ∃ f, fuel = f + 1 := ⟨fuel - 1, by omega⟩
    rw [append_loop_opts]
    have hne : ¬ ObRet.OB_EAGAIN = (h.append_pass (h.append_opts false) buffer nbytes
        ref_ts_ns (env s.wait_times) s).ret := fun e => hend e.symm
    rw [if_neg (by decide), if_neg hne]
    rfl
  | succ n ih =>
    intro s fuel hf hall hend
    obtain ⟨f, rfl⟩ : ∃ f, fuel = f + 1 := ⟨fuel - 1, by omega⟩
    have h0 : ObRet.OB_EAGAIN = (h.append_pass (h.append_opts false) buffer nbytes
        ref_ts_ns (env s.wait_times) s).ret := (hall 0 (by omega)).symm
    rw [append_loop_opts, if_neg (by decide), if_pos h0, append_outcome_shift]
    apply ih _ f (by omega)
    · intro k hk
      rw [← append_outcome_shift]
      exact hall (k + 1) (by omega)
    · rw [← append_outcome_shift]
      exact hend

/-- The loop returns at the first pass whose outcome ends it. -/
theorem append_loop_returns_at (h : ObLogHandler) (buffer : List Nat) (nbytes ref_ts_ns : Int)
    (need_nonblock : Bool) (env : Nat → PassEnv) (n : Nat) (s : AppendState) (fuel : Nat)
    (hf : n < fuel) (hnb : need_nonblock = true → n = 0)
    (hall : ∀ k < n, (h.append_outcome buffer nbytes ref_ts_ns need_nonblock env s k).ret =
      ObRet.OB_EAGAIN)
    (hend : need_nonblock = true ∨
      (h.append_outcome buffer nbytes ref_ts_ns need_nonblock env s n).ret ≠ ObRet.OB_EAGAIN) :
    h.append_loop buffer nbytes ref_ts_ns need_nonblock env fuel s =
      some (h.append_outcome buffer nbytes ref_ts_ns need_nonblock env s n) := by
  cases need_nonblock with
  | true =>
    obtain rfl := hnb rfl
    obtain ⟨f, rfl⟩ : ∃ f, fuel = f + 1 := ⟨fuel - 1, by omega⟩
    exact append_loop_nonblock h buffer nbytes ref_ts_ns env f s
  | false =>
    exact append_loop_block_at h buffer nbytes ref_ts_ns env n s fuel hf hall
      (hend.resolve_left (by decide))

theorem append_loop_block_returned (h : ObLogHandler) (buffer : List Nat)
    (nbytes ref_ts_ns : Int) (env : Nat → PassEnv) (fuel : Nat) :
    ∀ (s res : AppendState),
      h.append_loop buffer nbytes ref_ts_ns false env fuel s = some res →
      ∃ n, n < fuel ∧
        (∀ k < n, (h.append_outcome buffer nbytes ref_ts_ns false env s k).ret =
          ObRet.OB_EAGAIN) ∧
        (h.append_outcome buffer nbytes ref_ts_ns false env s n).ret ≠ ObRet.OB_EAGAIN ∧
        res = h.append_outcome buffer nbytes ref_ts_ns false env s n := by
  induction fuel with
  | zero =>
    intro s res hres
    simp [ObLogHandler.append_loop] at hres
  | succ f ih =>
    intro s res hres
    rw [append_loop_opts, if_neg (by decide)] at hres
    by_cases h0 : ObRet.OB_EAGAIN = (h.append_pass (h.append_opts false) buffer nbytes
        ref_ts_ns (env s.wait_times) s).ret
    · rw [if_pos h0] at hres
      obtain ⟨n, hn, hall, hend, hr⟩ := ih _ res hres
      refine ⟨n + 1, by omega, ?_, ?_, ?_⟩
      · intro k hk
        cases k with
        | zero => exact h0.symm
        | succ k =>
          rw [append_outcome_shift]
          exact hall k (by omega)
      · rw [append_outcome_shift]
        exact hend
      · rw [append_outcome_shift]
        exact hr
    · rw [if_neg h0] at hres
      refine ⟨0, by omega, fun k hk => absurd hk (by omega), fun e => h0 e.symm, ?_⟩
      exact (Option.some.inj hres).symm

/-- Whatever the loop returns is the outcome of a pass that ends it, reached
through passes that all asked for a retry. -/
theorem append_loop_returned (h : ObLogHandler) (buffer : List Nat) (nbytes ref_ts_ns : Int)
    (need_nonblock : Bool) (env : Nat → PassEnv) (fuel : Nat) (s res : AppendState)
    (hres : h.append_loop buffer nbytes ref_ts_ns need_nonblock env fuel s = some res) :
    ∃ n, n < fuel ∧ (need_nonblock = true → n = 0) ∧
      (∀ k < n, (h.append_outcome buffer nbytes ref_ts_ns need_nonblock env s k).ret =
        ObRet.OB_EAGAIN) ∧
      (need_nonblock = true ∨
        (h.append_outcome buffer nbytes ref_ts_ns need_nonblock env s n).ret ≠
          ObRet.OB_EAGAIN) ∧
      res = h.append_outcome buffer nbytes ref_ts_ns need_nonblock env s n := by
  cases need_nonblock with
  | true =>
    cases fuel with
    | zero => simp [ObLogHandler.append_loop] at hres
    | succ f =>
      rw [append_loop_nonblock] at hres
      exact ⟨0, by omega, fun _ => rfl, fun k hk => absurd hk (by omega), Or.inl rfl,
        (Option.some.inj hres).symm⟩
  | false =>
    obtain ⟨n, hn, hall, hend, hr⟩ :=
      append_loop_block_returned h buffer nbytes ref_ts_ns env fuel s res hres
    exact ⟨n, hn, fun hc => absurd hc (by decide), hall, Or.inr hend, hr⟩

/-! ## Lemmas on one pass -/

theorem append_gate_none (h : ObLogHandler) (hrun : h.running) (hl : h.role_ = ObRole.LEADER) :
    h.append_gate = none := by
  obtain ⟨hi, hs⟩ := hrun
  simp [ObLogHandler.append_gate, hi, hs, hl]

theorem append_pass_gate (h : ObLogHandler) (opts : PalfAppendOptions) (buffer : List Nat)
    (nbytes ref_ts_ns : Int) (e : PassEnv) (s : AppendState) (c : ObRet)
    (hg : h.append_gate = some c) :
    h.append_pass opts buffer nbytes ref_ts_ns e s =
      { s with cb := s.cb.set_append_start_ts e.start_time, ret := c } := by
  unfold ObLogHandler.append_gate at hg
  unfold ObLogHandler.append_pass
  split_ifs at hg ⊢ <;> simp_all

theorem append_pass_engine_rejects (h : ObLogHandler) (opts : PalfAppendOptions)
    (buffer : List Nat) (nbytes ref_ts_ns : Int) (e : PassEnv) (s : AppendState)
    (hg : h.append_gate = none)
    (hr : (e.palf_append opts buffer nbytes ref_ts_ns).ret ≠ ObRet.OB_SUCCESS) :
    h.append_pass opts buffer nbytes ref_ts_ns e s =
      { s with
        cb := s.cb.set_append_start_ts e.start_time
        ret := (e.palf_append opts buffer nbytes ref_ts_ns).ret
        lsn := (e.palf_append opts buffer nbytes ref_ts_ns).lsn
        ts_ns := (e.palf_append opts buffer nbytes ref_ts_ns).ts_ns
        effects := s.effects ++ [Effect.palf_append opts buffer nbytes ref_ts_ns] } := by
  unfold ObLogHandler.append_gate at hg
  unfold ObLogHandler.append_pass
  split_ifs at hg ⊢
  simp_all

theorem append_pass_engine_accepts (h : ObLogHandler) (opts : PalfAppendOptions)
    (buffer : List Nat) (nbytes ref_ts_ns : Int) (e : PassEnv) (s : AppendState)
    (hg : h.append_gate = none)
    (hr : (e.palf_append opts buffer nbytes ref_ts_ns).ret = ObRet.OB_SUCCESS) :
    h.append_pass opts buffer nbytes ref_ts_ns e s =
      { s with
        cb := s.cb.stamped e (e.palf_append opts buffer nbytes ref_ts_ns).lsn
          (e.palf_append opts buffer nbytes ref_ts_ns).ts_ns
        ret := e.push_append_cb (s.cb.stamped e (e.palf_append opts buffer nbytes ref_ts_ns).lsn
          (e.palf_append opts buffer nbytes ref_ts_ns).ts_ns)
        lsn := (e.palf_append opts buffer nbytes ref_ts_ns).lsn
        ts_ns := (e.palf_append opts buffer nbytes ref_ts_ns).ts_ns
        effects := s.effects ++ [Effect.palf_append opts buffer nbytes ref_ts_ns,
          Effect.push_append_cb (s.cb.stamped e (e.palf_append opts buffer nbytes ref_ts_ns).lsn
              (e.palf_append opts buffer nbytes ref_ts_ns).ts_ns)
            (e.push_append_cb (s.cb.stamped e (e.palf_append opts buffer nbytes ref_ts_ns).lsn
              (e.palf_append opts buffer nbytes ref_ts_ns).ts_ns))] } := by
  unfold ObLogHandler.append_gate at hg
  unfold ObLogHandler.append_pass
  split_ifs at hg ⊢
  simp [AppendCb.stamped, AppendCb.set_append_start_ts, AppendCb.set_append_finish_ts,
    AppendCb.set_lsn, AppendCb.set_ts_ns, hr]

/-- The three ways a pass can go. -/
theorem append_pass_cases (h : ObLogHandler) (opts : PalfAppendOptions)
    (buffer : List Nat) (nbytes ref_ts_ns : Int) (e : PassEnv) (s : AppendState) :
    (∃ c, h.append_gate = some c ∧ c ≠ ObRet.OB_SUCCESS ∧ c ≠ ObRet.OB_EAGAIN ∧
      (h.append_pass opts buffer nbytes ref_ts_ns e s).ret = c ∧
      (h.append_pass opts buffer nbytes ref_ts_ns e s).effects = s.effects) ∨
    (h.append_gate = none ∧
      (e.palf_append opts buffer nbytes ref_ts_ns).ret ≠ ObRet.OB_SUCCESS ∧
      (h.append_pass opts buffer nbytes ref_ts_ns e s).ret =
        (e.palf_append opts buffer nbytes ref_ts_ns).ret ∧
      (h.append_pass opts buffer nbytes ref_ts_ns e s).effects =
        s.effects ++ [Effect.palf_append opts buffer nbytes ref_ts_ns]) ∨
    (h.append_gate = none ∧
      (e.palf_append opts buffer nbytes ref_ts_ns).ret = ObRet.OB_SUCCESS ∧
      (h.append_pass opts buffer nbytes ref_ts_ns e s).ret =
        e.push_append_cb (h.append_pass opts buffer nbytes ref_ts_ns e s).cb ∧
      (h.append_pass opts buffer nbytes ref_ts_ns e s).effects =
        s.effects ++ [Effect.palf_append opts buffer nbytes ref_ts_ns,
          Effect.push_append_cb (h.append_pass opts buffer nbytes ref_ts_ns e s).cb
            (h.append_pass opts buffer nbytes ref_ts_ns e s).ret]) := by
  cases hg : h.append_gate with
  | some c =>
    left
    refine ⟨c, rfl, ?_, ?_, ?_, ?_⟩
    · unfold ObLogHandler.append_gate at hg
      split_ifs at hg <;> simp at hg <;> simp [← hg]
    · unfold ObLogHandler.append_gate at hg
      split_ifs at hg <;> simp at hg <;> simp [← hg]
    · rw [append_pass_gate h opts buffer nbytes ref_ts_ns e s c hg]
    · rw [append_pass_gate h opts buffer nbytes ref_ts_ns e s c hg]
  | none =>
    right
    by_cases hr : (e.palf_append opts buffer nbytes ref_ts_ns).ret = ObRet.OB_SUCCESS
    · right
      rw [append_pass_engine_accepts h opts buffer nbytes ref_ts_ns e s hg hr]
      exact ⟨rfl, hr, rfl, rfl⟩
    · left
      rw [append_pass_engine_rejects h opts buffer nbytes ref_ts_ns e s hg hr]
      exact ⟨rfl, hr, rfl, rfl⟩

theorem append_pass_wait_times (h : ObLogHandler) (opts : PalfAppendOptions)
    (buffer : List Nat) (nbytes ref_ts_ns : Int) (e : PassEnv) (s : AppendState) :
    (h.append_pass opts buffer nbytes ref_ts_ns e s).wait_times = s.wait_times := by
  cases hg : h.append_gate with
  | some c => rw [append_pass_gate h opts buffer nbytes ref_ts_ns e s c hg]
  | none =>
    by_cases hr : (e.palf_append opts buffer nbytes ref_ts_ns).ret = ObRet.OB_SUCCESS
    · rw [append_pass_engine_accepts h opts buffer nbytes ref_ts_ns e s hg hr]
    · rw [append_pass_engine_rejects h opts buffer nbytes ref_ts_ns e s hg hr]

theorem append_entering_wait_times (h : ObLogHandler) (buffer : List Nat)
    (nbytes ref_ts_ns : Int) (need_nonblock : Bool) (env : Nat → PassEnv) (s : AppendState)
    (k : Nat) :
    (h.append_entering buffer nbytes ref_ts_ns need_nonblock env s k).wait_times =
      s.wait_times + k := by
  induction k with
  | zero => rfl
  | succ k ih =>
    simp only [ObLogHandler.append_entering, AppendState.sleep_and_retry,
      append_pass_wait_times, ih]
    omega

/-- C2 (as stated, refuted): on the running handler with cache `(LEADER, 7)`,
when the engine's `get_role` fails, `get_role` returns the engine's error and
assigns neither out-parameter, so the caller's `proposal_id` variable (here 0)
is not the cached proposal id 7: `get_role` does not always report it. -/
theorem get_role_engine_failure_counterexample :
    sample_leader.running ∧ sample_leader.role_ = ObRole.LEADER ∧
    sample_leader.proposal_id_ = 7 ∧
    sample_leader.get_role
      { ret := ObRet.OB_ERR_UNEXPECTED, role := ObRole.LEADER, proposal_id := 7,
        is_pending_state := false } ObRole.FOLLOWER 0 =
      { ret := ObRet.OB_ERR_UNEXPECTED, role := ObRole.FOLLOWER, proposal_id := 0 } ∧
    (sample_leader.get_role
      { ret := ObRet.OB_ERR_UNEXPECTED, role := ObRole.LEADER, proposal_id := 7,
        is_pending_state := false } ObRole.FOLLOWER 0).proposal_id ≠
      sample_leader.proposal_id_ := by
  decide

/-- C2 (as amended): on a running handler `get_role` returns `OB_SUCCESS` unless
the cached role is `LEADER` and the engine's `get_role` fails, in which case it
returns the engine's error and leaves both out-parameters as they were; whenever
it returns `OB_SUCCESS` it reports the cached proposal id, and it reports
`LEADER` only if the cached role is `LEADER`, the engine's `get_role` succeeded
with role `LEADER` and the engine's proposal id equals the cached one.  With
cache `(LEADER, 7)` and engine proposal id 8 it returns `OB_SUCCESS` with
`(FOLLOWER, 7)`. -/
theorem get_role_reports_cached_proposal_id (h : ObLogHandler) (hrun : h.running)
    (palf : PalfGetRoleResp) (role : ObRole) (proposal_id : Int) :
    ((h.get_role palf role proposal_id).ret = ObRet.OB_SUCCESS →
      (h.get_role palf role proposal_id).proposal_id = h.proposal_id_) ∧
    ((h.get_role palf role proposal_id).ret = ObRet.OB_SUCCESS →
      (h.get_role palf role proposal_id).role = ObRole.LEADER →
      h.role_ = ObRole.LEADER ∧ palf.ret = ObRet.OB_SUCCESS ∧
      palf.proposal_id = h.proposal_id_ ∧ palf.role = ObRole.LEADER) ∧
    ((h.get_role palf role proposal_id).ret ≠ ObRet.OB_SUCCESS ↔
      (h.role_ = ObRole.LEADER ∧ palf.ret ≠ ObRet.OB_SUCCESS)) ∧
    ((h.get_role palf role proposal_id).ret ≠ ObRet.OB_SUCCESS →
      h.get_role palf role proposal_id =
        { ret := palf.ret, role := role, proposal_id := proposal_id }) ∧
    (h.role_ = ObRole.LEADER → h.proposal_id_ = 7 → palf.ret = ObRet.OB_SUCCESS →
      palf.proposal_id = 8 →
      h.get_role palf role proposal_id =
        { ret := ObRet.OB_SUCCESS, role := ObRole.FOLLOWER, proposal_id := 7 }) := by
  obtain ⟨hi, hs⟩ := hrun
  unfold ObLogHandler.get_role
  simp only [hi, hs]
  cases hr : h.role_ <;> by_cases hp : palf.ret = ObRet.OB_SUCCESS <;>
    by_cases hq : palf.proposal_id = h.proposal_id_ <;> simp [hp, hq]
  all_goals
    intro h7 h8
    omega

theorem get_role_reports_cached_proposal_id_witness :
    sample_leader.running ∧
    sample_leader.get_role
      { ret := ObRet.OB_SUCCESS, role := ObRole.LEADER, proposal_id := 8,
        is_pending_state := false } ObRole.LEADER 0 =
      { ret := ObRet.OB_SUCCESS, role := ObRole.FOLLOWER, proposal_id := 7 } :=
  ⟨by decide,
    (get_role_reports_cached_proposal_id sample_leader (by decide)
      { ret := ObRet.OB_SUCCESS, role := ObRole.LEADER, proposal_id := 8,
        is_pending_state := false } ObRole.LEADER 0).2.2.2.2 rfl rfl rfl rfl⟩

/-! ## C3: append on a follower -/

/-- C3 (as stated, refuted): after `switch_role(FOLLOWER, 7)` an `append` with a
callback whose start timestamp is 0, at clock reading 5, returns
`OB_NOT_MASTER` having called nobody, but the callback's start timestamp is
now 5: the callback is not exactly as it was before the call. -/
theorem append_follower_counterexample :
    sample_follower.running ∧ sample_follower.role_ = ObRole.FOLLOWER ∧
    sample_follower.append [120] 1 0 true sample_cb { val_ := 0 } 0
        (fun _ => sample_pass (engine_accepts 3 30) ObRet.OB_SUCCESS) 1 =
      some { ret := ObRet.OB_NOT_MASTER, wait_times := 0,
             cb := { owner := 42, append_start_ts_ := 5, append_finish_ts_ := 0,
                     lsn_ := { val_ := 0 }, ts_ns_ := 0 },
             lsn := { val_ := 0 }, ts_ns := 0, effects := [] } ∧
    sample_cb.append_start_ts_ = 0 ∧
    ({ owner := 42, append_start_ts_ := 5, append_finish_ts_ := 0,
       lsn_ := { val_ := 0 }, ts_ns_ := 0 } : AppendCb) ≠ sample_cb := by
  decide

/-- C3 (as amended): on every running handler whose cached role is `FOLLOWER`,
`append` returns `OB_NOT_MASTER` after one pass, calls neither the engine nor
the apply status, leaves the caller's `lsn` and `ts_ns` and the callback's finish
timestamp, lsn and commit timestamp exactly as they were, and has set the
callback's start timestamp to the clock reading taken at the start of the
pass. -/
theorem append_follower_not_master (h : ObLogHandler) (hrun : h.running)
    (hf : h.role_ = ObRole.FOLLOWER)
    (buffer : List Nat) (nbytes ref_ts_ns : Int) (need_nonblock : Bool) (cb : AppendCb)
    (lsn : LSN) (ts_ns : Int) (env : Nat → PassEnv) (fuel : Nat) :
    ∃ res : AppendState,
      h.append buffer nbytes ref_ts_ns need_nonblock cb lsn ts_ns env (fuel + 1) = some res ∧
      res.ret = ObRet.OB_NOT_MASTER ∧
      res.effects = [] ∧
      res.lsn = lsn ∧ res.ts_ns = ts_ns ∧
      res.cb.owner = cb.owner ∧
      res.cb.append_finish_ts_ = cb.append_finish_ts_ ∧
      res.cb.lsn_ = cb.lsn_ ∧
      res.cb.ts_ns_ = cb.ts_ns_ ∧
      res.cb.append_start_ts_ = (env 0).start_time := by
  obtain ⟨hi, hs⟩ := hrun
  have hg : h.append_gate = some ObRet.OB_NOT_MASTER := by
    simp [ObLogHandler.append_gate, hi, hs, hf]
  have hp := append_pass_gate h (h.append_opts need_nonblock) buffer nbytes ref_ts_ns (env 0)
    (AppendState.entry cb lsn ts_ns) ObRet.OB_NOT_MASTER hg
  refine ⟨_, append_loop_returns_at h buffer nbytes ref_ts_ns need_nonblock env 0
    (AppendState.entry cb lsn ts_ns) (fuel + 1) (by omega) (fun _ => rfl)
    (fun k hk => absurd hk (by omega)) (Or.inr ?_), ?_⟩
  · simp only [ObLogHandler.append_outcome, ObLogHandler.append_entering]
    rw [show (AppendState.entry cb lsn ts_ns).wait_times = 0 from rfl, hp]
    simp
  · simp only [ObLogHandler.append_outcome, ObLogHandler.append_entering]
    rw [show (AppendState.entry cb lsn ts_ns).wait_times = 0 from rfl, hp]
    simp [AppendState.entry, AppendCb.set_append_start_ts]

theorem append_follower_not_master_witness :
    ∃ res : AppendState,
      (sample_running.switch_role ObRole.FOLLOWER 7).append [120] 1 0 false sample_cb
        { val_ := 0 } 0 (fun _ => sample_pass (engine_accepts 3 30) ObRet.OB_SUCCESS) 1 =
        some res ∧
      res.ret = ObRet.OB_NOT_MASTER ∧
      res.effects = [] ∧
      res.lsn = { val_ := 0 } ∧ res.ts_ns = 0 ∧
      res.cb.owner = sample_cb.owner ∧
      res.cb.append_finish_ts_ = sample_cb.append_finish_ts_ ∧
      res.cb.lsn_ = sample_cb.lsn_ ∧
      res.cb.ts_ns_ = sample_cb.ts_ns_ ∧
      res.cb.append_start_ts_ =
        ((fun _ => sample_pass (engine_accepts 3 30) ObRet.OB_SUCCESS) 0 : PassEnv).start_time :=
  append_follower_not_master (sample_running.switch_role ObRole.FOLLOWER 7) (by decide)
    (by decide) [120] 1 0 false sample_cb { val_ := 0 } 0
    (fun _ => sample_pass (engine_accepts 3 30) ObRet.OB_SUCCESS) 0

/-! ## Lemmas on the calls made by the passes of one `append` -/

theorem append_outcome_cases (h : ObLogHandler) (buffer : List Nat) (nbytes ref_ts_ns : Int)
    (need_nonblock : Bool) (env : Nat → PassEnv) (s : AppendState) (k : Nat) :
    (∃ c, h.append_gate = some c ∧ c ≠ ObRet.OB_SUCCESS ∧ c ≠ ObRet.OB_EAGAIN ∧
      (h.append_outcome buffer nbytes ref_ts_ns need_nonblock env s k).ret = c ∧
      (h.append_outcome buffer nbytes ref_ts_ns need_nonblock env s k).effects =
        (h.append_entering buffer nbytes ref_ts_ns need_nonblock env s k).effects) ∨
    (h.append_gate = none ∧
      ((env (s.wait_times + k)).palf_append (h.append_opts need_nonblock) buffer nbytes
        ref_ts_ns).ret ≠ ObRet.OB_SUCCESS ∧
      (h.append_outcome buffer nbytes ref_ts_ns need_nonblock env s k).ret =
        ((env (s.wait_times + k)).palf_append (h.append_opts need_nonblock) buffer nbytes
          ref_ts_ns).ret ∧
      (h.append_outcome buffer nbytes ref_ts_ns need_nonblock env s k).effects =
        (h.append_entering buffer nbytes ref_ts_ns need_nonblock env s k).effects ++
          [Effect.palf_append (h.append_opts need_nonblock) buffer nbytes ref_ts_ns]) ∨
    (h.append_gate = none ∧
      ((env (s.wait_times + k)).palf_append (h.append_opts need_nonblock) buffer nbytes
        ref_ts_ns).ret = ObRet.OB_SUCCESS ∧
      (h.append_outcome buffer nbytes ref_ts_ns need_nonblock env s k).ret =
        (env (s.wait_times + k)).push_append_cb
          (h.append_outcome buffer nbytes ref_ts_ns need_nonblock env s k).cb ∧
      (h.append_outcome buffer nbytes ref_ts_ns need_nonblock env s k).effects =
        (h.append_entering buffer nbytes ref_ts_ns need_nonblock env s k).effects ++
          [Effect.palf_append (h.append_opts need_nonblock) buffer nbytes ref_ts_ns,
            Effect.push_append_cb
              (h.append_outcome buffer nbytes ref_ts_ns need_nonblock env s k).cb
              (h.append_outcome buffer nbytes ref_ts_ns need_nonblock env s k).ret]) := by
  have hw := append_entering_wait_times h buffer nbytes ref_ts_ns need_nonblock env s k
  have hc := append_pass_cases h (h.append_opts need_nonblock) buffer nbytes ref_ts_ns
    (env (s.wait_times + k)) (h.append_entering buffer nbytes ref_ts_ns need_nonblock env s k)
  unfold ObLogHandler.append_outcome
  simp only [hw]
  exact hc

theorem append_entering_succ_effects (h : ObLogHandler) (buffer : List Nat)
    (nbytes ref_ts_ns : Int) (need_nonblock : Bool) (env : Nat → PassEnv) (s : AppendState)
    (k : Nat) :
    (h.append_entering buffer nbytes ref_ts_ns need_nonblock env s (k + 1)).effects =
      (h.append_outcome buffer nbytes ref_ts_ns need_nonblock env s k).effects ++
        [Effect.ob_usleep (min (10 * (s.wait_times + k + 1)) 100)] := by
  have hw : (h.append_outcome buffer nbytes ref_ts_ns need_nonblock env s k).wait_times =
      s.wait_times + k := by
    unfold ObLogHandler.append_outcome
    simp only [append_pass_wait_times, append_entering_wait_times]
  show ((h.append_outcome buffer nbytes ref_ts_ns need_nonblock env s k).sleep_and_retry).effects
    = _
  simp only [AppendState.sleep_and_retry, hw, MAX_SLEEP_US]
  have hm : (if (s.wait_times + k + 1) * 10 > 100 then 100 else (s.wait_times + k + 1) * 10) =
      min (10 * (s.wait_times + k + 1)) 100 := by
    rw [min_def]
    split_ifs <;> omega
  rw [hm]

theorem sleeps_append (a b : List Effect) : sleeps (a ++ b) = sleeps a ++ sleeps b := by
  simp [sleeps, List.filterMap_append]

theorem append_outcome_sleeps (h : ObLogHandler) (buffer : List Nat) (nbytes ref_ts_ns : Int)
    (need_nonblock : Bool) (env : Nat → PassEnv) (s : AppendState) (k : Nat) :
    sleeps (h.append_outcome buffer nbytes ref_ts_ns need_nonblock env s k).effects =
      sleeps (h.append_entering buffer nbytes ref_ts_ns need_nonblock env s k).effects := by
  rcases append_outcome_cases h buffer nbytes ref_ts_ns need_nonblock env s k with
    ⟨c, _, _, _, _, he⟩ | ⟨_, _, _, he⟩ | ⟨_, _, _, he⟩
  · rw [he]
  · rw [he, sleeps_append]
    simp [sleeps, Effect.sleep_us]
  · rw [he, sleeps_append]
    simp [sleeps, Effect.sleep_us]

theorem append_entering_sleeps (h : ObLogHandler) (buffer : List Nat) (nbytes ref_ts_ns : Int)
    (need_nonblock : Bool) (env : Nat → PassEnv) (s : AppendState) (k : Nat) :
    sleeps (h.append_entering buffer nbytes ref_ts_ns need_nonblock env s k).effects =
      sleeps s.effects ++
        (List.range k).map (fun i => min (10 * (s.wait_times + i + 1)) 100) := by
  induction k with
  | zero => simp [ObLogHandler.append_entering]
  | succ k ih =>
    rw [append_entering_succ_effects, sleeps_append, append_outcome_sleeps, ih,
      List.range_succ, List.map_append, List.append_assoc]
    simp [sleeps, Effect.sleep_us]

/-- While every pass so far asked for a retry, no push has been answered with
`OB_SUCCESS`. -/
theorem append_entering_no_accepted_push (h : ObLogHandler) (buffer : List Nat)
    (nbytes ref_ts_ns : Int) (need_nonblock : Bool) (env : Nat → PassEnv) (s : AppendState)
    (k : Nat)
    (hall : ∀ j < k, (h.append_outcome buffer nbytes ref_ts_ns need_nonblock env s j).ret =
      ObRet.OB_EAGAIN) :
    (h.append_entering buffer nbytes ref_ts_ns need_nonblock env s k).effects.filter
      Effect.is_accepted_push = s.effects.filter Effect.is_accepted_push := by
  induction k with
  | zero => rfl
  | succ k ih =>
    have ihk := ih (fun j hj => hall j (by omega))
    have hk := hall k (by omega)
    rw [append_entering_succ_effects, List.filter_append]
    rcases append_outcome_cases h buffer nbytes ref_ts_ns need_nonblock env s k with
      ⟨c, _, _, _, _, he⟩ | ⟨_, _, _, he⟩ | ⟨_, _, _, he⟩
    · rw [he, ihk]
      simp [Effect.is_accepted_push]
    · rw [he, List.filter_append, ihk]
      simp [Effect.is_accepted_push]
    · rw [he, List.filter_append, ihk, hk]
      simp [Effect.is_accepted_push]

/-- While the engine rejected the log in every pass so far, no push has been made. -/
theorem append_entering_no_push (h : ObLogHandler) (buffer : List Nat)
    (nbytes ref_ts_ns : Int) (need_nonblock : Bool) (env : Nat → PassEnv) (s : AppendState)
    (k : Nat)
    (hrej : ∀ j < k, ((env (s.wait_times + j)).palf_append (h.append_opts need_nonblock)
      buffer nbytes ref_ts_ns).ret ≠ ObRet.OB_SUCCESS) :
    (h.append_entering buffer nbytes ref_ts_ns need_nonblock env s k).effects.filter
      Effect.is_push_append_cb = s.effects.filter Effect.is_push_append_cb := by
  induction k with
  | zero => rfl
  | succ k ih =>
    have ihk := ih (fun j hj => hrej j (by omega))
    have hk := hrej k (by omega)
    rw [append_entering_succ_effects, List.filter_append]
    rcases append_outcome_cases h buffer nbytes ref_ts_ns need_nonblock env s k with
      ⟨c, _, _, _, _, he⟩ | ⟨_, _, _, he⟩ | ⟨_, hacc, _, _⟩
    · rw [he, ihk]
      simp [Effect.is_push_append_cb]
    · rw [he, List.filter_append, ihk]
      simp [Effect.is_push_append_cb]
    · exact absurd hacc hk

/-- C5 (as stated, refuted): on the running leader the engine accepts the log
at `(3, 30)`, the callback is stamped and pushed, `push_append_cb` answers
`OB_ERR_UNEXPECTED`, and `append` returns that error: an error is returned
after the engine took the log and the enqueue was attempted. -/
theorem append_error_after_push_counterexample :
    sample_leader.running ∧ sample_leader.role_ = ObRole.LEADER ∧
    sample_leader.append [120] 1 0 false sample_cb { val_ := 0 } 0
        (fun _ => sample_pass (engine_accepts 3 30) ObRet.OB_ERR_UNEXPECTED) 1 =
      some { ret := ObRet.OB_ERR_UNEXPECTED, wait_times := 0,
             cb := { owner := 42, append_start_ts_ := 5, append_finish_ts_ := 6,
                     lsn_ := { val_ := 3 }, ts_ns_ := 30 },
             lsn := { val_ := 3 }, ts_ns := 30,
             effects :=
               [Effect.palf_append
                  { need_nonblock := false, need_check_proposal_id := true, proposal_id := 7 }
                  [120] 1 0,
                Effect.push_append_cb
                  { owner := 42, append_start_ts_ := 5, append_finish_ts_ := 6,
                    lsn_ := { val_ := 3 }, ts_ns_ := 30 } ObRet.OB_ERR_UNEXPECTED] } ∧
    (engine_accepts 3 30).ret = ObRet.OB_SUCCESS ∧
    ObRet.OB_ERR_UNEXPECTED ≠ ObRet.OB_SUCCESS := by
  decide

/-- C5 (as amended): whatever `append` returns is the outcome of its last pass,
and that pass went one of three ways: the gate turned the call away (the error
is the gate's and the pass called neither the engine nor the apply status); or
the engine rejected the log (the error is the engine's and the pass pushed
nothing); or the engine accepted the log, the stamped callback was pushed right
after, and `append` returns exactly the code `push_append_cb` gave.  So an error
of `append` either arises before the push or is the push's own code, and an
`append` whose engine call succeeded returns what `push_append_cb` returned. -/
theorem append_error_origin (h : ObLogHandler)
    (buffer : List Nat) (nbytes ref_ts_ns : Int) (need_nonblock : Bool) (cb : AppendCb)
    (lsn : LSN) (ts_ns : Int) (env : Nat → PassEnv) (fuel : Nat) (res : AppendState)
    (hres : h.append buffer nbytes ref_ts_ns need_nonblock cb lsn ts_ns env fuel = some res) :
    ∃ k : Nat,
      res = h.append_outcome buffer nbytes ref_ts_ns need_nonblock env
        (AppendState.entry cb lsn ts_ns) k ∧
      ((∃ c, h.append_gate = some c ∧ res.ret = c ∧ res.ret ≠ ObRet.OB_SUCCESS ∧
          res.effects = (h.append_entering buffer nbytes ref_ts_ns need_nonblock env
            (AppendState.entry cb lsn ts_ns) k).effects) ∨
        (h.append_gate = none ∧
          ((env k).palf_append (h.append_opts need_nonblock) buffer nbytes ref_ts_ns).ret ≠
            ObRet.OB_SUCCESS ∧
          res.ret =
            ((env k).palf_append (h.append_opts need_nonblock) buffer nbytes ref_ts_ns).ret ∧
          res.ret ≠ ObRet.OB_SUCCESS ∧
          res.effects = (h.append_entering buffer nbytes ref_ts_ns need_nonblock env
            (AppendState.entry cb lsn ts_ns) k).effects ++
              [Effect.palf_append (h.append_opts need_nonblock) buffer nbytes ref_ts_ns]) ∨
        (h.append_gate = none ∧
          ((env k).palf_append (h.append_opts need_nonblock) buffer nbytes ref_ts_ns).ret =
            ObRet.OB_SUCCESS ∧
          res.ret = (env k).push_append_cb res.cb ∧
          res.effects = (h.append_entering buffer nbytes ref_ts_ns need_nonblock env
            (AppendState.entry cb lsn ts_ns) k).effects ++
              [Effect.palf_append (h.append_opts need_nonblock) buffer nbytes ref_ts_ns,
                Effect.push_append_cb res.cb res.ret])) := by
  obtain ⟨k, _, _, _, _, hr⟩ := append_loop_returned h buffer nbytes ref_ts_ns need_nonblock env
    fuel (AppendState.entry cb lsn ts_ns) res hres
  refine ⟨k, hr, ?_⟩
  have h0 : (AppendState.entry cb lsn ts_ns).wait_times = 0 := rfl
  have hc := append_outcome_cases h buffer nbytes ref_ts_ns need_nonblock env
    (AppendState.entry cb lsn ts_ns) k
  simp only [h0, Nat.zero_add] at hc
  rw [hr]
  rcases hc with ⟨c, hg, hcs, _, hret, he⟩ | ⟨hg, hrej, hret, he⟩ | ⟨hg, hacc, hret, he⟩
  · exact Or.inl ⟨c, hg, hret, by rw [hret]; exact hcs, he⟩
  · exact Or.inr (Or.inl ⟨hg, hrej, hret, by rw [hret]; exact hrej, he⟩)
  · exact Or.inr (Or.inr ⟨hg, hacc, hret, he⟩)

theorem append_error_origin_witness :
    ∃ k : Nat,
      ({ ret := ObRet.OB_NOT_MASTER, wait_times := 0,
         cb := { owner := 42, append_start_ts_ := 5, append_finish_ts_ := 0,
                 lsn_ := { val_ := 0 }, ts_ns_ := 0 },
         lsn := { val_ := 0 }, ts_ns := 0,
         effects :=
           [Effect.palf_append
              { need_nonblock := true, need_check_proposal_id := true, proposal_id := 7 }
              [120] 1 0] } : AppendState) =
        sample_leader.append_outcome [120] 1 0 true
          (fun _ => sample_pass (engine_rejects ObRet.OB_NOT_MASTER) ObRet.OB_SUCCESS)
          (AppendState.entry sample_cb { val_ := 0 } 0) k :=
  (append_error_origin sample_leader [120] 1 0 true sample_cb { val_ := 0 } 0
    (fun _ => sample_pass (engine_rejects ObRet.OB_NOT_MASTER) ObRet.OB_SUCCESS) 1
    { ret := ObRet.OB_NOT_MASTER, wait_times := 0,
      cb := { owner := 42, append_start_ts_ := 5, append_finish_ts_ := 0,
              lsn_ := { val_ := 0 }, ts_ns_ := 0 },
      lsn := { val_ := 0 }, ts_ns := 0,
      effects :=
        [Effect.palf_append
           { need_nonblock := true, need_check_proposal_id := true, proposal_id := 7 }
           [120] 1 0] }
    (by decide)).imp (fun _ hk => hk.1)

/-! ## C6: non-blocking append -/

/-- C6: with `need_nonblock = true`, `append` returns (for any positive fuel)
exactly the state its first pass leaves: one pass through the gate and the
engine, at most one engine call, no sleep, no retry counted, and the code
returned is the outcome of that pass, `OB_EAGAIN` included when the engine
reports it. -/
theorem append_nonblock_single_pass (h : ObLogHandler)
    (buffer : List Nat) (nbytes ref_ts_ns : Int) (cb : AppendCb)
    (lsn : LSN) (ts_ns : Int) (env : Nat → PassEnv) (fuel : Nat) :
    ∃ res : AppendState,
      h.append buffer nbytes ref_ts_ns true cb lsn ts_ns env (fuel + 1) = some res ∧
      res = h.append_pass (h.append_opts true) buffer nbytes ref_ts_ns (env 0)
        (AppendState.entry cb lsn ts_ns) ∧
      res.wait_times = 0 ∧
      sleeps res.effects = [] ∧
      (∀ e ∈ res.effects, e.is_ob_usleep = false) ∧
      (res.effects.filter Effect.is_palf_append).length ≤ 1 ∧
      (h.append_gate = none →
        ((env 0).palf_append (h.append_opts true) buffer nbytes ref_ts_ns).ret =
          ObRet.OB_EAGAIN →
        res.ret = ObRet.OB_EAGAIN) := by
  refine ⟨_, append_loop_nonblock h buffer nbytes ref_ts_ns env fuel
    (AppendState.entry cb lsn ts_ns), rfl, ?_⟩
  have h0 : (AppendState.entry cb lsn ts_ns).wait_times = 0 := rfl
  have he0 : (AppendState.entry cb lsn ts_ns).effects = [] := rfl
  have hc := append_outcome_cases h buffer nbytes ref_ts_ns true env
    (AppendState.entry cb lsn ts_ns) 0
  simp only [h0, Nat.zero_add, ObLogHandler.append_entering, he0, List.nil_append] at hc
  refine ⟨?_, ?_, ?_, ?_, ?_⟩
  · simp [ObLogHandler.append_outcome, append_pass_wait_times, ObLogHandler.append_entering, h0]
  · rw [append_outcome_sleeps]
    rfl
  · rcases hc with ⟨c, _, _, _, _, he⟩ | ⟨_, _, _, he⟩ | ⟨_, _, _, he⟩ <;>
      rw [he] <;> simp [Effect.is_ob_usleep]
  · rcases hc with ⟨c, _, _, _, _, he⟩ | ⟨_, _, _, he⟩ | ⟨_, _, _, he⟩ <;>
      rw [he] <;> simp [Effect.is_palf_append]
  · intro hg hr
    rcases hc with ⟨c, hgc, _⟩ | ⟨_, _, hret, _⟩ | ⟨_, hacc, _⟩
    · rw [hg] at hgc
      cases hgc
    · rw [hret, hr]
    · rw [hr] at hacc
      cases hacc

/-! ## C7: the sleeps of a blocking append -/

/-- C7: in a blocking `append` whose first `n` passes have outcome `OB_EAGAIN`
and whose next pass has another outcome, exactly `n` sleeps are performed and
the sleep after the `k`-th `OB_EAGAIN` outcome lasts `min (10 * k) 100`
microseconds; so no sleep exceeds 100 microseconds and the sleeps never get
shorter.  (However long the loop goes on, the sleeps performed before the pass
that follows `k` retries are the first `k` of that sequence.) -/
theorem append_block_sleeps (h : ObLogHandler)
    (buffer : List Nat) (nbytes ref_ts_ns : Int) (cb : AppendCb)
    (lsn : LSN) (ts_ns : Int) (env : Nat → PassEnv) (n : Nat)
    (hall : ∀ k < n, (h.append_outcome buffer nbytes ref_ts_ns false env
      (AppendState.entry cb lsn ts_ns) k).ret = ObRet.OB_EAGAIN)
    (hend : (h.append_outcome buffer nbytes ref_ts_ns false env
      (AppendState.entry cb lsn ts_ns) n).ret ≠ ObRet.OB_EAGAIN)
    (fuel : Nat) (hf : n < fuel) :
    ∃ res : AppendState,
      h.append buffer nbytes ref_ts_ns false cb lsn ts_ns env fuel = some res ∧
      sleeps res.effects = (List.range n).map (fun i => min (10 * (i + 1)) 100) ∧
      (sleeps res.effects).length = n ∧
      (∀ k, 1 ≤ k → k ≤ n → (sleeps res.effects)[k - 1]? = some (min (10 * k) 100)) ∧
      (∀ us ∈ sleeps res.effects, us ≤ 100) ∧
      (sleeps res.effects).Pairwise (fun a b => a ≤ b) ∧
      (∀ k, sleeps (h.append_entering buffer nbytes ref_ts_ns false env
          (AppendState.entry cb lsn ts_ns) k).effects =
        (List.range k).map (fun i => min (10 * (i + 1)) 100)) := by
  have hent : ∀ k, sleeps (h.append_entering buffer nbytes ref_ts_ns false env
      (AppendState.entry cb lsn ts_ns) k).effects =
      (List.range k).map (fun i => min (10 * (i + 1)) 100) := by
    intro k
    rw [append_entering_sleeps]
    simp [AppendState.entry, sleeps]
  have hs : sleeps (h.append_outcome buffer nbytes ref_ts_ns false env
      (AppendState.entry cb lsn ts_ns) n).effects =
      (List.range n).map (fun i => min (10 * (i + 1)) 100) := by
    rw [append_outcome_sleeps, hent]
  refine ⟨_, append_loop_block_at h buffer nbytes ref_ts_ns env n
    (AppendState.entry cb lsn ts_ns) fuel hf hall hend, hs, ?_, ?_, ?_, ?_, hent⟩
  · rw [hs]
    simp
  · intro k hk1 hkn
    rw [hs, List.getElem?_map, List.getElem?_range (by omega)]
    simp only [Option.map_some']
    congr 2
    omega
  · intro us hus
    rw [hs, List.mem_map] at hus
    obtain ⟨i, _, rfl⟩ := hus
    exact min_le_right _ _
  · rw [hs]
    refine List.Pairwise.map _ ?_ (List.pairwise_lt_range n)
    intro a b hab
    exact min_le_min (by omega) (le_refl _)

theorem append_block_sleeps_witness :
    ∃ res : AppendState,
      sample_leader.append [120] 1 0 false sample_cb { val_ := 0 } 0
        (fun k => if k < 12 then sample_pass (engine_rejects ObRet.OB_EAGAIN) ObRet.OB_SUCCESS
          else sample_pass (engine_accepts 3 30) ObRet.OB_SUCCESS) 13 = some res ∧
      sleeps res.effects = [10, 20, 30, 40, 50, 60, 70, 80, 90, 100, 100, 100] :=
  (append_block_sleeps sample_leader [120] 1 0 sample_cb { val_ := 0 } 0
    (fun k => if k < 12 then sample_pass (engine_rejects ObRet.OB_EAGAIN) ObRet.OB_SUCCESS
      else sample_pass (engine_accepts 3 30) ObRet.OB_SUCCESS) 12
    (by decide) (by decide) 13 (by decide)).imp (fun _ hr => ⟨hr.1, hr.2.1⟩)

/-! ## C8: termination of a blocking append -/

/-- C8: in a blocking `append` whose first `n` passes have outcome `OB_EAGAIN`
and whose next pass has another outcome, the loop returns (for every fuel above
`n`) at that pass, after exactly `n` retries, with exactly the state and the
code that pass leaves.  Hence a blocking `append` never returns `OB_EAGAIN`, and
when it returns `OB_SUCCESS` exactly one push of the callback was answered with
`OB_SUCCESS`, the last call of the whole `append`, made right after the
engine's append (every earlier push, if any, having been answered
`OB_EAGAIN`); if the engine itself rejected the log in all earlier passes,
`push_append_cb` was called exactly once. -/
theorem append_block_terminates (h : ObLogHandler)
    (buffer : List Nat) (nbytes ref_ts_ns : Int) (cb : AppendCb)
    (lsn : LSN) (ts_ns : Int) (env : Nat → PassEnv) (n : Nat)
    (hall : ∀ k < n, (h.append_outcome buffer nbytes ref_ts_ns false env
      (AppendState.entry cb lsn ts_ns) k).ret = ObRet.OB_EAGAIN)
    (hend : (h.append_outcome buffer nbytes ref_ts_ns false env
      (AppendState.entry cb lsn ts_ns) n).ret ≠ ObRet.OB_EAGAIN)
    (fuel : Nat) (hf : n < fuel) :
    ∃ res : AppendState,
      h.append buffer nbytes ref_ts_ns false cb lsn ts_ns env fuel = some res ∧
      res = h.append_outcome buffer nbytes ref_ts_ns false env
        (AppendState.entry cb lsn ts_ns) n ∧
      res.ret ≠ ObRet.OB_EAGAIN ∧
      res.wait_times = n ∧
      (res.ret = ObRet.OB_SUCCESS →
        res.effects.filter Effect.is_accepted_push =
          [Effect.push_append_cb res.cb ObRet.OB_SUCCESS] ∧
        ∃ before : List Effect, res.effects = before ++
          [Effect.palf_append (h.append_opts false) buffer nbytes ref_ts_ns,
            Effect.push_append_cb res.cb ObRet.OB_SUCCESS]) ∧
      (res.ret = ObRet.OB_SUCCESS →
        (∀ k < n, ((env k).palf_append (h.append_opts false) buffer nbytes ref_ts_ns).ret ≠
          ObRet.OB_SUCCESS) →
        res.effects.filter Effect.is_push_append_cb =
          [Effect.push_append_cb res.cb ObRet.OB_SUCCESS]) ∧
      (∀ (fuel' : Nat) (res' : AppendState),
        h.append buffer nbytes ref_ts_ns false cb lsn ts_ns env fuel' = some res' →
        res'.ret ≠ ObRet.OB_EAGAIN) := by
  have h0 : (AppendState.entry cb lsn ts_ns).wait_times = 0 := rfl
  have he0 : (AppendState.entry cb lsn ts_ns).effects = [] := rfl
  have hc := append_outcome_cases h buffer nbytes ref_ts_ns false env
    (AppendState.entry cb lsn ts_ns) n
  simp only [h0, Nat.zero_add] at hc
  have hacc := append_entering_no_accepted_push h buffer nbytes ref_ts_ns false env
    (AppendState.entry cb lsn ts_ns) n hall
  rw [he0, List.filter_nil] at hacc
  refine ⟨_, append_loop_block_at h buffer nbytes ref_ts_ns env n
    (AppendState.entry cb lsn ts_ns) fuel hf hall hend, rfl, hend, ?_, ?_, ?_, ?_⟩
  · unfold ObLogHandler.append_outcome
    rw [append_pass_wait_times, append_entering_wait_times, h0, Nat.zero_add]
  · intro hsucc
    rcases hc with ⟨c, _, hcs, _, hret, _⟩ | ⟨_, hrej, hret, _⟩ | ⟨_, _, _, he⟩
    · rw [hret] at hsucc
      exact absurd hsucc hcs
    · rw [hret] at hsucc
      exact absurd hsucc hrej
    · rw [hsucc] at he
      refine ⟨?_, _, he⟩
      rw [he, List.filter_append, hacc]
      simp [Effect.is_accepted_push]
  · intro hsucc hrej
    have hnp := append_entering_no_push h buffer nbytes ref_ts_ns false env
      (AppendState.entry cb lsn ts_ns) n (by
        intro j hj
        rw [h0, Nat.zero_add]
        exact hrej j hj)
    rw [he0, List.filter_nil] at hnp
    rcases hc with ⟨c, _, hcs, _, hret, _⟩ | ⟨_, hrj, hret, _⟩ | ⟨_, _, _, he⟩
    · rw [hret] at hsucc
      exact absurd hsucc hcs
    · rw [hret] at hsucc
      exact absurd hsucc hrj
    · rw [hsucc] at he
      rw [he, List.filter_append, hnp]
      simp [Effect.is_push_append_cb]
  · intro fuel' res' hres'
    obtain ⟨m, _, _, hm, hr⟩ := append_loop_block_returned h buffer nbytes ref_ts_ns env fuel'
      (AppendState.entry cb lsn ts_ns) res' hres'
    rw [hr]
    exact hm

theorem append_block_terminates_witness :
    ∃ res : AppendState,
      sample_leader.append [120] 1 0 false sample_cb { val_ := 0 } 0
        (fun k => if k < 2 then sample_pass (engine_rejects ObRet.OB_EAGAIN) ObRet.OB_SUCCESS
          else sample_pass (engine_accepts 3 30) ObRet.OB_SUCCESS) 3 = some res ∧
      res = sample_leader.append_outcome [120] 1 0 false
        (fun k => if k < 2 then sample_pass (engine_rejects ObRet.OB_EAGAIN) ObRet.OB_SUCCESS
          else sample_pass (engine_accepts 3 30) ObRet.OB_SUCCESS)
        (AppendState.entry sample_cb { val_ := 0 } 0) 2 ∧
      res.ret ≠ ObRet.OB_EAGAIN ∧
      res.wait_times = 2 :=
  (append_block_terminates sample_leader [120] 1 0 sample_cb { val_ := 0 } 0
    (fun k => if k < 2 then sample_pass (engine_rejects ObRet.OB_EAGAIN) ObRet.OB_SUCCESS
      else sample_pass (engine_accepts 3 30) ObRet.OB_SUCCESS) 2
    (by decide) (by decide) 3 (by decide)).imp
    (fun _ hr => ⟨hr.1, hr.2.1, hr.2.2.1, hr.2.2.2.1⟩)

/-! ## C9: the cached proposal id -/

theorem run_append (ops₁ ops₂ : List Op) (h : ObLogHandler) :
    h.run (ops₁ ++ ops₂) = (h.run ops₁).run ops₂ := by
  induction ops₁ generalizing h with
  | nil => rfl
  | cons op ops ih => simp [ObLogHandler.run, ih]

theorem step_proposal_id (h : ObLogHandler) (op : Op)
    (hop : ∀ role p, op ≠ Op.switch_role role p) :
    (h.step op).proposal_id_ = h.proposal_id_ := by
  cases op with
  | init a g =>
    simp only [ObLogHandler.step, ObLogHandler.init]
    split_ifs <;> rfl
  | stop r =>
    simp only [ObLogHandler.step, ObLogHandler.stop]
    split_ifs <;> rfl
  | destroy =>
    simp only [ObLogHandler.step, ObLogHandler.destroy]
    split_ifs <;> rfl
  | switch_role role p => exact absurd rfl (hop role p)
  | append => rfl
  | get_role => rfl
  | other c t1 t2 t3 => rfl

theorem switch_roles_not_below_cons (h : ObLogHandler) (op : Op) (ops : List Op)
    (hm : h.switch_roles_not_below (op :: ops) = true) :
    h.proposal_id_ ≤ (h.step op).proposal_id_ ∧
    (h.step op).switch_roles_not_below ops = true := by
  cases op with
  | switch_role role p =>
    simp only [ObLogHandler.switch_roles_not_below, Bool.and_eq_true, decide_eq_true_eq] at hm
    exact ⟨by simpa [ObLogHandler.step, ObLogHandler.switch_role] using hm.1, hm.2⟩
  | init a g =>
    exact ⟨le_of_eq (step_proposal_id h _ (by intro _ _ hc; cases hc)).symm, hm⟩
  | stop r =>
    exact ⟨le_of_eq (step_proposal_id h _ (by intro _ _ hc; cases hc)).symm, hm⟩
  | destroy =>
    exact ⟨le_of_eq (step_proposal_id h _ (by intro _ _ hc; cases hc)).symm, hm⟩
  | append =>
    exact ⟨le_of_eq (step_proposal_id h _ (by intro _ _ hc; cases hc)).symm, hm⟩
  | get_role =>
    exact ⟨le_of_eq (step_proposal_id h _ (by intro _ _ hc; cases hc)).symm, hm⟩
  | other c t1 t2 t3 =>
    exact ⟨le_of_eq (step_proposal_id h _ (by intro _ _ hc; cases hc)).symm, hm⟩

theorem switch_roles_not_below_run (ops : List Op) (h : ObLogHandler)
    (hm : h.switch_roles_not_below ops = true) :
    h.proposal_id_ ≤ (h.run ops).proposal_id_ := by
  induction ops generalizing h with
  | nil => exact le_refl _
  | cons op ops ih =>
    obtain ⟨h1, h2⟩ := switch_roles_not_below_cons h op ops hm
    exact le_trans h1 (ih (h.step op) h2)

theorem switch_roles_not_below_append (ops₁ ops₂ : List Op) (h : ObLogHandler)
    (hm : h.switch_roles_not_below (ops₁ ++ ops₂) = true) :
    (h.run ops₁).switch_roles_not_below ops₂ = true := by
  induction ops₁ generalizing h with
  | nil => exact hm
  | cons op ops ih =>
    exact ih (h.step op) (switch_roles_not_below_cons h op (ops ++ ops₂) hm).2

/-- C9 (as stated, refuted): on the running handler with cached proposal id 7
(after `init` and `switch_role(LEADER, 7)`, no `destroy` in between),
`switch_role(FOLLOWER, 3)` leaves the cached proposal id at 3, below 7. -/
theorem switch_role_lowers_proposal_id_counterexample :
    sample_leader = sample_constructed.run
      [Op.init sample_init_args sample_apply_status, Op.switch_role ObRole.LEADER 7] ∧
    sample_leader.running ∧ sample_leader.proposal_id_ = 7 ∧
    (sample_leader.switch_role ObRole.FOLLOWER 3).running ∧
    (sample_leader.switch_role ObRole.FOLLOWER 3).proposal_id_ = 3 ∧
    ¬ (sample_leader.proposal_id_ ≤
      (sample_leader.switch_role ObRole.FOLLOWER 3).proposal_id_) := by
  decide

/-- C9 (as amended): `switch_role(role, p)` sets the cached proposal id to
exactly `p` (and the cached role to `role`) whatever was cached, so the result
is at least the former value `q` exactly when `p ≥ q`; no other operation
changes the cached proposal id.  Hence along every sequence of operations in
which each `switch_role` carries a proposal id not below the one cached when it
is called, the cached proposal id never decreases, from any point of the
sequence to any later one. -/
theorem proposal_id_never_decreases (h : ObLogHandler) (ops : List Op)
    (hm : h.switch_roles_not_below ops = true) :
    (∀ ops₁ ops₂, ops = ops₁ ++ ops₂ →
      (h.run ops₁).proposal_id_ ≤ (h.run ops).proposal_id_) ∧
    (∀ (g : ObLogHandler) (role : ObRole) (p : Int),
      (g.switch_role role p).proposal_id_ = p ∧ (g.switch_role role p).role_ = role ∧
      (g.proposal_id_ ≤ (g.switch_role role p).proposal_id_ ↔ g.proposal_id_ ≤ p)) ∧
    (∀ (g : ObLogHandler) (op : Op), (∀ role p, op ≠ Op.switch_role role p) →
      (g.step op).proposal_id_ = g.proposal_id_) := by
  refine ⟨?_, ?_, fun g op hop => step_proposal_id g op hop⟩
  · intro ops₁ ops₂ hsplit
    subst hsplit
    rw [run_append]
    exact switch_roles_not_below_run ops₂ _ (switch_roles_not_below_append ops₁ ops₂ h hm)
  · intro g role p
    exact ⟨rfl, rfl, Iff.rfl⟩

theorem proposal_id_never_decreases_witness :
    sample_constructed.switch_roles_not_below
      [Op.init sample_init_args sample_apply_status, Op.switch_role ObRole.LEADER 7,
        Op.append, Op.switch_role ObRole.FOLLOWER 7, Op.switch_role ObRole.LEADER 9,
        Op.stop ObRet.OB_SUCCESS] = true ∧
    (sample_constructed.run
      [Op.init sample_init_args sample_apply_status,
        Op.switch_role ObRole.LEADER 7]).proposal_id_ ≤
      (sample_constructed.run
        [Op.init sample_init_args sample_apply_status, Op.switch_role ObRole.LEADER 7,
          Op.append, Op.switch_role ObRole.FOLLOWER 7, Op.switch_role ObRole.LEADER 9,
          Op.stop ObRet.OB_SUCCESS]).proposal_id_ :=
  ⟨by decide,
    (proposal_id_never_decreases sample_constructed
      [Op.init sample_init_args sample_apply_status, Op.switch_role ObRole.LEADER 7,
        Op.append, Op.switch_role ObRole.FOLLOWER 7, Op.switch_role ObRole.LEADER 9,
        Op.stop ObRet.OB_SUCCESS] (by decide)).1
      [Op.init sample_init_args sample_apply_status, Op.switch_role ObRole.LEADER 7]
      [Op.append, Op.switch_role ObRole.FOLLOWER 7, Op.switch_role ObRole.LEADER 9,
        Op.stop ObRet.OB_SUCCESS] rfl⟩

/-! ## C10: a Running handler has its dependencies -/

theorem init_success (h : ObLogHandler) (a : InitArgs) (g : GetApplyStatusResp)
    (hs : (h.init a g).1 = ObRet.OB_SUCCESS) :
    h.is_inited_ = false ∧ a.palf_handle.is_valid = true ∧ a.palf_env ≠ none ∧
    a.apply_service ≠ none ∧ a.lc_cb ≠ none ∧ a.rpc_proxy ≠ none ∧
    g.ret = ObRet.OB_SUCCESS ∧ g.apply_status ≠ none ∧
    (h.init a g).2 =
      { h with
        apply_status_ := g.apply_status
        get_max_decided_log_ts_ns_debug_time_ := OB_INVALID_TIMESTAMP
        apply_service_ := a.apply_service
        replay_service_ := a.replay_service
        id_ := a.id
        self_ := a.self
        palf_handle_ := a.palf_handle
        palf_env_ := a.palf_env
        role_ := ObRole.FOLLOWER
        lc_cb_ := a.lc_cb
        rpc_proxy_ := a.rpc_proxy
        is_in_stop_state_ := false
        is_inited_ := true } := by
  unfold ObLogHandler.init at hs ⊢
  by_cases h1 : h.is_inited_ = true
  · rw [if_pos h1] at hs
    cases hs
  · rw [if_neg h1] at hs ⊢
    by_cases h2 : a.palf_handle.is_valid = false ∨ a.palf_env = none ∨ a.apply_service = none ∨
        a.lc_cb = none ∨ a.rpc_proxy = none
    · rw [if_pos h2] at hs
      cases hs
    · rw [if_neg h2] at hs ⊢
      by_cases h3 : g.ret ≠ ObRet.OB_SUCCESS
      · rw [if_pos h3] at hs
        exact absurd hs h3
      · rw [if_neg h3] at hs ⊢
        by_cases h4 : g.apply_status = none
        · rw [if_pos h4] at hs
          cases hs
        · rw [if_neg h4]
          simp only [not_or] at h2
          exact ⟨by simpa using h1, by simpa using h2.1, h2.2.1, h2.2.2.1, h2.2.2.2.1,
            h2.2.2.2.2, by simpa using h3, h4, rfl⟩

theorem init_failure (h : ObLogHandler) (a : InitArgs) (g : GetApplyStatusResp)
    (hf : (h.init a g).1 ≠ ObRet.OB_SUCCESS) :
    (h.init a g).2 = h ∨
    (h.is_inited_ = false ∧ (h.init a g).2 = { h with apply_status_ := none }) := by
  unfold ObLogHandler.init at hf ⊢
  by_cases h1 : h.is_inited_ = true
  · rw [if_pos h1]
    exact Or.inl rfl
  · rw [if_neg h1] at hf ⊢
    by_cases h2 : a.palf_handle.is_valid = false ∨ a.palf_env = none ∨ a.apply_service = none ∨
        a.lc_cb = none ∨ a.rpc_proxy = none
    · rw [if_pos h2]
      exact Or.inl rfl
    · rw [if_neg h2] at hf ⊢
      by_cases h3 : g.ret ≠ ObRet.OB_SUCCESS
      · rw [if_pos h3]
        exact Or.inl rfl
      · rw [if_neg h3] at hf ⊢
        by_cases h4 : g.apply_status = none
        · rw [if_pos h4]
          exact Or.inr ⟨by simpa using h1, rfl⟩
        · rw [if_neg h4] at hf
          exact absurd rfl hf

theorem step_invariant (h : ObLogHandler) (op : Op) (hinv : h.invariant) :
    (h.step op).invariant := by
  cases op with
  | init a g =>
    by_cases hs : (h.init a g).1 = ObRet.OB_SUCCESS
    · obtain ⟨_, hp, _, _, hl, hr, _, hst, heq⟩ := init_success h a g hs
      intro _
      simp only [ObLogHandler.step, heq]
      exact ⟨hp, hst, hl, hr⟩
    · rcases init_failure h a g hs with heq | ⟨hi, heq⟩
      · simpa [ObLogHandler.step, heq] using hinv
      · intro hrun
        simp only [ObLogHandler.step, heq, ObLogHandler.running] at hrun
        rw [hi] at hrun
        exact absurd hrun.1 (by decide)
  | stop r =>
    by_cases hi : h.is_inited_ = true
    · intro hrun
      have := (stop_sets_stop_state h r hi).1
      rw [ObLogHandler.step, ObLogHandler.running, this] at hrun
      exact absurd hrun.2 (by decide)
    · have : (h.stop r).2 = h := by
        unfold ObLogHandler.stop
        rw [if_neg hi]
      simpa [ObLogHandler.step, this] using hinv
  | destroy =>
    by_cases hi : h.is_inited_ = true
    · intro hrun
      have : h.destroy.is_inited_ = false := by
        unfold ObLogHandler.destroy
        rw [if_pos hi]
      rw [ObLogHandler.step, ObLogHandler.running, this] at hrun
      exact absurd hrun.1 (by decide)
    · have : h.destroy = h := by
        unfold ObLogHandler.destroy
        rw [if_neg hi]
      simpa [ObLogHandler.step, this] using hinv
  | switch_role role p => exact hinv
  | append => exact hinv
  | get_role => exact hinv
  | other c t1 t2 t3 => exact hinv

theorem run_invariant (ops : List Op) (h : ObLogHandler) (hinv : h.invariant) :
    (h.run ops).invariant := by
  induction ops generalizing h with
  | nil => exact hinv
  | cons op ops ih => exact ih (h.step op) (step_invariant h op hinv)

/-- C10 (as stated, refuted): `init` can fail to make the handler Running
without returning `OB_INVALID_ARGUMENT`: on a freshly constructed handler with
all arguments in order but no apply status behind the guard it returns
`OB_ERR_UNEXPECTED`, and on an initialised handler that was stopped it returns
`OB_INIT_TWICE`; in neither case is the handler Running afterwards. -/
theorem init_failure_code_counterexample :
    sample_constructed.constructed ∧
    sample_constructed.init sample_init_args { ret := ObRet.OB_SUCCESS, apply_status := none } =
      (ObRet.OB_ERR_UNEXPECTED, sample_constructed) ∧
    ObRet.OB_ERR_UNEXPECTED ≠ ObRet.OB_INVALID_ARGUMENT ∧
    ¬ sample_constructed.running ∧
    (sample_running.stop ObRet.OB_SUCCESS).2.init sample_init_args sample_apply_status =
      (ObRet.OB_INIT_TWICE, (sample_running.stop ObRet.OB_SUCCESS).2) ∧
    ObRet.OB_INIT_TWICE ≠ ObRet.OB_INVALID_ARGUMENT ∧
    ¬ (sample_running.stop ObRet.OB_SUCCESS).2.running := by
  unfold ObLogHandler.constructed
  decide

/-- C10 (as amended): in every state reached from a constructed handler by any
sequence of operations, if the handler is Running then the engine handle is
valid and the apply status, the leader locator and the RPC client are not
`NULL`.  A successful `init` makes the handler Running with these dependencies;
`init` fails without making the handler Running otherwise: with
`OB_INIT_TWICE` on an initialised handler, else with `OB_INVALID_ARGUMENT` when
the engine handle is invalid or the engine environment, the apply service, the
locator or the RPC client is `NULL`, else with the error of the apply-status
lookup, else with `OB_ERR_UNEXPECTED` when the lookup yields `NULL`.  Every
operation preserves the invariant (`stop` and `destroy` by leaving Running). -/
theorem running_has_dependencies (h₀ : ObLogHandler) (hc : h₀.constructed) (ops : List Op) :
    ((h₀.run ops).running → (h₀.run ops).dependencies_present) ∧
    (∀ (h : ObLogHandler) (a : InitArgs) (g : GetApplyStatusResp),
      (h.init a g).1 = ObRet.OB_SUCCESS →
      (h.init a g).2.running ∧ (h.init a g).2.dependencies_present) ∧
    (∀ (h : ObLogHandler) (a : InitArgs) (g : GetApplyStatusResp),
      (h.init a g).1 ≠ ObRet.OB_SUCCESS →
      ((h.init a g).2.running ↔ h.running) ∧
      (h.is_inited_ = true → (h.init a g).1 = ObRet.OB_INIT_TWICE) ∧
      (h.is_inited_ = false →
        (a.palf_handle.is_valid = false ∨ a.palf_env = none ∨ a.apply_service = none ∨
          a.lc_cb = none ∨ a.rpc_proxy = none) →
        h.init a g = (ObRet.OB_INVALID_ARGUMENT, h)) ∧
      (h.is_inited_ = false →
        ¬ (a.palf_handle.is_valid = false ∨ a.palf_env = none ∨ a.apply_service = none ∨
          a.lc_cb = none ∨ a.rpc_proxy = none) →
        (g.ret ≠ ObRet.OB_SUCCESS ∧ (h.init a g).1 = g.ret) ∨
        (g.ret = ObRet.OB_SUCCESS ∧ g.apply_status = none ∧
          (h.init a g).1 = ObRet.OB_ERR_UNEXPECTED))) ∧
    (∀ (h : ObLogHandler) (op : Op), h.invariant → (h.step op).invariant) ∧
    (∀ (h : ObLogHandler) (r : ObRet), ¬ (h.stop r).2.running) ∧
    (∀ h : ObLogHandler, ¬ h.destroy.running) := by
  have h0inv : h₀.invariant := by
    intro hrun
    obtain ⟨_, _, _, _, _, _, _, _, _, hi, _⟩ := hc
    rw [ObLogHandler.running, hi] at hrun
    exact absurd hrun.1 (by decide)
  refine ⟨run_invariant ops h₀ h0inv, ?_, ?_, fun h op hinv => step_invariant h op hinv, ?_, ?_⟩
  · intro h a g hs
    obtain ⟨_, hp, _, _, hl, hr, _, hst, heq⟩ := init_success h a g hs
    rw [heq]
    exact ⟨⟨rfl, rfl⟩, hp, hst, hl, hr⟩
  · intro h a g hf
    refine ⟨?_, ?_, ?_, ?_⟩
    · rcases init_failure h a g hf with heq | ⟨hi, heq⟩
      · rw [heq]
      · rw [heq]
        simp [ObLogHandler.running, hi]
    · intro hi
      simp [ObLogHandler.init, hi]
    · intro hi hargs
      unfold ObLogHandler.init
      rw [if_neg (by simp [hi]), if_pos hargs]
    · intro hi hargs
      unfold ObLogHandler.init at hf ⊢
      rw [if_neg (by simp [hi]), if_neg hargs] at hf ⊢
      by_cases hg : g.ret = ObRet.OB_SUCCESS
      · right
        rw [if_neg (by simp [hg])] at hf ⊢
        by_cases hn : g.apply_status = none
        · rw [if_pos hn]
          exact ⟨hg, hn, rfl⟩
        · rw [if_neg hn] at hf
          exact absurd rfl hf
      · left
        rw [if_pos hg]
        exact ⟨hg, rfl⟩
  · intro h r hrun
    by_cases hi : h.is_inited_ = true
    · have := (stop_sets_stop_state h r hi).1
      rw [ObLogHandler.running, this] at hrun
      exact absurd hrun.2 (by decide)
    · have heq : (h.stop r).2 = h := by
        unfold ObLogHandler.stop
        rw [if_neg hi]
      rw [heq] at hrun
      exact hi hrun.1
  · intro h hrun
    by_cases hi : h.is_inited_ = true
    · have : h.destroy.is_inited_ = false := by
        unfold ObLogHandler.destroy
        rw [if_pos hi]
      rw [ObLogHandler.running, this] at hrun
      exact absurd hrun.1 (by decide)
    · have heq : h.destroy = h := by
        unfold ObLogHandler.destroy
        rw [if_neg hi]
      rw [heq] at hrun
      exact hi hrun.1

theorem running_has_dependencies_witness :
    sample_constructed.constructed ∧
    ((sample_constructed.run
        [Op.init sample_init_args sample_apply_status, Op.switch_role ObRole.LEADER 7,
          Op.other true 100 200 300]).running →
      (sample_constructed.run
        [Op.init sample_init_args sample_apply_status, Op.switch_role ObRole.LEADER 7,
          Op.other true 100 200 300]).dependencies_present) :=
  ⟨by unfold ObLogHandler.constructed; decide,
    (running_has_dependencies sample_constructed (by unfold ObLogHandler.constructed; decide)
      [Op.init sample_init_args sample_apply_status, Op.switch_role ObRole.LEADER 7,
        Op.other true 100 200 300]).1⟩

/-! ## C11: `safe_to_destroy` -/

/-- C11: on an initialised handler `safe_to_destroy` returns `OB_SUCCESS` only
if the handler is in stop state, the engine handle has been closed and the apply
status answered `is_apply_done` successfully with `is_done = true`; right after
a `stop` that returned `OB_SUCCESS` it returns `OB_EAGAIN` whenever the apply
status reports that apply is not done; and whatever it returns, it leaves the
handler exactly as it was. -/
theorem safe_to_destroy_ready (h : ObLogHandler) (hi : h.is_inited_ = true)
    (apply : IsApplyDoneResp) :
    ((h.safe_to_destroy apply).1 = ObRet.OB_SUCCESS →
      h.is_in_stop_state_ = true ∧ h.palf_handle_.is_valid = false ∧
      apply.ret = ObRet.OB_SUCCESS ∧ apply.is_done = true) ∧
    ((h.stop ObRet.OB_SUCCESS).1 = ObRet.OB_SUCCESS ∧
      (apply.ret = ObRet.OB_SUCCESS → apply.is_done = false →
        (h.stop ObRet.OB_SUCCESS).2.safe_to_destroy apply =
          (ObRet.OB_EAGAIN, (h.stop ObRet.OB_SUCCESS).2))) ∧
    (h.is_in_stop_state_ = true → h.palf_handle_.is_valid = false →
      apply.ret = ObRet.OB_SUCCESS → apply.is_done = false →
      (h.safe_to_destroy apply).1 = ObRet.OB_EAGAIN) ∧
    (h.safe_to_destroy apply).2 = h := by
  refine ⟨?_, ⟨?_, ?_⟩, ?_, ?_⟩
  · intro hs
    unfold ObLogHandler.safe_to_destroy at hs
    rw [if_pos hi] at hs
    by_cases h1 : h.palf_handle_.is_valid = true ∨ h.is_in_stop_state_ = false
    · rw [if_pos h1] at hs
      cases hs
    · rw [if_neg h1] at hs
      by_cases h2 : apply.ret ≠ ObRet.OB_SUCCESS
      · rw [if_pos h2] at hs
        exact absurd hs h2
      · rw [if_neg h2] at hs
        by_cases h3 : false = apply.is_done
        · rw [if_pos h3] at hs
          cases hs
        · simp only [not_or] at h1
          refine ⟨by simpa using h1.2, by simpa using h1.1, by simpa using h2, ?_⟩
          cases hd : apply.is_done
          · exact absurd hd.symm h3
          · rfl
  · simp only [ObLogHandler.stop, hi]
    split_ifs <;> rfl
  · intro hr hd
    have hstop : (h.stop ObRet.OB_SUCCESS).2.is_inited_ = true ∧
        (h.stop ObRet.OB_SUCCESS).2.is_in_stop_state_ = true ∧
        (h.stop ObRet.OB_SUCCESS).2.palf_handle_.is_valid = false := by
      unfold ObLogHandler.stop
      rw [if_pos hi]
      dsimp only
      rw [if_neg (by simp)]
      by_cases hv : h.palf_handle_.is_valid = true
      · rw [if_pos hv]
        exact ⟨hi, rfl, rfl⟩
      · rw [if_neg hv]
        exact ⟨hi, rfl, by simpa using hv⟩
    obtain ⟨h1, h2, h3⟩ := hstop
    unfold ObLogHandler.safe_to_destroy
    rw [if_pos h1, if_neg (by simp [h2, h3]), if_neg (by simp [hr]), if_pos hd.symm]
  · intro h2 h3 hr hd
    unfold ObLogHandler.safe_to_destroy
    rw [if_pos hi, if_neg (by simp [h2, h3]), if_neg (by simp [hr]), if_pos hd.symm]
  · unfold ObLogHandler.safe_to_destroy
    split_ifs <;> rfl

theorem safe_to_destroy_ready_witness :
    sample_leader.is_inited_ = true ∧
    (sample_leader.stop ObRet.OB_SUCCESS).2.safe_to_destroy
        { ret := ObRet.OB_SUCCESS, is_done := false, end_lsn := { val_ := 9 } } =
      (ObRet.OB_EAGAIN, (sample_leader.stop ObRet.OB_SUCCESS).2) :=
  ⟨by decide,
    (safe_to_destroy_ready sample_leader (by decide)
      { ret := ObRet.OB_SUCCESS, is_done := false, end_lsn := { val_ := 9 } }).2.1.2 rfl rfl⟩

/-! ## C12: `destroy` and the quiescent wait -/

/-- C12 (as stated, refuted): the calls `destroy` makes on the running handler
are the revert of the apply status and the close of the engine handle; the
quiescent wait is not among them. -/
theorem destroy_without_wait_quiescent_counterexample :
    sample_running.is_inited_ = true ∧
    sample_running.destroy_calls = [Call.revert_apply_status (some 15), Call.palf_close] ∧
    Call.wait_quiescent ∉ sample_running.destroy_calls := by
  decide

/-- C12 (as amended): `destroy` itself never waits for quiescence: on an
initialised handler its calls are the revert of the apply status followed, if
the engine handle is still valid, by its close, and on an uninitialised handler
it makes none.  The quiescent wait is the separate operation
`wait_append_sync`, whose only call it is; when the caller runs
`wait_append_sync` before `destroy`, the wait comes strictly before the revert of
the apply status. -/
theorem destroy_calls_no_wait (h : ObLogHandler) :
    Call.wait_quiescent ∉ h.destroy_calls ∧
    h.wait_append_sync_calls = [Call.wait_quiescent] ∧
    (h.is_inited_ = true →
      ∃ rest : List Call, h.destroy_calls = Call.revert_apply_status h.apply_status_ :: rest ∧
        h.wait_append_sync_calls ++ h.destroy_calls =
          Call.wait_quiescent :: Call.revert_apply_status h.apply_status_ :: rest) ∧
    (h.is_inited_ = false → h.destroy_calls = []) := by
  refine ⟨?_, rfl, ?_, ?_⟩
  · unfold ObLogHandler.destroy_calls
    split_ifs <;> simp
  · intro hi
    unfold ObLogHandler.destroy_calls ObLogHandler.wait_append_sync_calls
    rw [if_pos hi]
    exact ⟨_, rfl, rfl⟩
  · intro hi
    unfold ObLogHandler.destroy_calls
    rw [if_neg (by simp [hi])]

/-! ## C13: `advance_base_info` -/

/-- C13: on a running handler, if the replay service reports that replay is
enabled, `advance_base_info` returns `OB_ERR_UNEXPECTED` and does not call the
engine; the engine's `advance_base_info` is called exactly when the replay
service answered successfully that replay is disabled, it is then called once
with the caller's arguments, and its result is what is returned. -/
theorem advance_base_info_requires_replay_disabled (h : ObLogHandler) (hrun : h.running)
    (palf_base_info : PalfBaseInfo) (is_rebuild : Bool)
    (replay_is_enabled : Int → ReplayIsEnabledResp)
    (palf_advance_base_info : PalfBaseInfo → Bool → ObRet) :
    ((replay_is_enabled h.id_).ret = ObRet.OB_SUCCESS →
      (replay_is_enabled h.id_).is_enabled = true →
      h.advance_base_info palf_base_info is_rebuild replay_is_enabled palf_advance_base_info =
        { ret := ObRet.OB_ERR_UNEXPECTED,
          calls := [Call.replay_is_enabled h.id_ ObRet.OB_SUCCESS true] }) ∧
    ((∃ c ∈ (h.advance_base_info palf_base_info is_rebuild replay_is_enabled
        palf_advance_base_info).calls, c.is_palf_advance_base_info = true) ↔
      ((replay_is_enabled h.id_).ret = ObRet.OB_SUCCESS ∧
        (replay_is_enabled h.id_).is_enabled = false)) ∧
    ((replay_is_enabled h.id_).ret = ObRet.OB_SUCCESS →
      (replay_is_enabled h.id_).is_enabled = false →
      h.advance_base_info palf_base_info is_rebuild replay_is_enabled palf_advance_base_info =
        { ret := palf_advance_base_info palf_base_info is_rebuild,
          calls := [Call.replay_is_enabled h.id_ ObRet.OB_SUCCESS false,
            Call.palf_advance_base_info palf_base_info is_rebuild
              (palf_advance_base_info palf_base_info is_rebuild)] }) ∧
    ((replay_is_enabled h.id_).ret ≠ ObRet.OB_SUCCESS →
      h.advance_base_info palf_base_info is_rebuild replay_is_enabled palf_advance_base_info =
        { ret := (replay_is_enabled h.id_).ret,
          calls := [Call.replay_is_enabled h.id_ (replay_is_enabled h.id_).ret
            (replay_is_enabled h.id_).is_enabled] }) := by
  obtain ⟨hi, hs⟩ := hrun
  unfold ObLogHandler.advance_base_info
  simp only [hi, hs]
  by_cases hr : (replay_is_enabled h.id_).ret = ObRet.OB_SUCCESS <;>
    cases he : (replay_is_enabled h.id_).is_enabled <;>
    simp [hr, he, Call.is_palf_advance_base_info]

theorem advance_base_info_requires_replay_disabled_witness :
    sample_running.running ∧
    sample_running.advance_base_info { base_lsn := { val_ := 4096 } } true
        (fun _ => { ret := ObRet.OB_SUCCESS, is_enabled := true })
        (fun _ _ => ObRet.OB_SUCCESS) =
      { ret := ObRet.OB_ERR_UNEXPECTED,
        calls := [Call.replay_is_enabled sample_running.id_ ObRet.OB_SUCCESS true] } :=
  ⟨by decide,
    (advance_base_info_requires_replay_disabled sample_running (by decide)
      { base_lsn := { val_ := 4096 } } true
      (fun _ => { ret := ObRet.OB_SUCCESS, is_enabled := true })
      (fun _ _ => ObRet.OB_SUCCESS)).1 rfl rfl⟩

/-! ## C14 and C15: `get_max_decided_log_ts_ns` -/

theorem wrap_int64_of_range (x : Int) (hlo : -2 ^ 63 ≤ x) (hhi : x < 2 ^ 63) :
    wrap_int64 x = x := by
  unfold wrap_int64
  have h1 : (0 : Int) ≤ x + 2 ^ 63 := by omega
  have h2 : x + 2 ^ 63 < 2 ^ 64 := by omega
  rw [Int.emod_eq_of_lt h1 h2]
  omega

/-- C14: on a running handler on which the apply service answers successfully
with `min_unapplied_ts = a` and the replay service answers successfully with
`min_unreplayed_ts = r` (`a` and `r` being `int64_t` values from which 1 can be
subtracted), `get_max_decided_log_ts_ns` returns `OB_SUCCESS` with
`log_ts = max (r - 1) (a - 1) 0`; so the result is never negative and is at
least `a - 1` and at least `r - 1`. -/
theorem get_max_decided_log_ts_ns_both (h : ObLogHandler) (hrun : h.running)
    (e : MaxDecidedEnv) (log_ts a r : Int)
    (ha : e.get_min_unapplied_log_ts_ns h.id_ = { ret := ObRet.OB_SUCCESS, ts_ns := a })
    (hr : e.get_min_unreplayed_log_ts_ns h.id_ = { ret := ObRet.OB_SUCCESS, ts_ns := r })
    (halo : -2 ^ 63 < a) (hahi : a < 2 ^ 63) (hrlo : -2 ^ 63 < r) (hrhi : r < 2 ^ 63) :
    (h.get_max_decided_log_ts_ns e log_ts).ret = ObRet.OB_SUCCESS ∧
    (h.get_max_decided_log_ts_ns e log_ts).log_ts = max (max (r - 1) (a - 1)) 0 ∧
    0 ≤ (h.get_max_decided_log_ts_ns e log_ts).log_ts ∧
    a - 1 ≤ (h.get_max_decided_log_ts_ns e log_ts).log_ts ∧
    r - 1 ≤ (h.get_max_decided_log_ts_ns e log_ts).log_ts ∧
    (h.get_max_decided_log_ts_ns e log_ts).handler = h := by
  obtain ⟨hi, hs⟩ := hrun
  have hwa : wrap_int64 (a - 1) = a - 1 := wrap_int64_of_range _ (by omega) (by omega)
  have hwr : wrap_int64 (r - 1) = r - 1 := wrap_int64_of_range _ (by omega) (by omega)
  have hval : (h.get_max_decided_log_ts_ns e log_ts) =
      { ret := ObRet.OB_SUCCESS
        log_ts := if max (r - 1) (a - 1) > 0 then max (r - 1) (a - 1) else 0
        handler := h } := by
    unfold ObLogHandler.get_max_decided_log_ts_ns
    simp [hi, hs, ha, hr, hwa, hwr]
  rw [hval]
  refine ⟨rfl, ?_, ?_, ?_, ?_, rfl⟩
  · show (if max (r - 1) (a - 1) > 0 then max (r - 1) (a - 1) else 0) = _
    split_ifs with hc
    · exact (max_eq_left (le_of_lt hc)).symm
    · exact (max_eq_right (not_lt.mp hc)).symm
  · show 0 ≤ (if max (r - 1) (a - 1) > 0 then max (r - 1) (a - 1) else 0)
    split_ifs with hc
    · exact le_of_lt hc
    · exact le_refl _
  · show a - 1 ≤ (if max (r - 1) (a - 1) > 0 then max (r - 1) (a - 1) else 0)
    split_ifs with hc
    · exact le_max_right _ _
    · exact le_trans (le_max_right _ _) (not_lt.mp hc)
  · show r - 1 ≤ (if max (r - 1) (a - 1) > 0 then max (r - 1) (a - 1) else 0)
    split_ifs with hc
    · exact le_max_left _ _
    · exact le_trans (le_max_left _ _) (not_lt.mp hc)

theorem get_max_decided_log_ts_ns_both_witness :
    sample_running.running ∧
    (sample_running.get_max_decided_log_ts_ns
      (sample_max_decided_env { ret := ObRet.OB_SUCCESS, ts_ns := 100 }
        { ret := ObRet.OB_SUCCESS, ts_ns := 50 }) 7).log_ts = max (max (50 - 1) (100 - 1)) 0 :=
  ⟨by decide,
    (get_max_decided_log_ts_ns_both sample_running (by decide)
      (sample_max_decided_env { ret := ObRet.OB_SUCCESS, ts_ns := 100 }
        { ret := ObRet.OB_SUCCESS, ts_ns := 50 }) 7 100 50 rfl rfl
      (by decide) (by decide) (by decide) (by decide)).2.1⟩

/-- C15 (as stated, refuted): with replay not enabled (`OB_STATE_NOT_MATCH`) and
`min_unapplied_ts = 0`, `get_max_decided_log_ts_ns` returns `OB_SUCCESS` with
`log_ts = 0`, not `0 - 1`; and with `min_unapplied_ts = OB_INVALID_TIMESTAMP` it
returns `OB_STATE_NOT_MATCH` and leaves the caller's `log_ts` (here 7)
untouched. -/
theorem get_max_decided_log_ts_ns_fallback_counterexample :
    sample_running.running ∧
    sample_running.get_max_decided_log_ts_ns
        (sample_max_decided_env { ret := ObRet.OB_SUCCESS, ts_ns := 0 }
          { ret := ObRet.OB_STATE_NOT_MATCH, ts_ns := OB_INVALID_TIMESTAMP }) 7 =
      { ret := ObRet.OB_SUCCESS, log_ts := 0, handler := sample_running } ∧
    (0 : Int) ≠ 0 - 1 ∧
    sample_running.get_max_decided_log_ts_ns
        (sample_max_decided_env { ret := ObRet.OB_SUCCESS, ts_ns := OB_INVALID_TIMESTAMP }
          { ret := ObRet.OB_STATE_NOT_MATCH, ts_ns := OB_INVALID_TIMESTAMP }) 7 =
      { ret := ObRet.OB_STATE_NOT_MATCH, log_ts := 7, handler := sample_running } := by
  decide

/-- C15 (as amended): on a running handler on which the apply service answers
successfully with `min_unapplied_ts = a` (an `int64_t` from which 1 can be
subtracted) and the replay service answers `OB_STATE_NOT_MATCH`: if `a` is not
`OB_INVALID_TIMESTAMP`, `get_max_decided_log_ts_ns` returns `OB_SUCCESS` with
`log_ts = max (a - 1) 0`, which is `a - 1` exactly when `a ≥ 1`; if `a` is
`OB_INVALID_TIMESTAMP`, it returns `OB_STATE_NOT_MATCH` and does not assign
`log_ts`. -/
theorem get_max_decided_log_ts_ns_fallback (h : ObLogHandler) (hrun : h.running)
    (e : MaxDecidedEnv) (log_ts a r : Int)
    (ha : e.get_min_unapplied_log_ts_ns h.id_ = { ret := ObRet.OB_SUCCESS, ts_ns := a })
    (hr : e.get_min_unreplayed_log_ts_ns h.id_ =
      { ret := ObRet.OB_STATE_NOT_MATCH, ts_ns := r })
    (halo : -2 ^ 63 < a) (hahi : a < 2 ^ 63) :
    (a ≠ OB_INVALID_TIMESTAMP →
      (h.get_max_decided_log_ts_ns e log_ts).ret = ObRet.OB_SUCCESS ∧
      (h.get_max_decided_log_ts_ns e log_ts).log_ts = max (a - 1) 0 ∧
      ((h.get_max_decided_log_ts_ns e log_ts).log_ts = a - 1 ↔ 1 ≤ a)) ∧
    (a = OB_INVALID_TIMESTAMP →
      (h.get_max_decided_log_ts_ns e log_ts).ret = ObRet.OB_STATE_NOT_MATCH ∧
      (h.get_max_decided_log_ts_ns e log_ts).log_ts = log_ts) := by
  obtain ⟨hi, hs⟩ := hrun
  have hwa : wrap_int64 (a - 1) = a - 1 := wrap_int64_of_range _ (by omega) (by omega)
  constructor
  · intro hne
    have hne' : ¬ OB_INVALID_TIMESTAMP = a := fun hc => hne hc.symm
    have hval : (h.get_max_decided_log_ts_ns e log_ts).ret = ObRet.OB_SUCCESS ∧
        (h.get_max_decided_log_ts_ns e log_ts).log_ts = if a - 1 > 0 then a - 1 else 0 := by
      unfold ObLogHandler.get_max_decided_log_ts_ns
      simp [hi, hs, ha, hr, hwa, hne']
    obtain ⟨h1, h2⟩ := hval
    refine ⟨h1, ?_, ?_⟩
    · rw [h2]
      split_ifs with hc
      · exact (max_eq_left (le_of_lt hc)).symm
      · exact (max_eq_right (not_lt.mp hc)).symm
    · rw [h2]
      split_ifs with hc <;> constructor <;> intro hx <;> omega
  · intro heq
    unfold ObLogHandler.get_max_decided_log_ts_ns
    simp [hi, hs, ha, hr, heq]

theorem get_max_decided_log_ts_ns_fallback_witness :
    sample_running.running ∧
    (sample_running.get_max_decided_log_ts_ns
      (sample_max_decided_env { ret := ObRet.OB_SUCCESS, ts_ns := 100 }
        { ret := ObRet.OB_STATE_NOT_MATCH, ts_ns := OB_INVALID_TIMESTAMP }) 7).log_ts =
      max (100 - 1) 0 :=
  ⟨by decide,
    ((get_max_decided_log_ts_ns_fallback sample_running (by decide)
      (sample_max_decided_env { ret := ObRet.OB_SUCCESS, ts_ns := 100 }
        { ret := ObRet.OB_STATE_NOT_MATCH, ts_ns := OB_INVALID_TIMESTAMP }) 7 100
      OB_INVALID_TIMESTAMP rfl rfl (by decide) (by decide)).1 (by decide)).2.1⟩

/-! ## C16 and C17: `is_in_sync` -/

theorem rebuild_check_reaches (e : IsInSyncEnv)
    (hend : e.get_end_lsn.ret = ObRet.OB_SUCCESS)
    (hlast : e.get_end_lsn.lsn.is_valid = true →
      e.get_last_rebuild_lsn.ret = ObRet.OB_SUCCESS) :
    (rebuild_check e).1 = ObRet.OB_SUCCESS := by
  unfold rebuild_check
  rw [if_neg (by simp [hend])]
  by_cases hv : e.get_end_lsn.lsn.is_valid = false
  · rw [if_pos hv]
  · rw [if_neg hv, if_neg (by simp [hlast (by simpa using hv)])]
    split_ifs <;> rfl

theorem is_in_sync_of_reaches (h : ObLogHandler) (hrun : h.running) (e : IsInSyncEnv)
    (hrb : (rebuild_check e).1 = ObRet.OB_SUCCESS) :
    h.is_in_sync e =
      if (h.sync_check e).ret = ObRet.OB_SUCCESS ∧
          (h.sync_check e).leader_max_ts_ns ≠ OB_INVALID_TIMESTAMP then
        { ret := ObRet.OB_SUCCESS
          is_log_sync := decide (wrap_int64 ((h.sync_check e).leader_max_ts_ns -
            (h.sync_check e).local_max_ts_ns) ≤ log_sync_threshold_ns)
          is_need_rebuild := (rebuild_check e).2
          handler := { (h.sync_check e).handler with
            cached_is_log_sync_ := decide (wrap_int64 ((h.sync_check e).leader_max_ts_ns -
              (h.sync_check e).local_max_ts_ns) ≤ log_sync_threshold_ns) } }
      else
        { ret := ObRet.OB_SUCCESS, is_log_sync := (h.sync_check e).is_log_sync,
          is_need_rebuild := (rebuild_check e).2, handler := (h.sync_check e).handler } := by
  obtain ⟨hi, hs⟩ := hrun
  unfold ObLogHandler.is_in_sync
  simp only [hi, hs, hrb]
  simp

/-- C16: on a running handler whose rebuild check did not fail (the engine's
role is asked only then), `is_in_sync` returns `OB_SUCCESS` and: if the engine
reports role `LEADER`, `is_log_sync = true`; if it reports `FOLLOWER`, the local
max timestamp was obtained, the poll interval has passed and the leader's max
timestamp was obtained by RPC (and is not `OB_INVALID_TIMESTAMP`), then
`is_log_sync = (leader_max_ts - local_max_ts ≤ 3100000000)`, the comparison
being inclusive and the threshold being 100 ms + 3 s in nanoseconds, and the
cached flag takes the same value; with `local_max_ts = 1000` and
`leader_max_ts = 10000000000` the result is `false`. -/
theorem is_in_sync_log_sync (h : ObLogHandler) (hrun : h.running) (e : IsInSyncEnv)
    (hend : e.get_end_lsn.ret = ObRet.OB_SUCCESS)
    (hlast : e.get_end_lsn.lsn.is_valid = true →
      e.get_last_rebuild_lsn.ret = ObRet.OB_SUCCESS)
    (hrole : e.get_role.ret = ObRet.OB_SUCCESS) :
    (h.is_in_sync e).ret = ObRet.OB_SUCCESS ∧
    (e.get_role.role = ObRole.LEADER → (h.is_in_sync e).is_log_sync = true) ∧
    (∀ local_max_ts leader_max_ts : Int,
      e.get_role.role = ObRole.FOLLOWER →
      e.get_max_ts_ns = { ret := ObRet.OB_SUCCESS, ts_ns := local_max_ts } →
      local_max_ts ≠ OB_INVALID_TIMESTAMP →
      (e.reach_check_sync SYNC_GET_LEADER_INFO_INTERVAL_US h.last_check_sync_ts_).reached =
        true →
      (e.get_leader h.id_).ret = ObRet.OB_SUCCESS →
      e.get_palf_stat (e.get_leader h.id_).leader =
        { ret := ObRet.OB_SUCCESS, ts_ns := leader_max_ts } →
      leader_max_ts ≠ OB_INVALID_TIMESTAMP →
      -2 ^ 63 ≤ leader_max_ts - local_max_ts → leader_max_ts - local_max_ts < 2 ^ 63 →
      (h.is_in_sync e).is_log_sync = decide (leader_max_ts - local_max_ts ≤ 3100000000) ∧
      (h.is_in_sync e).handler.cached_is_log_sync_ =
        decide (leader_max_ts - local_max_ts ≤ 3100000000) ∧
      (local_max_ts = 1000 → leader_max_ts = 10000000000 →
        (h.is_in_sync e).is_log_sync = false)) ∧
    log_sync_threshold_ns = 3100000000 ∧
    log_sync_threshold_ns = 100 * 1000000 + 3 * 1000000000 := by
  have hrb := rebuild_check_reaches e hend hlast
  have hval := is_in_sync_of_reaches h hrun e hrb
  have hthr : log_sync_threshold_ns = 3100000000 := by decide
  refine ⟨?_, ?_, ?_, hthr, by decide⟩
  · rw [hval]
    split_ifs <;> rfl
  · intro hl
    have hc : h.sync_check e =
        { ret := ObRet.OB_SUCCESS, is_log_sync := true, local_max_ts_ns := OB_INVALID_TIMESTAMP,
          leader_max_ts_ns := OB_INVALID_TIMESTAMP, handler := h } := by
      unfold ObLogHandler.sync_check
      rw [if_neg (by simp [hrole]), if_pos hl.symm]
    rw [hval, hc]
    simp
  · intro local_max_ts leader_max_ts hf hloc hlv hreach hgl hstat hldv hlo hhi
    have hc : h.sync_check e =
        { ret := ObRet.OB_SUCCESS, is_log_sync := false, local_max_ts_ns := local_max_ts,
          leader_max_ts_ns := leader_max_ts,
          handler := { h with last_check_sync_ts_ :=
            (e.reach_check_sync SYNC_GET_LEADER_INFO_INTERVAL_US
              h.last_check_sync_ts_).warn_time } } := by
      unfold ObLogHandler.sync_check
      rw [if_neg (by simp [hrole]), if_neg (by simp [hf]),
        if_neg (by
          rw [hloc]
          simp only [not_or, ne_eq, not_true_eq_false, not_false_eq_true, true_and]
          exact fun hc => hlv hc.symm)]
      simp only [hreach, if_true, hloc]
      unfold ObLogHandler.get_leader_max_ts_ns_
      simp [hgl, hstat, ObLogHandler.renew_loc]
    have hw := wrap_int64_of_range (leader_max_ts - local_max_ts) hlo hhi
    have hsync : (h.is_in_sync e).is_log_sync =
        decide (leader_max_ts - local_max_ts ≤ 3100000000) ∧
        (h.is_in_sync e).handler.cached_is_log_sync_ =
        decide (leader_max_ts - local_max_ts ≤ 3100000000) := by
      rw [hval, hc]
      simp [hldv, hw, hthr]
    refine ⟨hsync.1, hsync.2, ?_⟩
    intro h1 h2
    rw [hsync.1, h1, h2]
    decide

theorem is_in_sync_log_sync_witness :
    sample_running.running ∧
    (sample_running.is_in_sync
      (sample_sync_env 4096 8192 ObRole.FOLLOWER 1000 10000000000)).is_log_sync = false :=
  ⟨by decide,
    ((is_in_sync_log_sync sample_running (by decide)
      (sample_sync_env 4096 8192 ObRole.FOLLOWER 1000 10000000000) rfl (fun _ => rfl) rfl).2.2.1
      1000 10000000000 rfl rfl (by decide) rfl rfl rfl (by decide) (by decide)
      (by decide)).2.2 rfl rfl⟩

/-- C17: on a running handler on which the engine's `get_end_lsn` succeeds with
a valid `end_lsn` and `get_last_rebuild_lsn` succeeds, `is_in_sync` sets
`is_need_rebuild = true` if and only if `last_rebuild_lsn` is valid and
`end_lsn < last_rebuild_lsn`; in every other case (handler not running, a
failure of either call, an invalid `end_lsn`) `is_need_rebuild` is `false`. -/
theorem is_in_sync_need_rebuild (h : ObLogHandler) (e : IsInSyncEnv) :
    (h.running → e.get_end_lsn.ret = ObRet.OB_SUCCESS → e.get_end_lsn.lsn.is_valid = true →
      e.get_last_rebuild_lsn.ret = ObRet.OB_SUCCESS →
      ((h.is_in_sync e).is_need_rebuild = true ↔
        (e.get_last_rebuild_lsn.lsn.is_valid = true ∧
          e.get_end_lsn.lsn.val_ < e.get_last_rebuild_lsn.lsn.val_))) ∧
    (¬ (h.running ∧ e.get_end_lsn.ret = ObRet.OB_SUCCESS ∧
        e.get_end_lsn.lsn.is_valid = true ∧
        e.get_last_rebuild_lsn.ret = ObRet.OB_SUCCESS) →
      (h.is_in_sync e).is_need_rebuild = false) := by
  have hnr : (h.is_in_sync e).is_need_rebuild = (h.running ∧ (rebuild_check e).2 = true) := by
    unfold ObLogHandler.is_in_sync ObLogHandler.running
    by_cases hi : h.is_inited_ = false
    · simp [hi]
    · by_cases hs : h.is_in_stop_state_ = true
      · simp [hi, hs]
      · rw [if_neg hi, if_neg hs]
        have hi' : h.is_inited_ = true := by simpa using hi
        have hs' : h.is_in_stop_state_ = false := by simpa using hs
        dsimp only
        split_ifs <;> simp [hi', hs']
  constructor
  · intro hrun hend hvalid hlast
    have hrb : (rebuild_check e).2 = decide (e.get_last_rebuild_lsn.lsn.is_valid = true ∧
        e.get_end_lsn.lsn.val_ < e.get_last_rebuild_lsn.lsn.val_) := by
      unfold rebuild_check
      rw [if_neg (by simp [hend]), if_neg (by simp [hvalid]), if_neg (by simp [hlast])]
      split_ifs with hc <;> simp [hc]
    have := hnr
    rw [hrb] at this
    constructor
    · intro ht
      rw [ht] at this
      have h2 := (this.mp rfl).2
      simpa using h2
    · intro hc
      have h2 : h.running ∧ decide (e.get_last_rebuild_lsn.lsn.is_valid = true ∧
          e.get_end_lsn.lsn.val_ < e.get_last_rebuild_lsn.lsn.val_) = true :=
        ⟨hrun, by simpa using hc⟩
      have h3 := this.mpr h2
      simpa using h3
  · intro hnot
    by_contra hne
    have ht : (h.is_in_sync e).is_need_rebuild = true := by simpa using hne
    have hh : h.running ∧ (rebuild_check e).2 = true := by
      rw [← hnr]
      exact ht
    obtain ⟨hrun, hrb⟩ := hh
    apply hnot
    unfold rebuild_check at hrb
    by_cases h1 : e.get_end_lsn.ret ≠ ObRet.OB_SUCCESS
    · rw [if_pos h1] at hrb
      cases hrb
    · rw [if_neg h1] at hrb
      by_cases h2 : e.get_end_lsn.lsn.is_valid = false
      · rw [if_pos h2] at hrb
        cases hrb
      · rw [if_neg h2] at hrb
        by_cases h3 : e.get_last_rebuild_lsn.ret ≠ ObRet.OB_SUCCESS
        · rw [if_pos h3] at hrb
          cases hrb
        · exact ⟨hrun, by simpa using h1, by simpa using h2, by simpa using h3⟩

theorem is_in_sync_need_rebuild_witness :
    sample_running.running ∧
    ((sample_running.is_in_sync
        (sample_sync_env 4096 8192 ObRole.FOLLOWER 1000 2000)).is_need_rebuild = true ↔
      ((sample_sync_env 4096 8192 ObRole.FOLLOWER 1000 2000).get_last_rebuild_lsn.lsn.is_valid
          = true ∧
        (sample_sync_env 4096 8192 ObRole.FOLLOWER 1000 2000).get_end_lsn.lsn.val_ <
          (sample_sync_env 4096 8192 ObRole.FOLLOWER 1000 2000).get_last_rebuild_lsn.lsn.val_)) :=
  ⟨by decide,
    (is_in_sync_need_rebuild sample_running
      (sample_sync_env 4096 8192 ObRole.FOLLOWER 1000 2000)).1 (by decide) rfl (by decide) rfl⟩

/-! ## Lemmas on the dispatcher loop -/

theorem dispatch_loop_step (h : ObLogHandler) (req : LogConfigChangeCmd) (start_ts_ns : Int)
    (env : Nat → DispatchEnv) (fuel : Nat) (s : DispatchState) :
    h.dispatch_loop req start_ts_ns env (fuel + 1) s =
      if ObRet.OB_SUCCESS = s.ret ∨ ObRet.OB_NOT_MASTER = s.ret then
        if (h.dispatch_body req start_ts_ns (env s.iterations) s).2 = true then
          some (h.dispatch_body req start_ts_ns (env s.iterations) s).1
        else
          h.dispatch_loop req start_ts_ns env fuel
            { (h.dispatch_body req start_ts_ns (env s.iterations) s).1 with
              iterations := (h.dispatch_body req start_ts_ns (env s.iterations) s).1.iterations
                + 1 }
      else some s := by
  rfl

theorem dispatch_body_deadline (h : ObLogHandler) (req : LogConfigChangeCmd)
    (start_ts_ns : Int) (e : DispatchEnv) (s : DispatchState)
    (hd : e.now_check - start_ts_ns ≥ req.timeout_ns_) :
    h.dispatch_body req start_ts_ns e s = ({ s with ret := ObRet.OB_TIMEOUT }, true) := by
  unfold ObLogHandler.dispatch_body
  rw [if_pos hd]

theorem dispatch_classify_iterations (h : ObLogHandler) (req : LogConfigChangeCmd)
    (e : DispatchEnv) (leader : ObAddr) (resp_ret : ObRet) (s : DispatchState) :
    (h.dispatch_classify req e leader resp_ret s).state.iterations = s.iterations := by
  unfold ObLogHandler.dispatch_classify
  split_ifs <;> rfl

theorem dispatch_command_iterations (h : ObLogHandler) (req : LogConfigChangeCmd)
    (e : DispatchEnv) (s : DispatchState) :
    (h.dispatch_command req e s).state.iterations = s.iterations := by
  unfold ObLogHandler.dispatch_command
  dsimp only
  split_ifs <;> first | rfl | (rw [dispatch_classify_iterations])

theorem dispatch_renew_iterations (h : ObLogHandler) (e : DispatchEnv) (b : Bool)
    (s : DispatchState) : (h.dispatch_renew e b s).iterations = s.iterations := by
  unfold ObLogHandler.dispatch_renew
  split_ifs <;> rfl

theorem dispatch_body_iterations (h : ObLogHandler) (req : LogConfigChangeCmd)
    (start_ts_ns : Int) (e : DispatchEnv) (s : DispatchState) :
    (h.dispatch_body req start_ts_ns e s).1.iterations = s.iterations := by
  unfold ObLogHandler.dispatch_body
  dsimp only
  split_ifs <;>
    simp only [dispatch_renew_iterations, dispatch_command_iterations]

theorem dispatch_entering_iterations (h : ObLogHandler) (req : LogConfigChangeCmd)
    (start_ts_ns : Int) (env : Nat → DispatchEnv) (s : DispatchState) (k : Nat) :
    (h.dispatch_entering req start_ts_ns env s k).iterations = s.iterations + k := by
  induction k with
  | zero => rfl
  | succ k ih =>
    simp only [ObLogHandler.dispatch_entering, ih]
    omega

/-- With the deadline passed at iteration `N`, the loop returns from any state
that has completed at most `N` iterations. -/
theorem dispatch_loop_terminates (h : ObLogHandler) (req : LogConfigChangeCmd)
    (start_ts_ns : Int) (env : Nat → DispatchEnv) (N : Nat)
    (hN : (env N).now_check - start_ts_ns ≥ req.timeout_ns_) (k : Nat) :
    ∀ (s : DispatchState) (fuel : Nat), s.iterations + k = N → k < fuel →
      ∃ res, h.dispatch_loop req start_ts_ns env fuel s = some res := by
  induction k with
  | zero =>
    intro s fuel hs hf
    obtain ⟨f, rfl⟩ : ∃ f, fuel = f + 1 := ⟨fuel - 1, by omega⟩
    have hs' : s.iterations = N := by omega
    rw [dispatch_loop_step]
    by_cases hg : ObRet.OB_SUCCESS = s.ret ∨ ObRet.OB_NOT_MASTER = s.ret
    · rw [if_pos hg, hs', dispatch_body_deadline h req start_ts_ns (env N) s hN]
      exact ⟨_, rfl⟩
    · rw [if_neg hg]
      exact ⟨_, rfl⟩
  | succ k ih =>
    intro s fuel hs hf
    obtain ⟨f, rfl⟩ : ∃ f, fuel = f + 1 := ⟨fuel - 1, by omega⟩
    rw [dispatch_loop_step]
    by_cases hg : ObRet.OB_SUCCESS = s.ret ∨ ObRet.OB_NOT_MASTER = s.ret
    · rw [if_pos hg]
      by_cases hb : (h.dispatch_body req start_ts_ns (env s.iterations) s).2 = true
      · rw [if_pos hb]
        exact ⟨_, rfl⟩
      · rw [if_neg hb]
        apply ih
        · simp only [dispatch_body_iterations]
          omega
        · omega
    · rw [if_neg hg]
      exact ⟨_, rfl⟩

/-- While the loop goes on and no iteration leaves it, running it is running it
from the state reached after `k` iterations. -/
theorem dispatch_loop_at (h : ObLogHandler) (req : LogConfigChangeCmd)
    (start_ts_ns : Int) (env : Nat → DispatchEnv) (s : DispatchState) (k : Nat)
    (halive : ∀ j < k, (h.dispatch_entering req start_ts_ns env s j).goes_on ∧
      (h.dispatch_body req start_ts_ns
        (env (h.dispatch_entering req start_ts_ns env s j).iterations)
        (h.dispatch_entering req start_ts_ns env s j)).2 = false) :
    ∀ fuel, h.dispatch_loop req start_ts_ns env (fuel + k) s =
      h.dispatch_loop req start_ts_ns env fuel (h.dispatch_entering req start_ts_ns env s k) := by
  induction k with
  | zero =>
    intro fuel
    rfl
  | succ k ih =>
    intro fuel
    have hk := halive k (by omega)
    have hgo : ObRet.OB_SUCCESS = (h.dispatch_entering req start_ts_ns env s k).ret ∨
        ObRet.OB_NOT_MASTER = (h.dispatch_entering req start_ts_ns env s k).ret := hk.1
    rw [show fuel + (k + 1) = (fuel + 1) + k by omega,
      ih (fun j hj => halive j (by omega)) (fuel + 1), dispatch_loop_step,
      if_pos hgo, if_neg (by simp [hk.2])]
    simp only [dispatch_body_iterations]
    rfl

/-! ## C18: the deadline of the dispatcher -/

/-- C18: for a valid request, when at the start of iteration `N` the time
elapsed since the dispatcher started is at least `req.timeout_ns_`, that
iteration sets `OB_TIMEOUT` and leaves the loop without any call (no leader
lookup, RPC, local command, blacklist call or sleep); so if the loop gets to
iteration `N`, `submit_config_change_cmd_` returns `OB_TIMEOUT` with the calls
made before; and in any case the dispatcher returns within `N + 1` tests of
the loop condition, whatever the leader and the blacklist answer: it cannot
loop forever once the clock passes the deadline. -/
theorem dispatch_deadline (h : ObLogHandler) (req : LogConfigChangeCmd) (start_ts_ns : Int)
    (env : Nat → DispatchEnv) (N : Nat) (hv : req.is_valid = true)
    (hN : (env N).now_check - start_ts_ns ≥ req.timeout_ns_) :
    (∀ s : DispatchState,
      h.dispatch_body req start_ts_ns (env N) s = ({ s with ret := ObRet.OB_TIMEOUT }, true)) ∧
    (∀ fuel, N < fuel →
      ∃ res, h.submit_config_change_cmd_ req start_ts_ns env fuel = some res) ∧
    ((∀ j < N, (h.dispatch_entering req start_ts_ns env DispatchState.entry j).goes_on ∧
        (h.dispatch_body req start_ts_ns (env j)
          (h.dispatch_entering req start_ts_ns env DispatchState.entry j)).2 = false) →
      (h.dispatch_entering req start_ts_ns env DispatchState.entry N).goes_on →
      ∀ fuel, N < fuel →
        h.submit_config_change_cmd_ req start_ts_ns env fuel =
          some { h.dispatch_entering req start_ts_ns env DispatchState.entry N with
                 ret := ObRet.OB_TIMEOUT }) := by
  have hit : ∀ j, (h.dispatch_entering req start_ts_ns env DispatchState.entry j).iterations
      = j := by
    intro j
    rw [dispatch_entering_iterations]
    simp [DispatchState.entry]
  refine ⟨fun s => dispatch_body_deadline h req start_ts_ns (env N) s hN, ?_, ?_⟩
  · intro fuel hf
    unfold ObLogHandler.submit_config_change_cmd_
    rw [if_neg (by simp [hv])]
    exact dispatch_loop_terminates h req start_ts_ns env N hN N DispatchState.entry fuel
      (by simp [DispatchState.entry]) hf
  · intro halive hgo fuel hf
    obtain ⟨f, rfl⟩ : ∃ f, fuel = (f + 1) + N := ⟨fuel - N - 1, by omega⟩
    unfold ObLogHandler.submit_config_change_cmd_
    rw [if_neg (by simp [hv]), dispatch_loop_at h req start_ts_ns env DispatchState.entry N
      (fun j hj => by
        have := halive j hj
        rw [hit j]
        exact this) (f + 1), dispatch_loop_step,
      if_pos (show ObRet.OB_SUCCESS =
          (h.dispatch_entering req start_ts_ns env DispatchState.entry N).ret ∨
        ObRet.OB_NOT_MASTER =
          (h.dispatch_entering req start_ts_ns env DispatchState.entry N).ret from hgo), hit N,
      dispatch_body_deadline h req start_ts_ns (env N) _ hN]
    rfl

theorem dispatch_deadline_witness :
    sample_remove_member_req.is_valid = true ∧
    ((fun k => if k < 1
        then sample_dispatch_env 1700000000000000001 ObRet.OB_EAGAIN ObRet.OB_SUCCESS
        else sample_dispatch_env 1700000010000000000 ObRet.OB_EAGAIN ObRet.OB_SUCCESS)
      1 : DispatchEnv).now_check - 1700000000000000000 ≥ sample_remove_member_req.timeout_ns_ ∧
    ∃ res, sample_running.submit_config_change_cmd_ sample_remove_member_req
      1700000000000000000
      (fun k => if k < 1
        then sample_dispatch_env 1700000000000000001 ObRet.OB_EAGAIN ObRet.OB_SUCCESS
        else sample_dispatch_env 1700000010000000000 ObRet.OB_EAGAIN ObRet.OB_SUCCESS)
      2 = some res :=
  ⟨by decide, by decide,
    (dispatch_deadline sample_running sample_remove_member_req 1700000000000000000
      (fun k => if k < 1
        then sample_dispatch_env 1700000000000000001 ObRet.OB_EAGAIN ObRet.OB_SUCCESS
        else sample_dispatch_env 1700000010000000000 ObRet.OB_EAGAIN ObRet.OB_SUCCESS)
      1 (by decide) (by decide)).2.1 2 (by decide)⟩

/-! ## Lemmas on the blacklist calls of the dispatcher -/

/-- An iteration in which the deadline has not passed, the blacklist removal
(if any) succeeds, the handler is initialised and the locator names a leader
hands the request to that leader and goes by its response code. -/
theorem dispatch_body_of_response (h : ObLogHandler) (req : LogConfigChangeCmd)
    (start_ts_ns : Int) (e : DispatchEnv) (s : DispatchState) (leader : ObAddr) (r : ObRet)
    (hd : ¬ e.now_check - start_ts_ns ≥ req.timeout_ns_)
    (hbl : ¬ (req.is_add_member_list = true ∧ false = s.has_removed_from_blacklist ∧
      ObRet.OB_SUCCESS ≠ e.remove_from_election_blacklist h.id_ req.added_member_.get_server))
    (hh : ¬ (h.is_inited_ = false ∨ h.lc_cb_ = none ∨ h.rpc_proxy_ = none))
    (hg : e.get_leader h.id_ = { ret := ObRet.OB_SUCCESS, leader := leader })
    (hr : (leader = h.self_ ∧ e.handle_config_change_cmd req = r) ∨
      (leader ≠ h.self_ ∧
        e.send_log_config_change_cmd leader req.conn_timeout_us req.timeout_us req =
          { rpc_ret := ObRet.OB_SUCCESS, resp_ret := r })) :
    ∃ s2 : DispatchState,
      s2.last_renew_leader_ts_ns = s.last_renew_leader_ts_ns ∧
      s2.has_added_to_blacklist = s.has_added_to_blacklist ∧
      h.dispatch_body req start_ts_ns e s =
        if (h.dispatch_classify req e leader r s2).broke = true then
          ((h.dispatch_classify req e leader r s2).state, true)
        else
          (h.dispatch_renew e (h.dispatch_classify req e leader r s2).need_renew_leader
            (h.dispatch_classify req e leader r s2).state, false) := by
  have hcmd : ∀ s1 : DispatchState, ∃ s2 : DispatchState,
      s2.last_renew_leader_ts_ns = s1.last_renew_leader_ts_ns ∧
      s2.has_added_to_blacklist = s1.has_added_to_blacklist ∧
      h.dispatch_command req e s1 = h.dispatch_classify req e leader r s2 := by
    intro s1
    unfold ObLogHandler.dispatch_command
    rw [if_neg hh]
    dsimp only
    rw [hg]
    dsimp only
    rw [if_neg (by simp)]
    rcases hr with ⟨hl, hrl⟩ | ⟨hl, hrr⟩
    · rw [if_pos hl, hrl]
      refine ⟨_, ?_, ?_, rfl⟩ <;> rfl
    · rw [if_neg hl, hrr]
      dsimp only
      rw [if_neg (by simp)]
      refine ⟨_, ?_, ?_, rfl⟩ <;> rfl
  unfold ObLogHandler.dispatch_body
  rw [if_neg hd, if_neg hbl]
  dsimp only
  by_cases h2 : req.is_add_member_list = true ∧ false = s.has_removed_from_blacklist
  · rw [if_pos h2]
    obtain ⟨s2, hs1, hs2, hs3⟩ := hcmd
      { s with has_removed_from_blacklist := true
               calls := s.calls ++
                 [Call.remove_from_election_blacklist h.id_ req.added_member_.get_server
                   (e.remove_from_election_blacklist h.id_ req.added_member_.get_server)] }
    exact ⟨s2, hs1, hs2, by rw [hs3]⟩
  · rw [if_neg h2]
    obtain ⟨s2, hs1, hs2, hs3⟩ := hcmd s
    exact ⟨s2, hs1, hs2, by rw [hs3]⟩

/-- C20 (as stated, refuted): the leader answers `OB_NOT_MASTER`, the renewal of
the leader location this triggers answers `OB_ERR_UNEXPECTED`, and the
dispatcher returns `OB_ERR_UNEXPECTED` after that one iteration instead of
retrying. -/
theorem dispatch_not_master_returns_counterexample :
    (sample_running.submit_config_change_cmd_ sample_remove_member_req 1700000000000000000
      (fun _ => sample_dispatch_env 1700000000000000001 ObRet.OB_NOT_MASTER
        ObRet.OB_ERR_UNEXPECTED) 2).map (fun res => (res.ret, res.iterations, res.calls)) =
      some (ObRet.OB_ERR_UNEXPECTED, 1,
        [Call.get_leader 1 ObRet.OB_SUCCESS { ip_port := 2883, valid := true },
         Call.send_log_config_change_cmd { ip_port := 2883, valid := true } 5000000 10000000
           sample_remove_member_req ObRet.OB_SUCCESS ObRet.OB_NOT_MASTER,
         Call.nonblock_renew_leader 1 ObRet.OB_ERR_UNEXPECTED]) := by
  decide

/-- C20 (as amended): in an iteration of the loop in which a response code `r`
was obtained from the leader (locally or by RPC): if `r` is `OB_SUCCESS` the
dispatcher returns `OB_SUCCESS` at once; if `r` is `OB_EAGAIN` it sleeps 50 ms
and goes on to the next iteration with `OB_SUCCESS` as running result, without
a renewal; if `r` is `OB_NOT_MASTER` it marks the leader location for renewal:
when no more than 500 ms have passed since the last renewal it goes on to the
next iteration, and otherwise it calls `nonblock_renew_leader` and takes its
result as running result, going on to the next iteration when that is
`OB_SUCCESS` or `OB_NOT_MASTER` and returning that result otherwise; and if
`r` is any other code (other than `OB_NOT_ALLOW_REMOVING_LEADER` for a request
that removes the located leader) the dispatcher returns exactly `r`. -/
theorem dispatch_response_code (h : ObLogHandler) (req : LogConfigChangeCmd)
    (start_ts_ns : Int) (env : Nat → DispatchEnv) (s : DispatchState) (leader : ObAddr)
    (r : ObRet) (hgo : s.goes_on)
    (hd : ¬ (env s.iterations).now_check - start_ts_ns ≥ req.timeout_ns_)
    (hbl : ¬ (req.is_add_member_list = true ∧ false = s.has_removed_from_blacklist ∧
      ObRet.OB_SUCCESS ≠
        (env s.iterations).remove_from_election_blacklist h.id_ req.added_member_.get_server))
    (hh : ¬ (h.is_inited_ = false ∨ h.lc_cb_ = none ∨ h.rpc_proxy_ = none))
    (hg : (env s.iterations).get_leader h.id_ = { ret := ObRet.OB_SUCCESS, leader := leader })
    (hr : (leader = h.self_ ∧ (env s.iterations).handle_config_change_cmd req = r) ∨
      (leader ≠ h.self_ ∧
        (env s.iterations).send_log_config_change_cmd leader req.conn_timeout_us
          req.timeout_us req = { rpc_ret := ObRet.OB_SUCCESS, resp_ret := r })) :
    ∃ next : DispatchState,
      next = { (h.dispatch_body req start_ts_ns (env s.iterations) s).1 with
               iterations := s.iterations + 1 } ∧
      (r = ObRet.OB_SUCCESS →
        ∀ fuel, ∃ res, h.dispatch_loop req start_ts_ns env (fuel + 1) s = some res ∧
          res.ret = ObRet.OB_SUCCESS ∧ res.iterations = s.iterations) ∧
      (r = ObRet.OB_EAGAIN →
        next.ret = ObRet.OB_SUCCESS ∧ next.goes_on ∧
        next.last_renew_leader_ts_ns = s.last_renew_leader_ts_ns ∧
        (∃ before, next.calls = before ++ [Call.ob_usleep (50 * 1000)]) ∧
        ∀ fuel, h.dispatch_loop req start_ts_ns env (fuel + 1) s =
          h.dispatch_loop req start_ts_ns env fuel next) ∧
      (r = ObRet.OB_NOT_MASTER →
        (¬ (env s.iterations).now_renew_test - s.last_renew_leader_ts_ns >
            RENEW_LEADER_INTERVAL_NS →
          next.ret = ObRet.OB_NOT_MASTER ∧ next.goes_on ∧
          next.last_renew_leader_ts_ns = s.last_renew_leader_ts_ns ∧
          ∀ fuel, h.dispatch_loop req start_ts_ns env (fuel + 1) s =
            h.dispatch_loop req start_ts_ns env fuel next) ∧
        ((env s.iterations).now_renew_test - s.last_renew_leader_ts_ns >
            RENEW_LEADER_INTERVAL_NS →
          next.ret = (env s.iterations).nonblock_renew_leader h.id_ ∧
          next.last_renew_leader_ts_ns = (env s.iterations).now_renew_set ∧
          (∃ before, next.calls = before ++ [Call.nonblock_renew_leader h.id_
            ((env s.iterations).nonblock_renew_leader h.id_)]) ∧
          (next.goes_on → ∀ fuel, h.dispatch_loop req start_ts_ns env (fuel + 1) s =
            h.dispatch_loop req start_ts_ns env fuel next) ∧
          (¬ next.goes_on → ∀ fuel, h.dispatch_loop req start_ts_ns env (fuel + 2) s =
            some next))) ∧
      (r ≠ ObRet.OB_SUCCESS → r ≠ ObRet.OB_EAGAIN → r ≠ ObRet.OB_NOT_MASTER →
        ¬ (r = ObRet.OB_NOT_ALLOW_REMOVING_LEADER ∧ req.is_remove_member_list = true ∧
          req.removed_member_.get_server = leader) →
        next.ret = r ∧
        ∀ fuel, h.dispatch_loop req start_ts_ns env (fuel + 2) s = some next) := by
  obtain ⟨s2, hs2, _, hbody⟩ := dispatch_body_of_response h req start_ts_ns (env s.iterations) s
    leader r hd hbl hh hg hr
  have hgo' : ObRet.OB_SUCCESS = s.ret ∨ ObRet.OB_NOT_MASTER = s.ret := hgo
  have hstep : ∀ fuel, (h.dispatch_body req start_ts_ns (env s.iterations) s).2 = false →
      h.dispatch_loop req start_ts_ns env (fuel + 1) s =
        h.dispatch_loop req start_ts_ns env fuel
          { (h.dispatch_body req start_ts_ns (env s.iterations) s).1 with
            iterations := s.iterations + 1 } := by
    intro fuel hb
    rw [dispatch_loop_step, if_pos hgo', if_neg (by simp [hb])]
    simp only [dispatch_body_iterations]
  have hstop : ∀ (fuel : Nat) (t : DispatchState), ¬ t.goes_on →
      h.dispatch_loop req start_ts_ns env (fuel + 1) t = some t := by
    intro fuel t ht
    rw [dispatch_loop_step,
      if_neg (show ¬ (ObRet.OB_SUCCESS = t.ret ∨ ObRet.OB_NOT_MASTER = t.ret) from ht)]
  refine ⟨_, rfl, ?_, ?_, ?_, ?_⟩
  · intro hrs fuel
    have hb : h.dispatch_body req start_ts_ns (env s.iterations) s =
        ({ s2 with ret := ObRet.OB_SUCCESS }, true) := by
      rw [hbody]
      simp [ObLogHandler.dispatch_classify, hrs]
    refine ⟨(h.dispatch_body req start_ts_ns (env s.iterations) s).1, ?_, ?_, ?_⟩
    · rw [dispatch_loop_step, if_pos hgo', if_pos (by rw [hb])]
    · rw [hb]
    · exact dispatch_body_iterations h req start_ts_ns (env s.iterations) s
  · intro hre
    have hb : h.dispatch_body req start_ts_ns (env s.iterations) s =
        ({ s2 with ret := ObRet.OB_SUCCESS
                   calls := s2.calls ++ [Call.ob_usleep (50 * 1000)] }, false) := by
      rw [hbody]
      simp [ObLogHandler.dispatch_classify, ObLogHandler.dispatch_renew, hre]
    refine ⟨?_, ?_, ?_, ?_, fun fuel => hstep fuel (by rw [hb])⟩
    · rw [hb]
    · show ObRet.OB_SUCCESS = _ ∨ ObRet.OB_NOT_MASTER = _
      rw [hb]
      exact Or.inl rfl
    · rw [hb]
      exact hs2
    · rw [hb]
      exact ⟨_, rfl⟩
  · intro hrn
    have hc : h.dispatch_body req start_ts_ns (env s.iterations) s =
        (h.dispatch_renew (env s.iterations) true { s2 with ret := ObRet.OB_NOT_MASTER },
          false) := by
      rw [hbody]
      simp [ObLogHandler.dispatch_classify, hrn]
    have hb2 : (h.dispatch_body req start_ts_ns (env s.iterations) s).2 = false := by
      rw [hc]
    constructor
    · intro hne
      have hb : h.dispatch_body req start_ts_ns (env s.iterations) s =
          ({ s2 with ret := ObRet.OB_NOT_MASTER }, false) := by
        rw [hc]
        unfold ObLogHandler.dispatch_renew
        rw [if_neg]
        intro hcon
        exact hne (by rw [← hs2]; exact hcon.2)
      refine ⟨?_, ?_, ?_, fun fuel => hstep fuel hb2⟩
      · rw [hb]
      · show ObRet.OB_SUCCESS = _ ∨ ObRet.OB_NOT_MASTER = _
        rw [hb]
        exact Or.inr rfl
      · rw [hb]
        exact hs2
    · intro hel
      have hb : h.dispatch_body req start_ts_ns (env s.iterations) s =
          ({ s2 with last_renew_leader_ts_ns := (env s.iterations).now_renew_set
                     ret := (env s.iterations).nonblock_renew_leader h.id_
                     calls := s2.calls ++ [Call.nonblock_renew_leader h.id_
                       ((env s.iterations).nonblock_renew_leader h.id_)] }, false) := by
        rw [hc]
        unfold ObLogHandler.dispatch_renew
        rw [if_pos]
        exact ⟨rfl, by rw [← hs2] at hel; exact hel⟩
      refine ⟨?_, ?_, ?_, fun _ fuel => hstep fuel hb2, fun hng fuel => ?_⟩
      · rw [hb]
      · rw [hb]
      · rw [hb]
        exact ⟨_, rfl⟩
      · rw [hstep (fuel + 1) hb2]
        exact hstop fuel _ hng
  · intro h1 h2 h3 h4
    have h4' : ¬ (ObRet.OB_NOT_ALLOW_REMOVING_LEADER = r ∧ req.is_remove_member_list = true ∧
        req.removed_member_.get_server = leader) := fun hcon =>
      h4 ⟨hcon.1.symm, hcon.2.1, hcon.2.2⟩
    have hb : h.dispatch_body req start_ts_ns (env s.iterations) s =
        ({ s2 with ret := r }, false) := by
      rw [hbody]
      unfold ObLogHandler.dispatch_classify
      rw [if_neg h1, if_neg (Ne.symm h2), if_neg (Ne.symm h3), if_neg h4']
      simp [ObLogHandler.dispatch_renew]
    have hb2 : (h.dispatch_body req start_ts_ns (env s.iterations) s).2 = false := by
      rw [hb]
    have hret : ({ (h.dispatch_body req start_ts_ns (env s.iterations) s).1 with
        iterations := s.iterations + 1 } : DispatchState).ret = r := by
      rw [hb]
    refine ⟨hret, fun fuel => ?_⟩
    rw [hstep (fuel + 1) hb2]
    refine hstop fuel _ ?_
    intro hcon
    have hcon' : ObRet.OB_SUCCESS = _ ∨ ObRet.OB_NOT_MASTER = _ := hcon
    rw [hret] at hcon'
    rcases hcon' with hx | hx
    · exact h1 hx.symm
    · exact h3 hx.symm

theorem dispatch_response_code_witness :
    DispatchState.entry.goes_on ∧
    ¬ (sample_dispatch_env 1700000000000000001 ObRet.OB_NOT_MASTER
        ObRet.OB_ERR_UNEXPECTED).now_check - 1700000000000000000 ≥
      sample_remove_member_req.timeout_ns_ ∧
    (sample_dispatch_env 1700000000000000001 ObRet.OB_NOT_MASTER
        ObRet.OB_ERR_UNEXPECTED).get_leader sample_running.id_ =
      { ret := ObRet.OB_SUCCESS, leader := { ip_port := 2883, valid := true } } ∧
    ∃ next : DispatchState, next.ret = ObRet.OB_ERR_UNEXPECTED ∧
      sample_running.dispatch_loop sample_remove_member_req 1700000000000000000
        (fun _ => sample_dispatch_env 1700000000000000001 ObRet.OB_NOT_MASTER
          ObRet.OB_ERR_UNEXPECTED) 2 DispatchState.entry = some next := by
  refine ⟨by decide, by decide, by decide, ?_⟩
  obtain ⟨next, _, _, _, hnm, _⟩ :=
    dispatch_response_code sample_running sample_remove_member_req 1700000000000000000
      (fun _ => sample_dispatch_env 1700000000000000001 ObRet.OB_NOT_MASTER
        ObRet.OB_ERR_UNEXPECTED) DispatchState.entry { ip_port := 2883, valid := true }
      ObRet.OB_NOT_MASTER (by decide) (by decide) (by decide) (by decide) (by decide)
      (Or.inr ⟨by decide, by decide⟩)
  obtain ⟨hret, _, _, _, hstop⟩ := (hnm rfl).2 (by decide)
  refine ⟨next, ?_, hstop ?_ 0⟩
  · rw [hret]
    rfl
  · intro hcon
    have hcon2 : ObRet.OB_SUCCESS = next.ret ∨ ObRet.OB_NOT_MASTER = next.ret := hcon
    rw [hret] at hcon2
    revert hcon2
    decide

/-! ## C21: the gate of the reconfiguration entry points -/

/-- C21: every reconfiguration entry point that goes through the dispatcher
returns `OB_NOT_INIT` on an uninitialised handler, else `OB_NOT_RUNNING` on a
stopped one, else `OB_INVALID_ARGUMENT` when an argument is not valid (a
timeout that is not positive, an invalid member or member list, an invalid
replica number), each time without any call; so an entry point that made a call
(a leader lookup, an RPC, a local command or a blacklist call) was called on an
initialised handler that is not stopped, with valid arguments. -/
theorem reconfigure_gate (h : ObLogHandler) (k : ArgChecks) (w : SubmitEnv) (fuel : Nat)
    (op : ReconfigOp) :
    (h.is_inited_ = false →
      h.reconfigure k w fuel op = some { ret := ObRet.OB_NOT_INIT, calls := [] }) ∧
    (h.is_inited_ = true → h.is_in_stop_state_ = true →
      h.reconfigure k w fuel op = some { ret := ObRet.OB_NOT_RUNNING, calls := [] }) ∧
    (h.running → ¬ op.args_valid k →
      h.reconfigure k w fuel op = some { ret := ObRet.OB_INVALID_ARGUMENT, calls := [] }) ∧
    (∀ res, h.reconfigure k w fuel op = some res → res.calls ≠ [] →
      h.running ∧ op.args_valid k) := by
  have h1 : h.is_inited_ = false →
      h.reconfigure k w fuel op = some { ret := ObRet.OB_NOT_INIT, calls := [] } := by
    intro hi
    cases op <;>
      simp [ObLogHandler.reconfigure, ObLogHandler.change_replica_num,
        ObLogHandler.add_member, ObLogHandler.remove_member, ObLogHandler.replace_member,
        ObLogHandler.add_learner, ObLogHandler.remove_learner,
        ObLogHandler.switch_learner_to_acceptor, ObLogHandler.switch_acceptor_to_learner,
        ObLogHandler.add_arb_member, ObLogHandler.remove_arb_member,
        ObLogHandler.replace_arb_member, hi]
  have h2 : h.is_inited_ = true → h.is_in_stop_state_ = true →
      h.reconfigure k w fuel op = some { ret := ObRet.OB_NOT_RUNNING, calls := [] } := by
    intro hi hs
    cases op <;>
      simp [ObLogHandler.reconfigure, ObLogHandler.change_replica_num,
        ObLogHandler.add_member, ObLogHandler.remove_member, ObLogHandler.replace_member,
        ObLogHandler.add_learner, ObLogHandler.remove_learner,
        ObLogHandler.switch_learner_to_acceptor, ObLogHandler.switch_acceptor_to_learner,
        ObLogHandler.add_arb_member, ObLogHandler.remove_arb_member,
        ObLogHandler.replace_arb_member, hi, hs]
  have h3 : h.running → ¬ op.args_valid k →
      h.reconfigure k w fuel op = some { ret := ObRet.OB_INVALID_ARGUMENT, calls := [] } := by
    intro hrun hna
    obtain ⟨hi, hs⟩ := hrun
    cases op <;>
      simp only [ReconfigOp.args_valid, ReconfigOp.timeout_us, ReconfigOp.members,
        ReconfigOp.member_lists, ReconfigOp.replica_nums] at hna <;>
      simp [ObLogHandler.reconfigure, ObLogHandler.change_replica_num,
        ObLogHandler.add_member, ObLogHandler.remove_member, ObLogHandler.replace_member,
        ObLogHandler.add_learner, ObLogHandler.remove_learner,
        ObLogHandler.switch_learner_to_acceptor, ObLogHandler.switch_acceptor_to_learner,
        ObLogHandler.add_arb_member, ObLogHandler.remove_arb_member,
        ObLogHandler.replace_arb_member, hi, hs] <;>
      (intros; exfalso; apply hna; simp_all)
  refine ⟨h1, h2, h3, ?_⟩
  intro res hres hcalls
  by_cases hi : h.is_inited_ = true
  · by_cases hs : h.is_in_stop_state_ = true
    · rw [h2 hi hs] at hres
      rw [← Option.some.inj hres] at hcalls
      exact absurd rfl hcalls
    · have hrun : h.running := ⟨hi, by simpa using hs⟩
      by_cases hv : op.args_valid k
      · exact ⟨hrun, hv⟩
      · rw [h3 hrun hv] at hres
        rw [← Option.some.inj hres] at hcalls
        exact absurd rfl hcalls
  · rw [h1 (by simpa using hi)] at hres
    rw [← Option.some.inj hres] at hcalls
    exact absurd rfl hcalls

/-! ## Lemmas on the calls an iteration of the dispatcher adds -/

theorem dispatch_classify_calls (h : ObLogHandler) (req : LogConfigChangeCmd)
    (e : DispatchEnv) (leader : ObAddr) (resp_ret : ObRet) (s : DispatchState) :
    ∃ extra : List Call,
      (h.dispatch_classify req e leader resp_ret s).state.calls = s.calls ++ extra ∧
      ∀ c ∈ extra, c.dispatched_for h req ∧ c.is_nonblock_renew_leader = false ∧
        c.command = none := by
  unfold ObLogHandler.dispatch_classify
  split_ifs
  · exact ⟨[], by simp, by simp⟩
  · exact ⟨[Call.ob_usleep (50 * 1000)], rfl, by
      simp [Call.dispatched_for, Call.is_nonblock_renew_leader, Call.command]⟩
  · exact ⟨[], by simp, by simp⟩
  · exact ⟨[], by simp, by simp⟩
  · exact ⟨[Call.add_to_election_blacklist h.id_ leader
      (e.add_to_election_blacklist h.id_ leader)], rfl, by
      simp [Call.dispatched_for, Call.is_nonblock_renew_leader, Call.command]⟩
  · exact ⟨[Call.add_to_election_blacklist h.id_ leader
      (e.add_to_election_blacklist h.id_ leader)], rfl, by
      simp [Call.dispatched_for, Call.is_nonblock_renew_leader, Call.command]⟩
  · exact ⟨[], by simp, by simp⟩

theorem dispatch_command_calls (h : ObLogHandler) (req : LogConfigChangeCmd)
    (e : DispatchEnv) (s : DispatchState) :
    ∃ extra : List Call,
      (h.dispatch_command req e s).state.calls = s.calls ++ extra ∧
      ∀ c ∈ extra, c.dispatched_for h req ∧ c.is_nonblock_renew_leader = false := by
  unfold ObLogHandler.dispatch_command
  by_cases h1 : h.is_inited_ = false ∨ h.lc_cb_ = none ∨ h.rpc_proxy_ = none
  · rw [if_pos h1]
    exact ⟨[], by simp, by simp⟩
  · rw [if_neg h1]
    dsimp only
    by_cases h2 : (e.get_leader h.id_).ret ≠ ObRet.OB_SUCCESS
    · rw [if_pos h2]
      exact ⟨[Call.get_leader h.id_ (e.get_leader h.id_).ret (e.get_leader h.id_).leader],
        rfl, by simp [Call.dispatched_for, Call.is_nonblock_renew_leader]⟩
    · rw [if_neg h2]
      by_cases h3 : (e.get_leader h.id_).leader = h.self_
      · rw [if_pos h3]
        obtain ⟨extra, hx, hall⟩ := dispatch_classify_calls h req e (e.get_leader h.id_).leader
          (e.handle_config_change_cmd req)
          { s with calls := s.calls ++
              [Call.get_leader h.id_ (e.get_leader h.id_).ret (e.get_leader h.id_).leader] ++
              [Call.handle_config_change_cmd req (e.handle_config_change_cmd req)] }
        refine ⟨[Call.get_leader h.id_ (e.get_leader h.id_).ret (e.get_leader h.id_).leader,
          Call.handle_config_change_cmd req (e.handle_config_change_cmd req)] ++ extra, ?_, ?_⟩
        · rw [hx]
          simp
        · intro c hc
          rw [List.mem_append] at hc
          rcases hc with hc | hc
          · simp only [List.mem_cons, List.mem_singleton, List.not_mem_nil, or_false] at hc
            rcases hc with rfl | rfl <;>
              simp [Call.dispatched_for, Call.is_nonblock_renew_leader]
          · exact ⟨(hall c hc).1, (hall c hc).2.1⟩
      · rw [if_neg h3]
        by_cases h4 : (e.send_log_config_change_cmd (e.get_leader h.id_).leader
            req.conn_timeout_us req.timeout_us req).rpc_ret ≠ ObRet.OB_SUCCESS
        · rw [if_pos h4]
          refine ⟨[Call.get_leader h.id_ (e.get_leader h.id_).ret (e.get_leader h.id_).leader,
            Call.send_log_config_change_cmd (e.get_leader h.id_).leader req.conn_timeout_us
              req.timeout_us req
              (e.send_log_config_change_cmd (e.get_leader h.id_).leader
                req.conn_timeout_us req.timeout_us req).rpc_ret
              (e.send_log_config_change_cmd (e.get_leader h.id_).leader
                req.conn_timeout_us req.timeout_us req).resp_ret], ?_, ?_⟩
          · simp
          · intro c hc
            simp only [List.mem_cons, List.mem_singleton, List.not_mem_nil, or_false] at hc
            rcases hc with rfl | rfl <;>
              simp [Call.dispatched_for, Call.is_nonblock_renew_leader]
        · rw [if_neg h4]
          obtain ⟨extra, hx, hall⟩ := dispatch_classify_calls h req e
            (e.get_leader h.id_).leader
            (e.send_log_config_change_cmd (e.get_leader h.id_).leader
              req.conn_timeout_us req.timeout_us req).resp_ret
            { s with calls := s.calls ++
                [Call.get_leader h.id_ (e.get_leader h.id_).ret (e.get_leader h.id_).leader] ++
                [Call.send_log_config_change_cmd (e.get_leader h.id_).leader
                  req.conn_timeout_us req.timeout_us req
                  (e.send_log_config_change_cmd (e.get_leader h.id_).leader
                    req.conn_timeout_us req.timeout_us req).rpc_ret
                  (e.send_log_config_change_cmd (e.get_leader h.id_).leader
                    req.conn_timeout_us req.timeout_us req).resp_ret] }
          refine ⟨[Call.get_leader h.id_ (e.get_leader h.id_).ret (e.get_leader h.id_).leader,
            Call.send_log_config_change_cmd (e.get_leader h.id_).leader req.conn_timeout_us
              req.timeout_us req
              (e.send_log_config_change_cmd (e.get_leader h.id_).leader
                req.conn_timeout_us req.timeout_us req).rpc_ret
              (e.send_log_config_change_cmd (e.get_leader h.id_).leader
                req.conn_timeout_us req.timeout_us req).resp_ret] ++ extra, ?_, ?_⟩
          · rw [hx]
            simp
          · intro c hc
            rw [List.mem_append] at hc
            rcases hc with hc | hc
            · simp only [List.mem_cons, List.mem_singleton, List.not_mem_nil, or_false] at hc
              rcases hc with rfl | rfl <;>
                simp [Call.dispatched_for, Call.is_nonblock_renew_leader]
            · exact ⟨(hall c hc).1, (hall c hc).2.1⟩

theorem dispatch_tail_calls (h : ObLogHandler) (req : LogConfigChangeCmd)
    (e : DispatchEnv) (s : DispatchState) :
    ∃ pre : List Call,
      (∀ c ∈ pre, c.dispatched_for h req ∧ c.is_nonblock_renew_leader = false) ∧
      ((if (h.dispatch_command req e s).broke = true then
          ((h.dispatch_command req e s).state, true)
        else
          (h.dispatch_renew e (h.dispatch_command req e s).need_renew_leader
            (h.dispatch_command req e s).state, false)).1.calls = s.calls ++ pre ∨
       ((if (h.dispatch_command req e s).broke = true then
          ((h.dispatch_command req e s).state, true)
        else
          (h.dispatch_renew e (h.dispatch_command req e s).need_renew_leader
            (h.dispatch_command req e s).state, false)) =
          ({ (h.dispatch_command req e s).state with
             last_renew_leader_ts_ns := e.now_renew_set
             ret := e.nonblock_renew_leader h.id_
             calls := s.calls ++ pre ++ [Call.nonblock_renew_leader h.id_
               (e.nonblock_renew_leader h.id_)] }, false))) := by
  obtain ⟨extra, hx, hall⟩ := dispatch_command_calls h req e s
  refine ⟨extra, hall, ?_⟩
  by_cases hb : (h.dispatch_command req e s).broke = true
  · rw [if_pos hb]
    exact Or.inl hx
  · rw [if_neg hb]
    unfold ObLogHandler.dispatch_renew
    by_cases hr : (h.dispatch_command req e s).need_renew_leader = true ∧
        e.now_renew_test - (h.dispatch_command req e s).state.last_renew_leader_ts_ns >
          RENEW_LEADER_INTERVAL_NS
    · rw [if_pos hr]
      right
      rw [hx]
    · rw [if_neg hr]
      exact Or.inl hx

theorem dispatch_body_calls (h : ObLogHandler) (req : LogConfigChangeCmd)
    (start_ts_ns : Int) (e : DispatchEnv) (s : DispatchState) :
    ∃ pre : List Call,
      (∀ c ∈ pre, c.dispatched_for h req ∧ c.is_nonblock_renew_leader = false) ∧
      ((h.dispatch_body req start_ts_ns e s).1.calls = s.calls ++ pre ∨
       ((h.dispatch_body req start_ts_ns e s).1.calls =
          s.calls ++ pre ++ [Call.nonblock_renew_leader h.id_ (e.nonblock_renew_leader h.id_)] ∧
        (h.dispatch_body req start_ts_ns e s).2 = false ∧
        (h.dispatch_body req start_ts_ns e s).1.ret = e.nonblock_renew_leader h.id_ ∧
        (h.dispatch_body req start_ts_ns e s).1.last_renew_leader_ts_ns = e.now_renew_set ∧
        ¬ e.now_check - start_ts_ns ≥ req.timeout_ns_)) := by
  unfold ObLogHandler.dispatch_body
  by_cases h1 : e.now_check - start_ts_ns ≥ req.timeout_ns_
  · rw [if_pos h1]
    exact ⟨[], by simp, Or.inl (by simp)⟩
  · rw [if_neg h1]
    by_cases h2 : req.is_add_member_list = true ∧ false = s.has_removed_from_blacklist
    · by_cases h3 : ObRet.OB_SUCCESS ≠
          e.remove_from_election_blacklist h.id_ req.added_member_.get_server
      · rw [if_pos ⟨h2.1, h2.2, h3⟩]
        exact ⟨[Call.remove_from_election_blacklist h.id_ req.added_member_.get_server
            (e.remove_from_election_blacklist h.id_ req.added_member_.get_server),
          Call.ob_usleep (50 * 1000)],
          by simp [Call.dispatched_for, Call.is_nonblock_renew_leader], Or.inl rfl⟩
      · rw [if_neg (by
          intro hc
          exact h3 hc.2.2)]
        dsimp only
        rw [if_pos h2]
        obtain ⟨pre, hall, hcases⟩ := dispatch_tail_calls h req e
          { s with has_removed_from_blacklist := true
                   calls := s.calls ++
                     [Call.remove_from_election_blacklist h.id_ req.added_member_.get_server
                       (e.remove_from_election_blacklist h.id_
                         req.added_member_.get_server)] }
        refine ⟨[Call.remove_from_election_blacklist h.id_ req.added_member_.get_server
            (e.remove_from_election_blacklist h.id_ req.added_member_.get_server)] ++ pre,
          ?_, ?_⟩
        · intro c hc
          rw [List.mem_append, List.mem_singleton] at hc
          rcases hc with rfl | hc
          · simp [Call.dispatched_for, Call.is_nonblock_renew_leader]
          · exact hall c hc
        · rcases hcases with hl | hr
          · left
            rw [hl]
            simp
          · right
            rw [hr]
            refine ⟨?_, rfl, rfl, rfl, h1⟩
            simp
    · rw [if_neg (by
        intro hc
        exact h2 ⟨hc.1, hc.2.1⟩)]
      dsimp only
      rw [if_neg h2]
      obtain ⟨pre, hall, hcases⟩ := dispatch_tail_calls h req e s
      refine ⟨pre, hall, ?_⟩
      rcases hcases with hl | hr
      · exact Or.inl hl
      · right
        rw [hr]
        exact ⟨rfl, rfl, rfl, rfl, h1⟩

theorem dispatch_body_dispatched_for (h : ObLogHandler) (req : LogConfigChangeCmd)
    (start_ts_ns : Int) (e : DispatchEnv) (s : DispatchState)
    (hs : ∀ c ∈ s.calls, c.dispatched_for h req) :
    ∀ c ∈ (h.dispatch_body req start_ts_ns e s).1.calls, c.dispatched_for h req := by
  obtain ⟨pre, hall, hcases⟩ := dispatch_body_calls h req start_ts_ns e s
  intro c hc
  rcases hcases with hl | hr
  · rw [hl, List.mem_append] at hc
    rcases hc with hc | hc
    · exact hs c hc
    · exact (hall c hc).1
  · rw [hr.1, List.mem_append, List.mem_append, List.mem_singleton] at hc
    rcases hc with (hc | hc) | rfl
    · exact hs c hc
    · exact (hall c hc).1
    · exact rfl

theorem dispatch_loop_dispatched_for (h : ObLogHandler) (req : LogConfigChangeCmd)
    (start_ts_ns : Int) (env : Nat → DispatchEnv) (fuel : Nat) :
    ∀ (s res : DispatchState), (∀ c ∈ s.calls, c.dispatched_for h req) →
      h.dispatch_loop req start_ts_ns env fuel s = some res →
      ∀ c ∈ res.calls, c.dispatched_for h req := by
  induction fuel with
  | zero =>
    intro s res _ hres
    simp [ObLogHandler.dispatch_loop] at hres
  | succ fuel ih =>
    intro s res hs hres
    rw [dispatch_loop_step] at hres
    by_cases hgo : ObRet.OB_SUCCESS = s.ret ∨ ObRet.OB_NOT_MASTER = s.ret
    · rw [if_pos hgo] at hres
      have hb := dispatch_body_dispatched_for h req start_ts_ns (env s.iterations) s hs
      by_cases hbr : (h.dispatch_body req start_ts_ns (env s.iterations) s).2 = true
      · rw [if_pos hbr] at hres
        rw [← Option.some.inj hres]
        exact hb
      · rw [if_neg hbr] at hres
        refine ih _ res ?_ hres
        exact hb
    · rw [if_neg hgo] at hres
      rw [← Option.some.inj hres]
      exact hs

theorem submit_dispatched_for (h : ObLogHandler) (req : LogConfigChangeCmd) (w : SubmitEnv)
    (fuel : Nat) (res : ReconfigResult) (hres : h.submit req w fuel = some res) :
    ∀ c ∈ res.calls, c.dispatched_for h req := by
  unfold ObLogHandler.submit at hres
  cases hd : h.submit_config_change_cmd_ req w.start_ts_ns w.env fuel with
  | none => rw [hd] at hres; simp at hres
  | some st =>
    rw [hd] at hres
    simp only [Option.map_some'] at hres
    rw [← Option.some.inj hres]
    unfold ObLogHandler.submit_config_change_cmd_ at hd
    by_cases hv : req.is_valid = false
    · rw [if_pos hv] at hd
      rw [← Option.some.inj hd]
      intro c hc
      simp [DispatchState.result, DispatchState.entry] at hc
    · rw [if_neg hv] at hd
      exact dispatch_loop_dispatched_for h req w.start_ts_ns w.env fuel DispatchState.entry st
        (by intro c hc; simp [DispatchState.entry] at hc) hd

theorem dispatched_for_command (h : ObLogHandler) (req r : LogConfigChangeCmd) (c : Call)
    (hc : c.dispatched_for h req) (hr : c.command = some r) : r = req := by
  cases c <;> simp [Call.command] at hr
  · subst hr
    exact hc
  · subst hr
    exact hc.2.2

/-! ## C22: `change_replica_num` -/

/-- C22: on a running handler, for every member list and every timeout (an
`int64_t` number of microseconds whose product with 1000 is representable),
`change_replica_num` returns `OB_INVALID_ARGUMENT` without any call whenever
`curr_replica_num ≤ new_replica_num`; a call that reached the dispatcher was
made with `new_replica_num < curr_replica_num` and both numbers valid, and every
command it hands to a leader (locally or by RPC) has kind
`CHANGE_REPLICA_NUM_CMD`, `timeout_ns = timeout_us * 1000` and the arguments of
the call. -/
theorem change_replica_num_only_smaller (h : ObLogHandler) (hrun : h.running) (k : ArgChecks)
    (member_list : List ObMember) (curr_replica_num new_replica_num timeout_us : Int)
    (w : SubmitEnv) (fuel : Nat) (hrange : timeout_us * 1000 < 2 ^ 63) :
    (curr_replica_num ≤ new_replica_num →
      h.change_replica_num k member_list curr_replica_num new_replica_num timeout_us w fuel =
        some { ret := ObRet.OB_INVALID_ARGUMENT, calls := [] }) ∧
    (∀ res,
      h.change_replica_num k member_list curr_replica_num new_replica_num timeout_us w fuel =
        some res →
      res.calls ≠ [] →
      new_replica_num < curr_replica_num ∧ k.is_valid_replica_num new_replica_num = true ∧
      k.is_valid_replica_num curr_replica_num = true ∧ 0 < timeout_us) ∧
    (∀ res,
      h.change_replica_num k member_list curr_replica_num new_replica_num timeout_us w fuel =
        some res →
      ∀ c ∈ res.calls, ∀ req, c.command = some req →
        req.cmd_type_ = LogConfigChangeCmdType.CHANGE_REPLICA_NUM_CMD ∧
        req.timeout_ns_ = timeout_us * 1000 ∧
        req.curr_member_list_ = member_list ∧ req.curr_replica_num_ = curr_replica_num ∧
        req.new_replica_num_ = new_replica_num ∧ req.palf_id_ = h.id_ ∧ req.src_ = h.self_) := by
  obtain ⟨hi, hs⟩ := hrun
  by_cases hg : k.member_list_is_valid member_list = false ∨
      k.is_valid_replica_num curr_replica_num = false ∨
      k.is_valid_replica_num new_replica_num = false ∨
      curr_replica_num ≤ new_replica_num ∨ timeout_us ≤ 0
  · have hret :
        h.change_replica_num k member_list curr_replica_num new_replica_num timeout_us w fuel =
          some { ret := ObRet.OB_INVALID_ARGUMENT, calls := [] } := by
      unfold ObLogHandler.change_replica_num
      rw [if_neg (by simp [hi]), if_neg (by simp [hs]), if_pos hg]
    refine ⟨fun _ => hret, ?_, ?_⟩
    · intro res hres hcalls
      rw [hret] at hres
      rw [← Option.some.inj hres] at hcalls
      exact absurd rfl hcalls
    · intro res hres c hc
      rw [hret] at hres
      rw [← Option.some.inj hres] at hc
      simp at hc
  · have hret :
        h.change_replica_num k member_list curr_replica_num new_replica_num timeout_us w fuel =
          h.submit (LogConfigChangeCmd.of_member_list h.self_ h.id_ member_list
            curr_replica_num new_replica_num LogConfigChangeCmdType.CHANGE_REPLICA_NUM_CMD
            (wrap_int64 (timeout_us * 1000)) w.answers) w fuel := by
      unfold ObLogHandler.change_replica_num
      rw [if_neg (by simp [hi]), if_neg (by simp [hs]), if_neg hg]
    simp only [not_or, not_le] at hg
    obtain ⟨_, hcv, hnv, hlt, hto⟩ := hg
    refine ⟨fun hle => absurd hle (not_le.mpr hlt), ?_, ?_⟩
    · intro res _ _
      exact ⟨hlt, by simpa using hnv, by simpa using hcv, hto⟩
    · intro res hres c hc req hcmd
      rw [hret] at hres
      have hfit := submit_dispatched_for h _ w fuel res hres c hc
      have hreq := dispatched_for_command h _ req c hfit hcmd
      subst hreq
      have hw : wrap_int64 (timeout_us * 1000) = timeout_us * 1000 :=
        wrap_int64_of_range _ (by omega) hrange
      refine ⟨rfl, ?_, rfl, rfl, rfl, rfl, rfl⟩
      show wrap_int64 (timeout_us * 1000) = timeout_us * 1000
      exact hw

theorem change_replica_num_only_smaller_witness :
    sample_running.running ∧ (10000000 : Int) * 1000 < 2 ^ 63 ∧
    sample_running.change_replica_num sample_arg_checks sample_member_list 3 3 10000000
        (sample_submit_env ObRet.OB_SUCCESS) 2 =
      some { ret := ObRet.OB_INVALID_ARGUMENT, calls := [] } ∧
    (sample_running.change_replica_num sample_arg_checks sample_member_list 3 2 10000000
        (sample_submit_env ObRet.OB_SUCCESS) 2 =
      some { ret := ObRet.OB_SUCCESS,
             calls := [Call.get_leader 1 ObRet.OB_SUCCESS { ip_port := 2883, valid := true },
               Call.send_log_config_change_cmd { ip_port := 2883, valid := true } 5000000
                 10000000
                 (LogConfigChangeCmd.of_member_list { ip_port := 2882, valid := true } 1
                   sample_member_list 3 2 LogConfigChangeCmdType.CHANGE_REPLICA_NUM_CMD
                   10000000000 (sample_submit_env ObRet.OB_SUCCESS).answers)
                 ObRet.OB_SUCCESS ObRet.OB_SUCCESS] }) :=
  ⟨by decide, by decide,
    (change_replica_num_only_smaller sample_running (by decide) sample_arg_checks
      sample_member_list 3 3 10000000 (sample_submit_env ObRet.OB_SUCCESS) 2 (by decide)).1
      (by decide),
    by decide⟩

/-! ## Lemmas on an iteration that locates the leader -/

/-- An iteration in which the deadline has not passed, the blacklist removal
(if any) succeeds, the handler is initialised and the locator names a leader:
the request is handed to that leader, and the iteration goes by the failure of
the RPC or by the response code. -/
theorem dispatch_body_located (h : ObLogHandler) (req : LogConfigChangeCmd)
    (start_ts_ns : Int) (e : DispatchEnv) (s : DispatchState) (leader : ObAddr)
    (hd : ¬ e.now_check - start_ts_ns ≥ req.timeout_ns_)
    (hbl : ¬ (req.is_add_member_list = true ∧ false = s.has_removed_from_blacklist ∧
      ObRet.OB_SUCCESS ≠ e.remove_from_election_blacklist h.id_ req.added_member_.get_server))
    (hh : ¬ (h.is_inited_ = false ∨ h.lc_cb_ = none ∨ h.rpc_proxy_ = none))
    (hg : e.get_leader h.id_ = { ret := ObRet.OB_SUCCESS, leader := leader }) :
    h.dispatch_body req start_ts_ns e s =
      h.dispatch_finish e
        (if leader = h.self_ then
          h.dispatch_classify req e leader (e.handle_config_change_cmd req)
            (h.dispatch_asked req e s leader)
        else if (e.send_log_config_change_cmd leader req.conn_timeout_us req.timeout_us
            req).rpc_ret ≠ ObRet.OB_SUCCESS then
          { state := { h.dispatch_asked req e s leader with ret := ObRet.OB_SUCCESS },
            need_renew_leader := e.is_server_down_error ObRet.OB_SUCCESS, broke := false }
        else
          h.dispatch_classify req e leader
            (e.send_log_config_change_cmd leader req.conn_timeout_us req.timeout_us
              req).resp_ret
            (h.dispatch_asked req e s leader)) := by
  unfold ObLogHandler.dispatch_body
  rw [if_neg hd, if_neg hbl]
  dsimp only
  unfold ObLogHandler.dispatch_command ObLogHandler.dispatch_finish
    ObLogHandler.dispatch_asked ObLogHandler.command_call
  rw [if_neg hh]
  dsimp only
  rw [hg]
  dsimp only
  rw [if_neg (show ¬ (ObRet.OB_SUCCESS ≠ ObRet.OB_SUCCESS) from fun hc => hc rfl)]
  by_cases hl : leader = h.self_
  · rw [if_pos hl, if_pos hl, if_pos hl]
    rfl
  · rw [if_neg hl, if_neg hl, if_neg hl]
    by_cases hr : (e.send_log_config_change_cmd leader req.conn_timeout_us req.timeout_us
        req).rpc_ret ≠ ObRet.OB_SUCCESS
    · rw [if_pos hr, if_pos hr]
      rfl
    · rw [if_neg hr, if_neg hr]
      rfl

theorem dispatch_body_answered (h : ObLogHandler) (req : LogConfigChangeCmd)
    (start_ts_ns : Int) (e : DispatchEnv) (s : DispatchState) (leader : ObAddr) (r : ObRet)
    (hd : ¬ e.now_check - start_ts_ns ≥ req.timeout_ns_)
    (hbl : ¬ (req.is_add_member_list = true ∧ false = s.has_removed_from_blacklist ∧
      ObRet.OB_SUCCESS ≠ e.remove_from_election_blacklist h.id_ req.added_member_.get_server))
    (hh : ¬ (h.is_inited_ = false ∨ h.lc_cb_ = none ∨ h.rpc_proxy_ = none))
    (hg : e.get_leader h.id_ = { ret := ObRet.OB_SUCCESS, leader := leader })
    (hr : (leader = h.self_ ∧ e.handle_config_change_cmd req = r) ∨
      (leader ≠ h.self_ ∧
        e.send_log_config_change_cmd leader req.conn_timeout_us req.timeout_us req =
          { rpc_ret := ObRet.OB_SUCCESS, resp_ret := r })) :
    h.dispatch_body req start_ts_ns e s =
      h.dispatch_finish e (h.dispatch_classify req e leader r (h.dispatch_asked req e s leader)) := by
  rw [dispatch_body_located h req start_ts_ns e s leader hd hbl hh hg]
  rcases hr with ⟨hl, hrl⟩ | ⟨hl, hrr⟩
  · rw [if_pos hl, hrl]
  · rw [if_neg hl, hrr]
    dsimp only
    rw [if_neg (show ¬ (ObRet.OB_SUCCESS ≠ ObRet.OB_SUCCESS) from fun hc => hc rfl)]

theorem dispatch_asked_fields (h : ObLogHandler) (req : LogConfigChangeCmd) (e : DispatchEnv)
    (s : DispatchState) (leader : ObAddr) :
    (h.dispatch_asked req e s leader).ret = s.ret ∧
    (h.dispatch_asked req e s leader).last_renew_leader_ts_ns = s.last_renew_leader_ts_ns ∧
    (h.dispatch_asked req e s leader).has_added_to_blacklist = s.has_added_to_blacklist ∧
    (h.dispatch_asked req e s leader).iterations = s.iterations := by
  unfold ObLogHandler.dispatch_asked ObLogHandler.dispatch_removed
  split_ifs <;> exact ⟨rfl, rfl, rfl, rfl⟩

theorem dispatch_loop_next (h : ObLogHandler) (req : LogConfigChangeCmd) (start_ts_ns : Int)
    (env : Nat → DispatchEnv) (s : DispatchState) (hgo : s.goes_on)
    (hb : (h.dispatch_body req start_ts_ns (env s.iterations) s).2 = false) (fuel : Nat) :
    h.dispatch_loop req start_ts_ns env (fuel + 1) s =
      h.dispatch_loop req start_ts_ns env fuel (h.dispatch_next req start_ts_ns env s) := by
  have hgo' : ObRet.OB_SUCCESS = s.ret ∨ ObRet.OB_NOT_MASTER = s.ret := hgo
  rw [dispatch_loop_step, if_pos hgo', if_neg (by simp [hb])]
  simp only [dispatch_body_iterations]
  rfl

theorem dispatch_loop_stops (h : ObLogHandler) (req : LogConfigChangeCmd) (start_ts_ns : Int)
    (env : Nat → DispatchEnv) (t : DispatchState) (ht : ¬ t.goes_on) (fuel : Nat) :
    h.dispatch_loop req start_ts_ns env (fuel + 1) t = some t := by
  rw [dispatch_loop_step,
    if_neg (show ¬ (ObRet.OB_SUCCESS = t.ret ∨ ObRet.OB_NOT_MASTER = t.ret) from ht)]

theorem dispatch_loop_returns_next (h : ObLogHandler) (req : LogConfigChangeCmd)
    (start_ts_ns : Int) (env : Nat → DispatchEnv) (s : DispatchState) (hgo : s.goes_on)
    (hb : (h.dispatch_body req start_ts_ns (env s.iterations) s).2 = false)
    (hn : ¬ (h.dispatch_next req start_ts_ns env s).goes_on) (fuel : Nat) :
    h.dispatch_loop req start_ts_ns env (fuel + 2) s =
      some (h.dispatch_next req start_ts_ns env s) := by
  rw [dispatch_loop_next h req start_ts_ns env s hgo hb (fuel + 1)]
  exact dispatch_loop_stops h req start_ts_ns env _ hn fuel

theorem dispatch_loop_breaks (h : ObLogHandler) (req : LogConfigChangeCmd) (start_ts_ns : Int)
    (env : Nat → DispatchEnv) (s : DispatchState) (hgo : s.goes_on)
    (hb : (h.dispatch_body req start_ts_ns (env s.iterations) s).2 = true) (fuel : Nat) :
    h.dispatch_loop req start_ts_ns env (fuel + 1) s =
      some (h.dispatch_body req start_ts_ns (env s.iterations) s).1 := by
  have hgo' : ObRet.OB_SUCCESS = s.ret ∨ ObRet.OB_NOT_MASTER = s.ret := hgo
  rw [dispatch_loop_step, if_pos hgo', if_pos hb]

/-! ## C23: the leader refuses to be removed -/

/-- C23 (as stated, refuted): the leader at server 2883 answers
`OB_NOT_ALLOW_REMOVING_LEADER` to a request that removes it.  When the addition
to the election blacklist fails, the iteration asks for no renewal of the leader
location although none was made before, and the dispatcher runs into its
deadline; when the addition succeeds and the renewal answers
`OB_ERR_UNEXPECTED`, the dispatcher returns `OB_ERR_UNEXPECTED` after that one
iteration instead of retrying. -/
theorem dispatch_removing_leader_counterexample :
    (sample_running.submit_config_change_cmd_ sample_remove_member_req 1700000000000000000
      (fun k => if k < 1
        then sample_removing_env 1700000000000000001 (ObRet.OB_OTHER (-1)) ObRet.OB_SUCCESS
        else sample_removing_env 1700000010000000000 (ObRet.OB_OTHER (-1)) ObRet.OB_SUCCESS)
      3).map (fun res => (res.ret, res.iterations, res.calls)) =
      some (ObRet.OB_TIMEOUT, 1,
        [Call.get_leader 1 ObRet.OB_SUCCESS { ip_port := 2883, valid := true },
         Call.send_log_config_change_cmd { ip_port := 2883, valid := true } 5000000 10000000
           sample_remove_member_req ObRet.OB_SUCCESS ObRet.OB_NOT_ALLOW_REMOVING_LEADER,
         Call.add_to_election_blacklist 1 { ip_port := 2883, valid := true }
           (ObRet.OB_OTHER (-1))]) ∧
    (sample_running.submit_config_change_cmd_ sample_remove_member_req 1700000000000000000
      (fun _ => sample_removing_env 1700000000000000001 ObRet.OB_SUCCESS
        ObRet.OB_ERR_UNEXPECTED) 2).map (fun res => (res.ret, res.iterations, res.calls)) =
      some (ObRet.OB_ERR_UNEXPECTED, 1,
        [Call.get_leader 1 ObRet.OB_SUCCESS { ip_port := 2883, valid := true },
         Call.send_log_config_change_cmd { ip_port := 2883, valid := true } 5000000 10000000
           sample_remove_member_req ObRet.OB_SUCCESS ObRet.OB_NOT_ALLOW_REMOVING_LEADER,
         Call.add_to_election_blacklist 1 { ip_port := 2883, valid := true } ObRet.OB_SUCCESS,
         Call.nonblock_renew_leader 1 ObRet.OB_ERR_UNEXPECTED]) := by
  decide

/-- C23 (as amended): in an iteration in which the located leader answers
`OB_NOT_ALLOW_REMOVING_LEADER`, `next` being the state after the iteration and
`asked` the state in which the answer came.  For a request that removes a
member whose address is that of the located leader, the running result becomes
`OB_SUCCESS`, so that this error is not returned, and: if the leader was added to
the election blacklist in an earlier iteration, no call is made and the loop
goes on; otherwise `add_to_election_blacklist` is called for the leader; if that
call fails, nothing else is done and the loop goes on; if it succeeds, the
leader location is marked for renewal: when no more than 500 ms have passed
since the last renewal the loop goes on, and otherwise `nonblock_renew_leader`
is called and its result becomes the running result, the loop going on when
that is `OB_SUCCESS` or `OB_NOT_MASTER` and the dispatcher returning that result
otherwise.  If the request does not remove a member, or the removed member is
not the located leader, the dispatcher returns `OB_NOT_ALLOW_REMOVING_LEADER`
without any further call. -/
theorem dispatch_removing_leader (h : ObLogHandler) (req : LogConfigChangeCmd)
    (start_ts_ns : Int) (env : Nat → DispatchEnv) (s : DispatchState) (leader : ObAddr)
    (hgo : s.goes_on)
    (hd : ¬ (env s.iterations).now_check - start_ts_ns ≥ req.timeout_ns_)
    (hbl : ¬ (req.is_add_member_list = true ∧ false = s.has_removed_from_blacklist ∧
      ObRet.OB_SUCCESS ≠
        (env s.iterations).remove_from_election_blacklist h.id_ req.added_member_.get_server))
    (hh : ¬ (h.is_inited_ = false ∨ h.lc_cb_ = none ∨ h.rpc_proxy_ = none))
    (hg : (env s.iterations).get_leader h.id_ = { ret := ObRet.OB_SUCCESS, leader := leader })
    (hr : (leader = h.self_ ∧ (env s.iterations).handle_config_change_cmd req =
        ObRet.OB_NOT_ALLOW_REMOVING_LEADER) ∨
      (leader ≠ h.self_ ∧
        (env s.iterations).send_log_config_change_cmd leader req.conn_timeout_us
          req.timeout_us req =
          { rpc_ret := ObRet.OB_SUCCESS, resp_ret := ObRet.OB_NOT_ALLOW_REMOVING_LEADER })) :
    (req.is_remove_member_list = true → req.removed_member_.get_server = leader →
      (s.has_added_to_blacklist = true →
        (h.dispatch_next req start_ts_ns env s).calls =
          (h.dispatch_asked req (env s.iterations) s leader).calls ∧
        (h.dispatch_next req start_ts_ns env s).ret = ObRet.OB_SUCCESS ∧
        (h.dispatch_next req start_ts_ns env s).last_renew_leader_ts_ns =
          s.last_renew_leader_ts_ns ∧
        ∀ fuel, h.dispatch_loop req start_ts_ns env (fuel + 1) s =
          h.dispatch_loop req start_ts_ns env fuel (h.dispatch_next req start_ts_ns env s)) ∧
      (s.has_added_to_blacklist = false →
        (env s.iterations).add_to_election_blacklist h.id_ leader ≠ ObRet.OB_SUCCESS →
        (h.dispatch_next req start_ts_ns env s).calls =
          (h.dispatch_asked req (env s.iterations) s leader).calls ++
            [Call.add_to_election_blacklist h.id_ leader
              ((env s.iterations).add_to_election_blacklist h.id_ leader)] ∧
        (h.dispatch_next req start_ts_ns env s).has_added_to_blacklist = false ∧
        (h.dispatch_next req start_ts_ns env s).ret = ObRet.OB_SUCCESS ∧
        (h.dispatch_next req start_ts_ns env s).last_renew_leader_ts_ns =
          s.last_renew_leader_ts_ns ∧
        ∀ fuel, h.dispatch_loop req start_ts_ns env (fuel + 1) s =
          h.dispatch_loop req start_ts_ns env fuel (h.dispatch_next req start_ts_ns env s)) ∧
      (s.has_added_to_blacklist = false →
        (env s.iterations).add_to_election_blacklist h.id_ leader = ObRet.OB_SUCCESS →
        (h.dispatch_next req start_ts_ns env s).has_added_to_blacklist = true ∧
        (¬ (env s.iterations).now_renew_test - s.last_renew_leader_ts_ns >
            RENEW_LEADER_INTERVAL_NS →
          (h.dispatch_next req start_ts_ns env s).calls =
            (h.dispatch_asked req (env s.iterations) s leader).calls ++
              [Call.add_to_election_blacklist h.id_ leader ObRet.OB_SUCCESS] ∧
          (h.dispatch_next req start_ts_ns env s).ret = ObRet.OB_SUCCESS ∧
          ∀ fuel, h.dispatch_loop req start_ts_ns env (fuel + 1) s =
            h.dispatch_loop req start_ts_ns env fuel
              (h.dispatch_next req start_ts_ns env s)) ∧
        ((env s.iterations).now_renew_test - s.last_renew_leader_ts_ns >
            RENEW_LEADER_INTERVAL_NS →
          (h.dispatch_next req start_ts_ns env s).calls =
            (h.dispatch_asked req (env s.iterations) s leader).calls ++
              [Call.add_to_election_blacklist h.id_ leader ObRet.OB_SUCCESS,
               Call.nonblock_renew_leader h.id_
                 ((env s.iterations).nonblock_renew_leader h.id_)] ∧
          (h.dispatch_next req start_ts_ns env s).ret =
            (env s.iterations).nonblock_renew_leader h.id_ ∧
          (h.dispatch_next req start_ts_ns env s).last_renew_leader_ts_ns =
            (env s.iterations).now_renew_set ∧
          ((h.dispatch_next req start_ts_ns env s).goes_on →
            ∀ fuel, h.dispatch_loop req start_ts_ns env (fuel + 1) s =
              h.dispatch_loop req start_ts_ns env fuel
                (h.dispatch_next req start_ts_ns env s)) ∧
          (¬ (h.dispatch_next req start_ts_ns env s).goes_on →
            ∀ fuel, h.dispatch_loop req start_ts_ns env (fuel + 2) s =
              some (h.dispatch_next req start_ts_ns env s))))) ∧
    (¬ (req.is_remove_member_list = true ∧ req.removed_member_.get_server = leader) →
      (h.dispatch_next req start_ts_ns env s).ret = ObRet.OB_NOT_ALLOW_REMOVING_LEADER ∧
      (h.dispatch_next req start_ts_ns env s).calls =
        (h.dispatch_asked req (env s.iterations) s leader).calls ∧
      ∀ fuel, h.dispatch_loop req start_ts_ns env (fuel + 2) s =
        some (h.dispatch_next req start_ts_ns env s)) := by
  have hbody := dispatch_body_answered h req start_ts_ns (env s.iterations) s leader
    ObRet.OB_NOT_ALLOW_REMOVING_LEADER hd hbl hh hg hr
  obtain ⟨_, hlast, hadded, _⟩ := dispatch_asked_fields h req (env s.iterations) s leader
  have hnext : ∀ st : DispatchState,
      h.dispatch_body req start_ts_ns (env s.iterations) s = (st, false) →
      h.dispatch_next req start_ts_ns env s = { st with iterations := s.iterations + 1 } := by
    intro st hst
    unfold ObLogHandler.dispatch_next
    rw [hst]
  have hcont : ∀ st : DispatchState,
      h.dispatch_body req start_ts_ns (env s.iterations) s = (st, false) →
      ∀ fuel, h.dispatch_loop req start_ts_ns env (fuel + 1) s =
        h.dispatch_loop req start_ts_ns env fuel (h.dispatch_next req start_ts_ns env s) := by
    intro st hst fuel
    exact dispatch_loop_next h req start_ts_ns env s hgo (by rw [hst]) fuel
  constructor
  · intro hrm hl
    have hcond : ObRet.OB_NOT_ALLOW_REMOVING_LEADER = ObRet.OB_NOT_ALLOW_REMOVING_LEADER ∧
        req.is_remove_member_list = true ∧ req.removed_member_.get_server = leader :=
      ⟨rfl, hrm, hl⟩
    refine ⟨?_, ?_, ?_⟩
    · intro ha
      have hb : h.dispatch_body req start_ts_ns (env s.iterations) s =
          ({ h.dispatch_asked req (env s.iterations) s leader with ret := ObRet.OB_SUCCESS },
            false) := by
        rw [hbody]
        unfold ObLogHandler.dispatch_classify
        rw [if_neg (by decide), if_neg (by decide), if_neg (by decide), if_pos hcond,
          if_pos (by rw [hadded, ha])]
        simp [ObLogHandler.dispatch_finish, ObLogHandler.dispatch_renew]
      rw [hnext _ hb] at *
      exact ⟨rfl, rfl, hlast, hcont _ hb⟩
    · intro ha hfail
      have hb : h.dispatch_body req start_ts_ns (env s.iterations) s =
          ({ h.dispatch_asked req (env s.iterations) s leader with
             ret := ObRet.OB_SUCCESS
             calls := (h.dispatch_asked req (env s.iterations) s leader).calls ++
               [Call.add_to_election_blacklist h.id_ leader
                 ((env s.iterations).add_to_election_blacklist h.id_ leader)] }, false) := by
        rw [hbody]
        unfold ObLogHandler.dispatch_classify
        rw [if_neg (by decide), if_neg (by decide), if_neg (by decide), if_pos hcond,
          if_neg (by rw [hadded, ha]; decide), if_pos (fun hc => hfail hc.symm)]
        simp [ObLogHandler.dispatch_finish, ObLogHandler.dispatch_renew]
      rw [hnext _ hb] at *
      exact ⟨rfl, by rw [← ha, ← hadded], rfl, hlast, hcont _ hb⟩
    · intro ha hok
      have hc : h.dispatch_classify req (env s.iterations) leader
          ObRet.OB_NOT_ALLOW_REMOVING_LEADER (h.dispatch_asked req (env s.iterations) s leader) =
          { state := { h.dispatch_asked req (env s.iterations) s leader with
              ret := ObRet.OB_SUCCESS
              has_added_to_blacklist := true
              calls := (h.dispatch_asked req (env s.iterations) s leader).calls ++
                [Call.add_to_election_blacklist h.id_ leader ObRet.OB_SUCCESS] },
            need_renew_leader := true, broke := false } := by
        unfold ObLogHandler.dispatch_classify
        rw [if_neg (by decide), if_neg (by decide), if_neg (by decide), if_pos hcond,
          if_neg (by rw [hadded, ha]; decide), if_neg (fun hc => hc hok.symm), hok]
      rw [hc] at hbody
      by_cases hel : (env s.iterations).now_renew_test - s.last_renew_leader_ts_ns >
          RENEW_LEADER_INTERVAL_NS
      · have hb : h.dispatch_body req start_ts_ns (env s.iterations) s =
            ({ h.dispatch_asked req (env s.iterations) s leader with
               ret := (env s.iterations).nonblock_renew_leader h.id_
               last_renew_leader_ts_ns := (env s.iterations).now_renew_set
               has_added_to_blacklist := true
               calls := (h.dispatch_asked req (env s.iterations) s leader).calls ++
                 [Call.add_to_election_blacklist h.id_ leader ObRet.OB_SUCCESS,
                  Call.nonblock_renew_leader h.id_
                    ((env s.iterations).nonblock_renew_leader h.id_)] }, false) := by
          rw [hbody]
          unfold ObLogHandler.dispatch_finish ObLogHandler.dispatch_renew
          rw [if_neg (by simp), if_pos ⟨rfl, by rw [hlast]; exact hel⟩]
          simp
        refine ⟨by rw [hnext _ hb], fun hne => absurd hel hne, fun _ => ?_⟩
        refine ⟨by rw [hnext _ hb], by rw [hnext _ hb], by rw [hnext _ hb], fun _ => hcont _ hb,
          fun hng fuel => ?_⟩
        exact dispatch_loop_returns_next h req start_ts_ns env s hgo (by rw [hb]) hng fuel
      · have hb : h.dispatch_body req start_ts_ns (env s.iterations) s =
            ({ h.dispatch_asked req (env s.iterations) s leader with
               ret := ObRet.OB_SUCCESS
               has_added_to_blacklist := true
               calls := (h.dispatch_asked req (env s.iterations) s leader).calls ++
                 [Call.add_to_election_blacklist h.id_ leader ObRet.OB_SUCCESS] }, false) := by
          rw [hbody]
          unfold ObLogHandler.dispatch_finish ObLogHandler.dispatch_renew
          rw [if_neg (by simp), if_neg (fun hc => hel (by rw [← hlast]; exact hc.2))]
        refine ⟨by rw [hnext _ hb], fun _ => ?_, fun hc => absurd hc hel⟩
        exact ⟨by rw [hnext _ hb], by rw [hnext _ hb], hcont _ hb⟩
  · intro hnot
    have hnot' : ¬ (ObRet.OB_NOT_ALLOW_REMOVING_LEADER = ObRet.OB_NOT_ALLOW_REMOVING_LEADER ∧
        req.is_remove_member_list = true ∧ req.removed_member_.get_server = leader) :=
      fun hc => hnot ⟨hc.2.1, hc.2.2⟩
    have hb : h.dispatch_body req start_ts_ns (env s.iterations) s =
        ({ h.dispatch_asked req (env s.iterations) s leader with
           ret := ObRet.OB_NOT_ALLOW_REMOVING_LEADER }, false) := by
      rw [hbody]
      unfold ObLogHandler.dispatch_classify
      rw [if_neg (by decide), if_neg (by decide), if_neg (by decide), if_neg hnot']
      simp [ObLogHandler.dispatch_finish, ObLogHandler.dispatch_renew]
    refine ⟨by rw [hnext _ hb], by rw [hnext _ hb], fun fuel => ?_⟩
    refine dispatch_loop_returns_next h req start_ts_ns env s hgo (by rw [hb]) ?_ fuel
    rw [hnext _ hb]
    intro hcon
    have hcon' : ObRet.OB_SUCCESS = ObRet.OB_NOT_ALLOW_REMOVING_LEADER ∨
        ObRet.OB_NOT_MASTER = ObRet.OB_NOT_ALLOW_REMOVING_LEADER := hcon
    revert hcon'
    decide

theorem dispatch_removing_leader_witness :
    DispatchState.entry.goes_on ∧
    ¬ (sample_removing_env 1700000000000000001 ObRet.OB_SUCCESS
        ObRet.OB_ERR_UNEXPECTED).now_check - 1700000000000000000 ≥
      sample_remove_member_req.timeout_ns_ ∧
    sample_running.dispatch_loop sample_remove_member_req 1700000000000000000
        (fun _ => sample_removing_env 1700000000000000001 ObRet.OB_SUCCESS
          ObRet.OB_ERR_UNEXPECTED) 2 DispatchState.entry =
      some (sample_running.dispatch_next sample_remove_member_req 1700000000000000000
        (fun _ => sample_removing_env 1700000000000000001 ObRet.OB_SUCCESS
          ObRet.OB_ERR_UNEXPECTED) DispatchState.entry) ∧
    (sample_running.dispatch_next sample_remove_member_req 1700000000000000000
        (fun _ => sample_removing_env 1700000000000000001 ObRet.OB_SUCCESS
          ObRet.OB_ERR_UNEXPECTED) DispatchState.entry).ret = ObRet.OB_ERR_UNEXPECTED :=
  ⟨by decide, by decide,
    (((((dispatch_removing_leader sample_running sample_remove_member_req 1700000000000000000
      (fun _ => sample_removing_env 1700000000000000001 ObRet.OB_SUCCESS
        ObRet.OB_ERR_UNEXPECTED) DispatchState.entry { ip_port := 2883, valid := true }
      (by decide) (by decide) (by decide) (by decide) (by decide)
      (Or.inr ⟨by decide, by decide⟩)).1 rfl rfl).2.2 rfl rfl).2.2 (by decide)).2.2.2.2
      (by decide)) 0,
    by decide⟩

/-! ## C24: the RPC to the leader fails -/

/-- An iteration in which the RPC to the located leader fails: whatever the
error of the RPC, the renewal is asked for according to what
`is_server_down_error` answers for `OB_SUCCESS`, the value `ret` holds when line
1026 tests it. -/
theorem dispatch_body_rpc_failure (h : ObLogHandler) (req : LogConfigChangeCmd)
    (start_ts_ns : Int) (e : DispatchEnv) (s : DispatchState) (leader : ObAddr)
    (hd : ¬ e.now_check - start_ts_ns ≥ req.timeout_ns_)
    (hbl : ¬ (req.is_add_member_list = true ∧ false = s.has_removed_from_blacklist ∧
      ObRet.OB_SUCCESS ≠ e.remove_from_election_blacklist h.id_ req.added_member_.get_server))
    (hh : ¬ (h.is_inited_ = false ∨ h.lc_cb_ = none ∨ h.rpc_proxy_ = none))
    (hg : e.get_leader h.id_ = { ret := ObRet.OB_SUCCESS, leader := leader })
    (hl : leader ≠ h.self_)
    (hrpc : (e.send_log_config_change_cmd leader req.conn_timeout_us req.timeout_us
      req).rpc_ret ≠ ObRet.OB_SUCCESS) :
    h.dispatch_body req start_ts_ns e s =
      (h.dispatch_renew e (e.is_server_down_error ObRet.OB_SUCCESS)
        { h.dispatch_asked req e s leader with ret := ObRet.OB_SUCCESS }, false) ∧
    (e.is_server_down_error ObRet.OB_SUCCESS = false →
      h.dispatch_body req start_ts_ns e s =
        ({ h.dispatch_asked req e s leader with ret := ObRet.OB_SUCCESS }, false)) := by
  have hb : h.dispatch_body req start_ts_ns e s =
      (h.dispatch_renew e (e.is_server_down_error ObRet.OB_SUCCESS)
        { h.dispatch_asked req e s leader with ret := ObRet.OB_SUCCESS }, false) := by
    rw [dispatch_body_located h req start_ts_ns e s leader hd hbl hh hg, if_neg hl, if_pos hrpc]
    rfl
  refine ⟨hb, fun hdown => ?_⟩
  rw [hb, hdown]
  simp [ObLogHandler.dispatch_renew]

/-- C24 (the code at the failing input): the RPC to the leader at server 2883
fails with a connect error, for which `is_server_down_error` answers `true`;
no renewal of the leader location was made before.  The iteration asks for no
renewal: the calls of the dispatcher, which then runs into its deadline, are the
leader lookup and the RPC. -/
theorem dispatch_server_down_no_renewal :
    (sample_server_down_env 1700000000000000001).is_server_down_error
      ((sample_server_down_env 1700000000000000001).send_log_config_change_cmd
        { ip_port := 2883, valid := true } 5000000 10000000
        sample_remove_member_req).rpc_ret = true ∧
    (1700000000000000001 : Int) - DispatchState.entry.last_renew_leader_ts_ns >
      RENEW_LEADER_INTERVAL_NS ∧
    (sample_running.submit_config_change_cmd_ sample_remove_member_req 1700000000000000000
      (fun k => if k < 1 then sample_server_down_env 1700000000000000001
        else sample_server_down_env 1700000010000000000) 3).map
        (fun res => (res.ret, res.iterations, res.last_renew_leader_ts_ns, res.calls)) =
      some (ObRet.OB_TIMEOUT, 1, OB_INVALID_TIMESTAMP,
        [Call.get_leader 1 ObRet.OB_SUCCESS { ip_port := 2883, valid := true },
         Call.send_log_config_change_cmd { ip_port := 2883, valid := true } 5000000 10000000
           sample_remove_member_req (ObRet.OB_OTHER (-8001)) ObRet.OB_SUCCESS]) := by
  decide

/-! ## C25: local command handler or RPC -/

theorem command_none_flags (c : Call) (hc : c.command = none) :
    c.is_handle_config_change_cmd = false ∧ c.is_send_log_config_change_cmd = false := by
  cases c <;> simp_all [Call.command, Call.is_handle_config_change_cmd,
    Call.is_send_log_config_change_cmd]

theorem dispatch_finish_calls (h : ObLogHandler) (e : DispatchEnv) (c : CommandOutcome) :
    ∃ extra : List Call, (h.dispatch_finish e c).1.calls = c.state.calls ++ extra ∧
      ∀ x ∈ extra, x.command = none := by
  unfold ObLogHandler.dispatch_finish ObLogHandler.dispatch_renew
  split_ifs
  · exact ⟨[], by simp, by simp⟩
  · exact ⟨[Call.nonblock_renew_leader h.id_ (e.nonblock_renew_leader h.id_)], rfl, by
      simp [Call.command]⟩
  · exact ⟨[], by simp, by simp⟩

theorem dispatch_removed_calls (h : ObLogHandler) (req : LogConfigChangeCmd) (e : DispatchEnv)
    (s : DispatchState) :
    ∃ pre : List Call, (h.dispatch_removed req e s).calls = s.calls ++ pre ∧
      ∀ x ∈ pre, x.command = none := by
  unfold ObLogHandler.dispatch_removed
  split_ifs
  · exact ⟨[Call.remove_from_election_blacklist h.id_ req.added_member_.get_server
      (e.remove_from_election_blacklist h.id_ req.added_member_.get_server)], rfl, by
      simp [Call.command]⟩
  · exact ⟨[], by simp, by simp⟩

theorem dispatch_body_located_calls (h : ObLogHandler) (req : LogConfigChangeCmd)
    (start_ts_ns : Int) (e : DispatchEnv) (s : DispatchState) (leader : ObAddr)
    (hd : ¬ e.now_check - start_ts_ns ≥ req.timeout_ns_)
    (hbl : ¬ (req.is_add_member_list = true ∧ false = s.has_removed_from_blacklist ∧
      ObRet.OB_SUCCESS ≠ e.remove_from_election_blacklist h.id_ req.added_member_.get_server))
    (hh : ¬ (h.is_inited_ = false ∨ h.lc_cb_ = none ∨ h.rpc_proxy_ = none))
    (hg : e.get_leader h.id_ = { ret := ObRet.OB_SUCCESS, leader := leader }) :
    ∃ pre after : List Call,
      h.iteration_calls req start_ts_ns e s =
        pre ++ [Call.get_leader h.id_ ObRet.OB_SUCCESS leader, h.command_call req e leader] ++
          after ∧
      (∀ x ∈ pre, x.command = none) ∧ (∀ x ∈ after, x.command = none) := by
  obtain ⟨pre, hpre, hpn⟩ := dispatch_removed_calls h req e s
  have hasked : (h.dispatch_asked req e s leader).calls =
      s.calls ++ (pre ++ [Call.get_leader h.id_ ObRet.OB_SUCCESS leader,
        h.command_call req e leader]) := by
    unfold ObLogHandler.dispatch_asked
    show (h.dispatch_removed req e s).calls ++ _ ++ _ = _
    rw [hpre]
    simp
  have key : ∃ after : List Call,
      (h.dispatch_body req start_ts_ns e s).1.calls =
        (h.dispatch_asked req e s leader).calls ++ after ∧ ∀ x ∈ after, x.command = none := by
    rw [dispatch_body_located h req start_ts_ns e s leader hd hbl hh hg]
    by_cases hl : leader = h.self_
    · rw [if_pos hl]
      obtain ⟨x1, hx1, hn1⟩ := dispatch_classify_calls h req e leader
        (e.handle_config_change_cmd req) (h.dispatch_asked req e s leader)
      obtain ⟨x2, hx2, hn2⟩ := dispatch_finish_calls h e
        (h.dispatch_classify req e leader (e.handle_config_change_cmd req)
          (h.dispatch_asked req e s leader))
      refine ⟨x1 ++ x2, by rw [hx2, hx1, List.append_assoc], ?_⟩
      intro x hx
      rw [List.mem_append] at hx
      rcases hx with hx | hx
      · exact (hn1 x hx).2.2
      · exact hn2 x hx
    · rw [if_neg hl]
      by_cases hr : (e.send_log_config_change_cmd leader req.conn_timeout_us req.timeout_us
          req).rpc_ret ≠ ObRet.OB_SUCCESS
      · rw [if_pos hr]
        obtain ⟨x2, hx2, hn2⟩ := dispatch_finish_calls h e
          { state := { h.dispatch_asked req e s leader with ret := ObRet.OB_SUCCESS },
            need_renew_leader := e.is_server_down_error ObRet.OB_SUCCESS, broke := false }
        exact ⟨x2, hx2, hn2⟩
      · rw [if_neg hr]
        obtain ⟨x1, hx1, hn1⟩ := dispatch_classify_calls h req e leader
          (e.send_log_config_change_cmd leader req.conn_timeout_us req.timeout_us
            req).resp_ret (h.dispatch_asked req e s leader)
        obtain ⟨x2, hx2, hn2⟩ := dispatch_finish_calls h e
          (h.dispatch_classify req e leader
            (e.send_log_config_change_cmd leader req.conn_timeout_us req.timeout_us
              req).resp_ret (h.dispatch_asked req e s leader))
        refine ⟨x1 ++ x2, by rw [hx2, hx1, List.append_assoc], ?_⟩
        intro x hx
        rw [List.mem_append] at hx
        rcases hx with hx | hx
        · exact (hn1 x hx).2.2
        · exact hn2 x hx
  obtain ⟨after, hafter, han⟩ := key
  refine ⟨pre, after, ?_, hpn, han⟩
  unfold ObLogHandler.iteration_calls
  rw [hafter, hasked, List.append_assoc, List.drop_left]

/-- C25: in an iteration that gets as far as the locator (the deadline has not
passed, the blacklist removal did not fail, the handler is initialised) and in
which the locator succeeds: if the located leader is the handler's own address,
the iteration runs the local command handler on the request exactly once and
sends no RPC; if it differs, the iteration sends exactly one RPC, to that
leader, with connect timeout `min (timeout_us, 5000000)` and processing budget
`timeout_us`, where `timeout_us = req.timeout_ns_ / 1000`, carrying the
request, and does not run the local command handler. -/
theorem dispatch_local_or_rpc (h : ObLogHandler) (req : LogConfigChangeCmd)
    (start_ts_ns : Int) (e : DispatchEnv) (s : DispatchState) (leader : ObAddr)
    (hd : ¬ e.now_check - start_ts_ns ≥ req.timeout_ns_)
    (hbl : ¬ (req.is_add_member_list = true ∧ false = s.has_removed_from_blacklist ∧
      ObRet.OB_SUCCESS ≠ e.remove_from_election_blacklist h.id_ req.added_member_.get_server))
    (hh : ¬ (h.is_inited_ = false ∨ h.lc_cb_ = none ∨ h.rpc_proxy_ = none))
    (hg : e.get_leader h.id_ = { ret := ObRet.OB_SUCCESS, leader := leader }) :
    (leader = h.self_ →
      (h.iteration_calls req start_ts_ns e s).filter Call.is_handle_config_change_cmd =
        [Call.handle_config_change_cmd req (e.handle_config_change_cmd req)] ∧
      (h.iteration_calls req start_ts_ns e s).filter Call.is_send_log_config_change_cmd = []) ∧
    (leader ≠ h.self_ →
      (h.iteration_calls req start_ts_ns e s).filter Call.is_send_log_config_change_cmd =
        [Call.send_log_config_change_cmd leader
          (min (Int.tdiv req.timeout_ns_ 1000) (5 * 1000 * 1000)) (Int.tdiv req.timeout_ns_ 1000)
          req
          (e.send_log_config_change_cmd leader
            (min (Int.tdiv req.timeout_ns_ 1000) (5 * 1000 * 1000))
            (Int.tdiv req.timeout_ns_ 1000) req).rpc_ret
          (e.send_log_config_change_cmd leader
            (min (Int.tdiv req.timeout_ns_ 1000) (5 * 1000 * 1000))
            (Int.tdiv req.timeout_ns_ 1000) req).resp_ret] ∧
      (h.iteration_calls req start_ts_ns e s).filter Call.is_handle_config_change_cmd = []) := by
  obtain ⟨pre, after, hcalls, hpn, han⟩ :=
    dispatch_body_located_calls h req start_ts_ns e s leader hd hbl hh hg
  have hpre_h : pre.filter Call.is_handle_config_change_cmd = [] :=
    List.filter_eq_nil_iff.mpr (fun x hx => by simp [(command_none_flags x (hpn x hx)).1])
  have hpre_s : pre.filter Call.is_send_log_config_change_cmd = [] :=
    List.filter_eq_nil_iff.mpr (fun x hx => by simp [(command_none_flags x (hpn x hx)).2])
  have haft_h : after.filter Call.is_handle_config_change_cmd = [] :=
    List.filter_eq_nil_iff.mpr (fun x hx => by simp [(command_none_flags x (han x hx)).1])
  have haft_s : after.filter Call.is_send_log_config_change_cmd = [] :=
    List.filter_eq_nil_iff.mpr (fun x hx => by simp [(command_none_flags x (han x hx)).2])
  rw [hcalls]
  constructor
  · intro hl
    have hcmd : h.command_call req e leader =
        Call.handle_config_change_cmd req (e.handle_config_change_cmd req) := by
      unfold ObLogHandler.command_call
      rw [if_pos hl]
    rw [hcmd]
    simp [List.filter_append, hpre_h, hpre_s, haft_h, haft_s, List.filter_cons,
      Call.is_handle_config_change_cmd, Call.is_send_log_config_change_cmd]
  · intro hl
    have hcmd : h.command_call req e leader =
        Call.send_log_config_change_cmd leader req.conn_timeout_us req.timeout_us req
          (e.send_log_config_change_cmd leader req.conn_timeout_us req.timeout_us req).rpc_ret
          (e.send_log_config_change_cmd leader req.conn_timeout_us req.timeout_us
            req).resp_ret := by
      unfold ObLogHandler.command_call
      rw [if_neg hl]
    rw [hcmd]
    simp [List.filter_append, hpre_h, hpre_s, haft_h, haft_s, List.filter_cons,
      Call.is_handle_config_change_cmd, Call.is_send_log_config_change_cmd,
      LogConfigChangeCmd.conn_timeout_us, LogConfigChangeCmd.timeout_us, MIN_CONN_TIMEOUT_US]

theorem dispatch_local_or_rpc_witness :
    ¬ (sample_dispatch_env 1700000000000000001 ObRet.OB_SUCCESS ObRet.OB_SUCCESS).now_check -
        1700000000000000000 ≥ sample_remove_member_req.timeout_ns_ ∧
    (sample_dispatch_env 1700000000000000001 ObRet.OB_SUCCESS ObRet.OB_SUCCESS).get_leader
        sample_running.id_ =
      { ret := ObRet.OB_SUCCESS, leader := { ip_port := 2883, valid := true } } ∧
    ((sample_running.iteration_calls sample_remove_member_req 1700000000000000000
        (sample_dispatch_env 1700000000000000001 ObRet.OB_SUCCESS ObRet.OB_SUCCESS)
        DispatchState.entry).filter Call.is_send_log_config_change_cmd =
      [Call.send_log_config_change_cmd { ip_port := 2883, valid := true } 5000000 10000000
        sample_remove_member_req ObRet.OB_SUCCESS ObRet.OB_SUCCESS] ∧
    (sample_running.iteration_calls sample_remove_member_req 1700000000000000000
        (sample_dispatch_env 1700000000000000001 ObRet.OB_SUCCESS ObRet.OB_SUCCESS)
        DispatchState.entry).filter Call.is_handle_config_change_cmd = []) :=
  ⟨by decide, by decide,
    (dispatch_local_or_rpc sample_running sample_remove_member_req 1700000000000000000
      (sample_dispatch_env 1700000000000000001 ObRet.OB_SUCCESS ObRet.OB_SUCCESS)
      DispatchState.entry { ip_port := 2883, valid := true }
      (by decide) (by decide) (by decide) (by decide)).2 (by decide)⟩

/-! ## C26: the options of an engine append -/

theorem append_entering_engine_calls (h : ObLogHandler) (buffer : List Nat)
    (nbytes ref_ts_ns : Int) (need_nonblock : Bool) (env : Nat → PassEnv) (s : AppendState)
    (hs : ∀ eff ∈ s.effects, eff.is_palf_append = true →
      eff = Effect.palf_append (h.append_opts need_nonblock) buffer nbytes ref_ts_ns)
    (k : Nat) :
    (∀ eff ∈ (h.append_entering buffer nbytes ref_ts_ns need_nonblock env s k).effects,
      eff.is_palf_append = true →
      eff = Effect.palf_append (h.append_opts need_nonblock) buffer nbytes ref_ts_ns) ∧
    (∀ eff ∈ (h.append_outcome buffer nbytes ref_ts_ns need_nonblock env s k).effects,
      eff.is_palf_append = true →
      eff = Effect.palf_append (h.append_opts need_nonblock) buffer nbytes ref_ts_ns) := by
  have hout : ∀ j,
      (∀ eff ∈ (h.append_entering buffer nbytes ref_ts_ns need_nonblock env s j).effects,
        eff.is_palf_append = true →
        eff = Effect.palf_append (h.append_opts need_nonblock) buffer nbytes ref_ts_ns) →
      ∀ eff ∈ (h.append_outcome buffer nbytes ref_ts_ns need_nonblock env s j).effects,
        eff.is_palf_append = true →
        eff = Effect.palf_append (h.append_opts need_nonblock) buffer nbytes ref_ts_ns := by
    intro j hj eff heff hp
    rcases append_outcome_cases h buffer nbytes ref_ts_ns need_nonblock env s j with
      ⟨c, _, _, _, _, he⟩ | ⟨_, _, _, he⟩ | ⟨_, _, _, he⟩
    · rw [he] at heff
      exact hj eff heff hp
    · rw [he, List.mem_append, List.mem_singleton] at heff
      rcases heff with heff | rfl
      · exact hj eff heff hp
      · rfl
    · rw [he, List.mem_append] at heff
      rcases heff with heff | heff
      · exact hj eff heff hp
      · simp only [List.mem_cons, List.mem_singleton, List.not_mem_nil, or_false] at heff
        rcases heff with rfl | rfl
        · rfl
        · simp [Effect.is_palf_append] at hp
  have hent : ∀ j,
      ∀ eff ∈ (h.append_entering buffer nbytes ref_ts_ns need_nonblock env s j).effects,
        eff.is_palf_append = true →
        eff = Effect.palf_append (h.append_opts need_nonblock) buffer nbytes ref_ts_ns := by
    intro j
    induction j with
    | zero => exact hs
    | succ j ih =>
      intro eff heff hp
      rw [append_entering_succ_effects, List.mem_append, List.mem_singleton] at heff
      rcases heff with heff | rfl
      · exact hout j ih eff heff hp
      · simp [Effect.is_palf_append] at hp
  exact ⟨hent k, hout k (hent k)⟩

/-- C26: every engine append that `append` makes carries the options built from
the cache: `proposal_id` is the cached proposal id, `need_check_proposal_id` is
`true` and `need_nonblock` is the caller's, with the caller's buffer, length and
reference timestamp.  Hence, against an engine that rejects an append checked
against a proposal id other than its own `engine_pid` with `OB_NOT_MASTER`, an
append on a running handler whose cache says Leader with another proposal id
returns `OB_NOT_MASTER` after the one engine call and pushes no callback. -/
theorem append_checks_proposal_id (h : ObLogHandler) (buffer : List Nat)
    (nbytes ref_ts_ns : Int) (need_nonblock : Bool) (cb : AppendCb) (lsn : LSN) (ts_ns : Int)
    (env : Nat → PassEnv) (engine_pid : Int)
    (hengine : ∀ (k : Nat) (opts : PalfAppendOptions) (b : List Nat) (n r : Int),
      opts.need_check_proposal_id = true → opts.proposal_id ≠ engine_pid →
      ((env k).palf_append opts b n r).ret = ObRet.OB_NOT_MASTER) :
    h.append_opts need_nonblock =
      { need_nonblock := need_nonblock, need_check_proposal_id := true,
        proposal_id := h.proposal_id_ } ∧
    (∀ fuel res,
      h.append buffer nbytes ref_ts_ns need_nonblock cb lsn ts_ns env fuel = some res →
      ∀ eff ∈ res.effects, eff.is_palf_append = true →
        eff = Effect.palf_append (h.append_opts need_nonblock) buffer nbytes ref_ts_ns) ∧
    (h.running → h.role_ = ObRole.LEADER → h.proposal_id_ ≠ engine_pid →
      ∀ fuel, 0 < fuel →
        ∃ res, h.append buffer nbytes ref_ts_ns need_nonblock cb lsn ts_ns env fuel = some res ∧
          res.ret = ObRet.OB_NOT_MASTER ∧
          res.effects =
            [Effect.palf_append (h.append_opts need_nonblock) buffer nbytes ref_ts_ns] ∧
          res.effects.filter Effect.is_push_append_cb = []) := by
  refine ⟨rfl, ?_, ?_⟩
  · intro fuel res hres
    unfold ObLogHandler.append at hres
    obtain ⟨n, _, _, _, _, hr⟩ := append_loop_returned h buffer nbytes ref_ts_ns need_nonblock
      env fuel _ res hres
    rw [hr]
    exact (append_entering_engine_calls h buffer nbytes ref_ts_ns need_nonblock env
      (AppendState.entry cb lsn ts_ns) (by intro eff heff; simp [AppendState.entry] at heff)
      n).2
  · intro hrun hl hstale fuel hfuel
    have hg := append_gate_none h hrun hl
    have hrej : ((env 0).palf_append (h.append_opts need_nonblock) buffer nbytes
        ref_ts_ns).ret = ObRet.OB_NOT_MASTER :=
      hengine 0 (h.append_opts need_nonblock) buffer nbytes ref_ts_ns rfl hstale
    have hpass := append_pass_engine_rejects h (h.append_opts need_nonblock) buffer nbytes
      ref_ts_ns (env 0) (AppendState.entry cb lsn ts_ns) hg (by rw [hrej]; decide)
    have hout : h.append_outcome buffer nbytes ref_ts_ns need_nonblock env
        (AppendState.entry cb lsn ts_ns) 0 =
        h.append_pass (h.append_opts need_nonblock) buffer nbytes ref_ts_ns (env 0)
          (AppendState.entry cb lsn ts_ns) := rfl
    have hret : (h.append_outcome buffer nbytes ref_ts_ns need_nonblock env
        (AppendState.entry cb lsn ts_ns) 0).ret = ObRet.OB_NOT_MASTER := by
      rw [hout, hpass]
      exact hrej
    have heff : (h.append_outcome buffer nbytes ref_ts_ns need_nonblock env
        (AppendState.entry cb lsn ts_ns) 0).effects =
        [Effect.palf_append (h.append_opts need_nonblock) buffer nbytes ref_ts_ns] := by
      rw [hout, hpass]
      rfl
    refine ⟨_, append_loop_returns_at h buffer nbytes ref_ts_ns need_nonblock env 0
      (AppendState.entry cb lsn ts_ns) fuel hfuel (fun _ => rfl)
      (fun k hk => absurd hk (by omega)) (Or.inr (by rw [hret]; decide)), hret, heff, ?_⟩
    rw [heff]
    rfl

theorem append_checks_proposal_id_witness :
    (∀ (k : Nat) (opts : PalfAppendOptions) (b : List Nat) (n r : Int),
      opts.need_check_proposal_id = true → opts.proposal_id ≠ 8 →
      (((fun _ => sample_checking_pass 8) k : PassEnv).palf_append opts b n r).ret =
        ObRet.OB_NOT_MASTER) ∧
    sample_leader.running ∧ sample_leader.role_ = ObRole.LEADER ∧
    sample_leader.proposal_id_ = 7 ∧
    ∃ res, sample_leader.append [120] 1 0 false sample_cb { val_ := 0 } 0
        (fun _ => sample_checking_pass 8) 1 = some res ∧
      res.ret = ObRet.OB_NOT_MASTER ∧
      res.effects = [Effect.palf_append (sample_leader.append_opts false) [120] 1 0] ∧
      res.effects.filter Effect.is_push_append_cb = [] :=
  ⟨fun k opts b n r hc hp => by simp [sample_checking_pass, hc, hp, engine_rejects],
    by decide, by decide, by decide,
    (append_checks_proposal_id sample_leader [120] 1 0 false sample_cb { val_ := 0 } 0
      (fun _ => sample_checking_pass 8) 8
      (fun k opts b n r hc hp => by simp [sample_checking_pass, hc, hp, engine_rejects])).2.2
      (by decide) (by decide) (by decide) 1 (by decide)⟩

/-! ## C27: `is_valid_member` -/

/-- C27: on a running handler and for a valid address, `is_valid_member`
returns `OB_SUCCESS` only if the engine reported role Leader at both reads of
the role, with the same proposal id, and the member list was read in between;
it then sets `is_valid` to whether the engine's Paxos member list contains the
address, and it does return `OB_SUCCESS` in that case.  If the engine's role at
the first read is not Leader, or the role or the proposal id differ between the
two reads, it returns `OB_NOT_MASTER` and does not assign `is_valid`. -/
theorem is_valid_member_leader_stable (h : ObLogHandler) (hrun : h.running) (addr : ObAddr)
    (haddr : addr.valid = true) (is_valid : Bool) (e : IsValidMemberEnv) :
    ((h.is_valid_member addr is_valid e).ret = ObRet.OB_SUCCESS →
      e.get_role_first.ret = ObRet.OB_SUCCESS ∧ e.get_role_first.role = ObRole.LEADER ∧
      e.get_paxos_member_list.ret = ObRet.OB_SUCCESS ∧
      e.get_role_second.ret = ObRet.OB_SUCCESS ∧ e.get_role_second.role = ObRole.LEADER ∧
      e.get_role_first.proposal_id = e.get_role_second.proposal_id ∧
      (h.is_valid_member addr is_valid e).is_valid =
        member_list_contains e.get_paxos_member_list.member_list addr) ∧
    (e.get_role_first.ret = ObRet.OB_SUCCESS → e.get_role_first.role = ObRole.LEADER →
      e.get_paxos_member_list.ret = ObRet.OB_SUCCESS →
      e.get_role_second.ret = ObRet.OB_SUCCESS → e.get_role_second.role = ObRole.LEADER →
      e.get_role_first.proposal_id = e.get_role_second.proposal_id →
      h.is_valid_member addr is_valid e =
        { ret := ObRet.OB_SUCCESS,
          is_valid := member_list_contains e.get_paxos_member_list.member_list addr }) ∧
    (e.get_role_first.ret = ObRet.OB_SUCCESS → e.get_role_first.role ≠ ObRole.LEADER →
      h.is_valid_member addr is_valid e =
        { ret := ObRet.OB_NOT_MASTER, is_valid := is_valid }) ∧
    (e.get_role_first.ret = ObRet.OB_SUCCESS → e.get_role_first.role = ObRole.LEADER →
      e.get_paxos_member_list.ret = ObRet.OB_SUCCESS →
      e.get_role_second.ret = ObRet.OB_SUCCESS →
      (e.get_role_first.role ≠ e.get_role_second.role ∨
        e.get_role_first.proposal_id ≠ e.get_role_second.proposal_id) →
      h.is_valid_member addr is_valid e =
        { ret := ObRet.OB_NOT_MASTER, is_valid := is_valid }) := by
  obtain ⟨hi, hs⟩ := hrun
  have hgate : h.is_valid_member addr is_valid e =
      if e.get_role_first.ret ≠ ObRet.OB_SUCCESS then
        { ret := ObRet.OB_ERR_UNEXPECTED, is_valid := is_valid }
      else if ObRole.LEADER ≠ e.get_role_first.role then
        { ret := ObRet.OB_NOT_MASTER, is_valid := is_valid }
      else if e.get_paxos_member_list.ret ≠ ObRet.OB_SUCCESS then
        { ret := ObRet.OB_ERR_UNEXPECTED, is_valid := is_valid }
      else if e.get_role_second.ret ≠ ObRet.OB_SUCCESS then
        { ret := ObRet.OB_ERR_UNEXPECTED, is_valid := is_valid }
      else if e.get_role_first.role = e.get_role_second.role ∧
          e.get_role_first.proposal_id = e.get_role_second.proposal_id then
        { ret := ObRet.OB_SUCCESS,
          is_valid := member_list_contains e.get_paxos_member_list.member_list addr }
      else
        { ret := ObRet.OB_NOT_MASTER, is_valid := is_valid } := by
    unfold ObLogHandler.is_valid_member
    rw [if_neg (by simp [hi]), if_neg (by simp [hs]), if_neg (by simp [haddr])]
  refine ⟨?_, ?_, ?_, ?_⟩
  · intro hret
    rw [hgate] at hret ⊢
    by_cases h1 : e.get_role_first.ret ≠ ObRet.OB_SUCCESS
    · rw [if_pos h1] at hret
      exact absurd hret (by simp)
    · rw [if_neg h1] at hret ⊢
      by_cases h2 : ObRole.LEADER ≠ e.get_role_first.role
      · rw [if_pos h2] at hret
        exact absurd hret (by simp)
      · rw [if_neg h2] at hret ⊢
        by_cases h3 : e.get_paxos_member_list.ret ≠ ObRet.OB_SUCCESS
        · rw [if_pos h3] at hret
          exact absurd hret (by simp)
        · rw [if_neg h3] at hret ⊢
          by_cases h4 : e.get_role_second.ret ≠ ObRet.OB_SUCCESS
          · rw [if_pos h4] at hret
            exact absurd hret (by simp)
          · rw [if_neg h4] at hret ⊢
            by_cases h5 : e.get_role_first.role = e.get_role_second.role ∧
                e.get_role_first.proposal_id = e.get_role_second.proposal_id
            · rw [if_pos h5]
              have hl : e.get_role_first.role = ObRole.LEADER := (not_not.mp h2).symm
              exact ⟨not_not.mp h1, hl, not_not.mp h3, not_not.mp h4, by rw [← h5.1, hl],
                h5.2, rfl⟩
            · rw [if_neg h5] at hret
              exact absurd hret (by simp)
  · intro h1 h2 h3 h4 h5 h6
    rw [hgate, if_neg (not_not.mpr h1), if_neg (not_not.mpr h2.symm), if_neg (not_not.mpr h3),
      if_neg (not_not.mpr h4), if_pos ⟨by rw [h2, h5], h6⟩]
  · intro h1 h2
    rw [hgate, if_neg (not_not.mpr h1), if_pos (fun hc => h2 hc.symm)]
  · intro h1 h2 h3 h4 h5
    rw [hgate, if_neg (not_not.mpr h1), if_neg (not_not.mpr h2.symm), if_neg (not_not.mpr h3),
      if_neg (not_not.mpr h4), if_neg (by
        intro hc
        rcases h5 with h5 | h5
        · exact h5 hc.1
        · exact h5 hc.2)]

theorem is_valid_member_leader_stable_witness :
    sample_running.running ∧ ({ ip_port := 2883, valid := true } : ObAddr).valid = true ∧
    sample_running.is_valid_member { ip_port := 2883, valid := true } false
        { get_role_first := { ret := ObRet.OB_SUCCESS, role := ObRole.LEADER, proposal_id := 7,
                              is_pending_state := false }
          get_paxos_member_list := { ret := ObRet.OB_SUCCESS, member_list := sample_member_list,
                                     paxos_replica_num := 3 }
          get_role_second := { ret := ObRet.OB_SUCCESS, role := ObRole.LEADER,
                               proposal_id := 7, is_pending_state := false } } =
      { ret := ObRet.OB_SUCCESS, is_valid := true } ∧
    sample_running.is_valid_member { ip_port := 2883, valid := true } false
        { get_role_first := { ret := ObRet.OB_SUCCESS, role := ObRole.LEADER, proposal_id := 7,
                              is_pending_state := false }
          get_paxos_member_list := { ret := ObRet.OB_SUCCESS, member_list := sample_member_list,
                                     paxos_replica_num := 3 }
          get_role_second := { ret := ObRet.OB_SUCCESS, role := ObRole.LEADER,
                               proposal_id := 8, is_pending_state := false } } =
      { ret := ObRet.OB_NOT_MASTER, is_valid := false } :=
  ⟨by decide, rfl,
    (is_valid_member_leader_stable sample_running (by decide) { ip_port := 2883, valid := true }
      rfl false
      { get_role_first := { ret := ObRet.OB_SUCCESS, role := ObRole.LEADER, proposal_id := 7,
                            is_pending_state := false }
        get_paxos_member_list := { ret := ObRet.OB_SUCCESS, member_list := sample_member_list,
                                   paxos_replica_num := 3 }
        get_role_second := { ret := ObRet.OB_SUCCESS, role := ObRole.LEADER,
                             proposal_id := 7, is_pending_state := false } }).2.1
      rfl rfl rfl rfl rfl rfl,
    (is_valid_member_leader_stable sample_running (by decide) { ip_port := 2883, valid := true }
      rfl false
      { get_role_first := { ret := ObRet.OB_SUCCESS, role := ObRole.LEADER, proposal_id := 7,
                            is_pending_state := false }
        get_paxos_member_list := { ret := ObRet.OB_SUCCESS, member_list := sample_member_list,
                                   paxos_replica_num := 3 }
        get_role_second := { ret := ObRet.OB_SUCCESS, role := ObRole.LEADER,
                             proposal_id := 8, is_pending_state := false } }).2.2.2
      rfl rfl rfl rfl (Or.inr (by decide))⟩

/-! ## C28: `is_in_sync` and the failures of its collaborators -/

theorem renew_loc_cached (h : ObLogHandler) (e : IsInSyncEnv) (b : Bool) :
    (h.renew_loc e b).cached_is_log_sync_ = h.cached_is_log_sync_ := by
  unfold ObLogHandler.renew_loc
  split_ifs <;> rfl

theorem get_leader_max_ts_ns_cached (h : ObLogHandler) (e : IsInSyncEnv) :
    (h.get_leader_max_ts_ns_ e).handler.cached_is_log_sync_ = h.cached_is_log_sync_ := by
  unfold ObLogHandler.get_leader_max_ts_ns_
  dsimp only
  split_ifs <;> exact renew_loc_cached h e _

theorem sync_check_cached (h : ObLogHandler) (e : IsInSyncEnv) :
    (h.sync_check e).handler.cached_is_log_sync_ = h.cached_is_log_sync_ := by
  unfold ObLogHandler.sync_check
  dsimp only
  split_ifs
  · rfl
  · rfl
  · rfl
  · rw [get_leader_max_ts_ns_cached]
  · rfl

/-- What the sync check leaves when no valid leader max timestamp was
obtained: either it failed, or the leader max timestamp is still
`OB_INVALID_TIMESTAMP`. -/
theorem sync_check_obtained (h : ObLogHandler) (e : IsInSyncEnv)
    (hok : (h.sync_check e).ret = ObRet.OB_SUCCESS ∧
      (h.sync_check e).leader_max_ts_ns ≠ OB_INVALID_TIMESTAMP) :
    e.get_role.ret = ObRet.OB_SUCCESS ∧ e.get_role.role = ObRole.FOLLOWER ∧
    e.get_max_ts_ns.ret = ObRet.OB_SUCCESS ∧ e.get_max_ts_ns.ts_ns ≠ OB_INVALID_TIMESTAMP ∧
    (e.reach_check_sync SYNC_GET_LEADER_INFO_INTERVAL_US h.last_check_sync_ts_).reached = true ∧
    (e.get_leader h.id_).ret = ObRet.OB_SUCCESS ∧
    (e.get_palf_stat (e.get_leader h.id_).leader).ret = ObRet.OB_SUCCESS ∧
    (e.get_palf_stat (e.get_leader h.id_).leader).ts_ns ≠ OB_INVALID_TIMESTAMP := by
  obtain ⟨hret, hts⟩ := hok
  unfold ObLogHandler.sync_check at hret hts
  by_cases h1 : e.get_role.ret ≠ ObRet.OB_SUCCESS
  · rw [if_pos h1] at hts
    exact absurd rfl hts
  · rw [if_neg h1] at hret hts
    by_cases h2 : ObRole.LEADER = e.get_role.role
    · rw [if_pos h2] at hts
      exact absurd rfl hts
    · rw [if_neg h2] at hret hts
      by_cases h3 : e.get_max_ts_ns.ret ≠ ObRet.OB_SUCCESS ∨
          OB_INVALID_TIMESTAMP = e.get_max_ts_ns.ts_ns
      · rw [if_pos h3] at hts
        exact absurd rfl hts
      · rw [if_neg h3] at hret hts
        dsimp only at hret hts
        by_cases h4 : (e.reach_check_sync SYNC_GET_LEADER_INFO_INTERVAL_US
            h.last_check_sync_ts_).reached = true
        · rw [if_pos h4] at hret hts
          dsimp only at hret hts
          unfold ObLogHandler.get_leader_max_ts_ns_ at hret hts
          dsimp only at hret hts
          by_cases h5 : (e.get_leader h.id_).ret ≠ ObRet.OB_SUCCESS
          · rw [if_pos h5] at hts
            exact absurd rfl hts
          · rw [if_neg h5] at hret hts
            by_cases h6 : (e.get_palf_stat (e.get_leader h.id_).leader).ret ≠ ObRet.OB_SUCCESS
            · rw [if_pos h6] at hts
              exact absurd rfl hts
            · rw [if_neg h6] at hts
              have hf : e.get_role.role = ObRole.FOLLOWER := by
                cases hr : e.get_role.role
                · exact absurd hr.symm h2
                · rfl
              simp only [not_or, not_not] at h3
              exact ⟨not_not.mp h1, hf, h3.1, fun hc => h3.2 hc.symm, h4, not_not.mp h5,
                not_not.mp h6, hts⟩
        · rw [if_neg h4] at hts
          exact absurd rfl hts

/-- C28: on a running handler on which the engine's `get_end_lsn` and
`get_last_rebuild_lsn` succeed, `is_in_sync` returns `OB_SUCCESS` whatever the
engine's `get_role` and `get_max_ts_ns`, the leader locator and the RPC to the
leader answer.  Unless the engine reported Follower, the local max timestamp was
obtained, the poll interval had passed and the locator and the RPC succeeded
with a valid leader max timestamp, the cached sync flag is left as it was; and
when `get_role` fails, or on a follower `get_max_ts_ns`, the leader lookup or
the RPC fails, the call reports `is_log_sync = false`. -/
theorem is_in_sync_tolerates_failures (h : ObLogHandler) (hrun : h.running) (e : IsInSyncEnv)
    (hend : e.get_end_lsn.ret = ObRet.OB_SUCCESS)
    (hlast : e.get_last_rebuild_lsn.ret = ObRet.OB_SUCCESS) :
    (h.is_in_sync e).ret = ObRet.OB_SUCCESS ∧
    (¬ (e.get_role.ret = ObRet.OB_SUCCESS ∧ e.get_role.role = ObRole.FOLLOWER ∧
        e.get_max_ts_ns.ret = ObRet.OB_SUCCESS ∧
        e.get_max_ts_ns.ts_ns ≠ OB_INVALID_TIMESTAMP ∧
        (e.reach_check_sync SYNC_GET_LEADER_INFO_INTERVAL_US h.last_check_sync_ts_).reached =
          true ∧
        (e.get_leader h.id_).ret = ObRet.OB_SUCCESS ∧
        (e.get_palf_stat (e.get_leader h.id_).leader).ret = ObRet.OB_SUCCESS ∧
        (e.get_palf_stat (e.get_leader h.id_).leader).ts_ns ≠ OB_INVALID_TIMESTAMP) →
      (h.is_in_sync e).handler.cached_is_log_sync_ = h.cached_is_log_sync_ ∧
      (h.is_in_sync e).is_log_sync = (h.sync_check e).is_log_sync) ∧
    (e.get_role.ret ≠ ObRet.OB_SUCCESS →
      (h.is_in_sync e).is_log_sync = false ∧
      (h.is_in_sync e).handler.cached_is_log_sync_ = h.cached_is_log_sync_) ∧
    (e.get_role.ret = ObRet.OB_SUCCESS → e.get_role.role = ObRole.FOLLOWER →
      (e.get_max_ts_ns.ret ≠ ObRet.OB_SUCCESS →
        (h.is_in_sync e).is_log_sync = false ∧
        (h.is_in_sync e).handler.cached_is_log_sync_ = h.cached_is_log_sync_) ∧
      (e.get_max_ts_ns.ret = ObRet.OB_SUCCESS →
        e.get_max_ts_ns.ts_ns ≠ OB_INVALID_TIMESTAMP →
        (e.reach_check_sync SYNC_GET_LEADER_INFO_INTERVAL_US h.last_check_sync_ts_).reached =
          true →
        ((e.get_leader h.id_).ret ≠ ObRet.OB_SUCCESS ∨
          (e.get_palf_stat (e.get_leader h.id_).leader).ret ≠ ObRet.OB_SUCCESS) →
        (h.is_in_sync e).is_log_sync = false ∧
        (h.is_in_sync e).handler.cached_is_log_sync_ = h.cached_is_log_sync_)) := by
  have hform := is_in_sync_of_reaches h hrun e (rebuild_check_reaches e hend (fun _ => hlast))
  have hun : ¬ ((h.sync_check e).ret = ObRet.OB_SUCCESS ∧
        (h.sync_check e).leader_max_ts_ns ≠ OB_INVALID_TIMESTAMP) →
      (h.is_in_sync e).handler.cached_is_log_sync_ = h.cached_is_log_sync_ ∧
      (h.is_in_sync e).is_log_sync = (h.sync_check e).is_log_sync := by
    intro hno
    rw [hform, if_neg hno]
    exact ⟨sync_check_cached h e, rfl⟩
  refine ⟨?_, ?_, ?_, ?_⟩
  · rw [hform]
    split_ifs <;> rfl
  · intro hno
    exact hun (fun hok => hno (sync_check_obtained h e hok))
  · intro hfail
    have hno := hun (fun hok => hfail (sync_check_obtained h e hok).1)
    refine ⟨?_, hno.1⟩
    rw [hno.2]
    unfold ObLogHandler.sync_check
    rw [if_pos hfail]
  · intro hrole hfol
    have hnl : ¬ ObRole.LEADER = e.get_role.role := by
      rw [hfol]
      decide
    refine ⟨?_, ?_⟩
    · intro hfail
      have hno := hun (fun hok => hfail (sync_check_obtained h e hok).2.2.1)
      refine ⟨?_, hno.1⟩
      rw [hno.2]
      unfold ObLogHandler.sync_check
      rw [if_neg (not_not.mpr hrole), if_neg hnl, if_pos (Or.inl hfail)]
    · intro hts hvalid hreach hfail
      have hno := hun (fun hok => by
        have ho := sync_check_obtained h e hok
        rcases hfail with hf | hf
        · exact hf ho.2.2.2.2.2.1
        · exact hf ho.2.2.2.2.2.2.1)
      refine ⟨?_, hno.1⟩
      rw [hno.2]
      unfold ObLogHandler.sync_check
      rw [if_neg (not_not.mpr hrole), if_neg hnl, if_neg (by
        intro hc
        rcases hc with hc | hc
        · exact hc hts
        · exact hvalid hc.symm)]
      dsimp only
      rw [if_pos hreach]

theorem is_in_sync_tolerates_failures_witness :
    sample_in_sync.running ∧ sample_sync_rpc_fails.get_end_lsn.ret = ObRet.OB_SUCCESS ∧
    sample_sync_rpc_fails.get_last_rebuild_lsn.ret = ObRet.OB_SUCCESS ∧
    (sample_in_sync.is_in_sync sample_sync_rpc_fails).ret = ObRet.OB_SUCCESS ∧
    ((sample_in_sync.is_in_sync sample_sync_rpc_fails).is_log_sync = false ∧
      (sample_in_sync.is_in_sync sample_sync_rpc_fails).handler.cached_is_log_sync_ = true) :=
  ⟨by decide, rfl, rfl,
    (is_in_sync_tolerates_failures sample_in_sync (by decide) sample_sync_rpc_fails rfl rfl).1,
    ((is_in_sync_tolerates_failures sample_in_sync (by decide) sample_sync_rpc_fails rfl
      rfl).2.2.2 rfl rfl).2 rfl (by decide) rfl (Or.inr (by decide))⟩

/-! ## C29: the renewal overwrites the running result -/

/-- C29: in an iteration of the loop that asks the locator to renew the leader
location, the call `nonblock_renew_leader` is the last call of the iteration, the
deadline had not passed, and the running result after the iteration is what
that call answered: if it is neither `OB_SUCCESS` nor `OB_NOT_MASTER`, the
dispatcher stops retrying and returns it; if it is `OB_SUCCESS`, the running
result is `OB_SUCCESS`, whatever it was before (a pending `OB_NOT_MASTER`
included), and the loop goes on. -/
theorem dispatch_renewal_overwrites (h : ObLogHandler) (req : LogConfigChangeCmd)
    (start_ts_ns : Int) (env : Nat → DispatchEnv) (s : DispatchState) (hgo : s.goes_on)
    (hrenew : ∃ c ∈ h.iteration_calls req start_ts_ns (env s.iterations) s,
      c.is_nonblock_renew_leader = true) :
    (h.dispatch_next req start_ts_ns env s).ret =
      (env s.iterations).nonblock_renew_leader h.id_ ∧
    (h.dispatch_next req start_ts_ns env s).last_renew_leader_ts_ns =
      (env s.iterations).now_renew_set ∧
    ¬ (env s.iterations).now_check - start_ts_ns ≥ req.timeout_ns_ ∧
    (∃ before, h.iteration_calls req start_ts_ns (env s.iterations) s =
        before ++ [Call.nonblock_renew_leader h.id_
          ((env s.iterations).nonblock_renew_leader h.id_)] ∧
      ∀ c ∈ before, c.is_nonblock_renew_leader = false) ∧
    ((env s.iterations).nonblock_renew_leader h.id_ ≠ ObRet.OB_SUCCESS →
      (env s.iterations).nonblock_renew_leader h.id_ ≠ ObRet.OB_NOT_MASTER →
      ∀ fuel, h.dispatch_loop req start_ts_ns env (fuel + 2) s =
        some (h.dispatch_next req start_ts_ns env s)) ∧
    (((env s.iterations).nonblock_renew_leader h.id_ = ObRet.OB_SUCCESS ∨
        (env s.iterations).nonblock_renew_leader h.id_ = ObRet.OB_NOT_MASTER) →
      (h.dispatch_next req start_ts_ns env s).goes_on ∧
      ∀ fuel, h.dispatch_loop req start_ts_ns env (fuel + 1) s =
        h.dispatch_loop req start_ts_ns env fuel (h.dispatch_next req start_ts_ns env s)) := by
  obtain ⟨pre, hall, hcases⟩ := dispatch_body_calls h req start_ts_ns (env s.iterations) s
  obtain ⟨c, hc, hcr⟩ := hrenew
  rcases hcases with hl | ⟨hcalls, hb, hret, hlast, hd⟩
  · exfalso
    unfold ObLogHandler.iteration_calls at hc
    rw [hl, List.drop_left] at hc
    rw [(hall c hc).2] at hcr
    exact absurd hcr (by decide)
  · have hnret : (h.dispatch_next req start_ts_ns env s).ret =
        (env s.iterations).nonblock_renew_leader h.id_ := hret
    have hit : h.iteration_calls req start_ts_ns (env s.iterations) s =
        pre ++ [Call.nonblock_renew_leader h.id_
          ((env s.iterations).nonblock_renew_leader h.id_)] := by
      unfold ObLogHandler.iteration_calls
      rw [hcalls, List.append_assoc, List.drop_left]
    refine ⟨hnret, hlast, hd, ⟨pre, hit, fun x hx => (hall x hx).2⟩, ?_, ?_⟩
    · intro h1 h2 fuel
      refine dispatch_loop_returns_next h req start_ts_ns env s hgo hb ?_ fuel
      intro hcon
      have hcon' : ObRet.OB_SUCCESS = (h.dispatch_next req start_ts_ns env s).ret ∨
          ObRet.OB_NOT_MASTER = (h.dispatch_next req start_ts_ns env s).ret := hcon
      rw [hnret] at hcon'
      rcases hcon' with hx | hx
      · exact h1 hx.symm
      · exact h2 hx.symm
    · intro hok
      refine ⟨?_, fun fuel => dispatch_loop_next h req start_ts_ns env s hgo hb fuel⟩
      show ObRet.OB_SUCCESS = (h.dispatch_next req start_ts_ns env s).ret ∨
        ObRet.OB_NOT_MASTER = (h.dispatch_next req start_ts_ns env s).ret
      rw [hnret]
      rcases hok with hx | hx
      · exact Or.inl hx.symm
      · exact Or.inr hx.symm

theorem dispatch_renewal_overwrites_witness :
    DispatchState.entry.goes_on ∧
    (∃ c ∈ sample_running.iteration_calls sample_remove_member_req 1700000000000000000
        (sample_dispatch_env 1700000000000000001 ObRet.OB_NOT_MASTER ObRet.OB_ERR_UNEXPECTED)
        DispatchState.entry, c.is_nonblock_renew_leader = true) ∧
    sample_running.dispatch_loop sample_remove_member_req 1700000000000000000
        (fun _ => sample_dispatch_env 1700000000000000001 ObRet.OB_NOT_MASTER
          ObRet.OB_ERR_UNEXPECTED) 2 DispatchState.entry =
      some (sample_running.dispatch_next sample_remove_member_req 1700000000000000000
        (fun _ => sample_dispatch_env 1700000000000000001 ObRet.OB_NOT_MASTER
          ObRet.OB_ERR_UNEXPECTED) DispatchState.entry) ∧
    (sample_running.dispatch_next sample_remove_member_req 1700000000000000000
        (fun _ => sample_dispatch_env 1700000000000000001 ObRet.OB_NOT_MASTER
          ObRet.OB_ERR_UNEXPECTED) DispatchState.entry).ret = ObRet.OB_ERR_UNEXPECTED :=
  ⟨by decide, ⟨Call.nonblock_renew_leader 1 ObRet.OB_ERR_UNEXPECTED, by decide, rfl⟩,
    (dispatch_renewal_overwrites sample_running sample_remove_member_req 1700000000000000000
      (fun _ => sample_dispatch_env 1700000000000000001 ObRet.OB_NOT_MASTER
        ObRet.OB_ERR_UNEXPECTED) DispatchState.entry (by decide)
      ⟨Call.nonblock_renew_leader 1 ObRet.OB_ERR_UNEXPECTED, by decide, rfl⟩).2.2.2.2.1
      (by decide) (by decide) 0,
    (dispatch_renewal_overwrites sample_running sample_remove_member_req 1700000000000000000
      (fun _ => sample_dispatch_env 1700000000000000001 ObRet.OB_NOT_MASTER
        ObRet.OB_ERR_UNEXPECTED) DispatchState.entry (by decide)
      ⟨Call.nonblock_renew_leader 1 ObRet.OB_ERR_UNEXPECTED, by decide, rfl⟩).1⟩

/-! ## C30: a `stop` whose apply-status stop fails -/

theorem step_keeps_open_handle (h : ObLogHandler) (op : Op) (hi : h.is_inited_ = true)
    (hv : h.palf_handle_.is_valid = true) (hop : op.closes_handle = false) :
    (h.step op).is_inited_ = true ∧ (h.step op).palf_handle_.is_valid = true := by
  cases op with
  | init a g =>
    have hinit : (h.init a g).2 = h := by
      unfold ObLogHandler.init
      rw [if_pos hi]
    show (h.init a g).2.is_inited_ = true ∧ (h.init a g).2.palf_handle_.is_valid = true
    rw [hinit]
    exact ⟨hi, hv⟩
  | stop r =>
    have hr : r ≠ ObRet.OB_SUCCESS := by
      simpa [Op.closes_handle] using hop
    show (h.stop r).2.is_inited_ = true ∧ (h.stop r).2.palf_handle_.is_valid = true
    unfold ObLogHandler.stop
    rw [if_pos hi]
    dsimp only
    rw [if_pos hr]
    exact ⟨hi, hv⟩
  | destroy => simp [Op.closes_handle] at hop
  | switch_role role proposal_id => exact ⟨hi, hv⟩
  | append => exact ⟨hi, hv⟩
  | get_role => exact ⟨hi, hv⟩
  | other c t1 t2 t3 => exact ⟨hi, hv⟩

theorem run_keeps_open_handle (ops : List Op) :
    ∀ h : ObLogHandler, h.is_inited_ = true → h.palf_handle_.is_valid = true →
      (∀ op ∈ ops, op.closes_handle = false) →
      (h.run ops).is_inited_ = true ∧ (h.run ops).palf_handle_.is_valid = true := by
  induction ops with
  | nil =>
    intro h hi hv _
    exact ⟨hi, hv⟩
  | cons op ops ih =>
    intro h hi hv hops
    have hstep := step_keeps_open_handle h op hi hv (hops op (List.mem_cons_self op ops))
    exact ih (h.step op) hstep.1 hstep.2 (fun o ho => hops o (List.mem_cons_of_mem op ho))

/-- C30: on an initialised handler `stop` always sets the stop state.  It closes
the engine handle only if the apply-status stop succeeds: when that fails,
`stop` returns its error and leaves the handle as it was, so that a handle that
was valid stays valid, and after any further operations other than `destroy`
and a `stop` whose apply-status stop succeeds, `safe_to_destroy` returns
`OB_STATE_NOT_MATCH` (never `OB_SUCCESS`, never `OB_EAGAIN`), whatever the apply
status answers.  When the apply-status stop succeeds, `stop` returns
`OB_SUCCESS` and the handle is closed. -/
theorem stop_failure_keeps_handle (h : ObLogHandler) (hi : h.is_inited_ = true)
    (apply_status_stop : ObRet) :
    (h.stop apply_status_stop).2.is_in_stop_state_ = true ∧
    (h.stop apply_status_stop).2.is_inited_ = true ∧
    (apply_status_stop = ObRet.OB_SUCCESS →
      (h.stop apply_status_stop).1 = ObRet.OB_SUCCESS ∧
      (h.stop apply_status_stop).2.palf_handle_.is_valid = false) ∧
    (apply_status_stop ≠ ObRet.OB_SUCCESS →
      (h.stop apply_status_stop).1 = apply_status_stop ∧
      (h.stop apply_status_stop).2.palf_handle_ = h.palf_handle_ ∧
      (h.palf_handle_.is_valid = true →
        ∀ ops : List Op, (∀ op ∈ ops, op.closes_handle = false) →
          ∀ apply : IsApplyDoneResp,
            (((h.stop apply_status_stop).2.run ops).safe_to_destroy apply).1 =
              ObRet.OB_STATE_NOT_MATCH)) := by
  by_cases hs : apply_status_stop ≠ ObRet.OB_SUCCESS
  · have hstop : h.stop apply_status_stop =
        (apply_status_stop, { h with is_in_stop_state_ := true }) := by
      unfold ObLogHandler.stop
      rw [if_pos hi]
      dsimp only
      rw [if_pos hs]
    rw [hstop]
    refine ⟨rfl, hi, fun hc => absurd hc hs, fun _ => ⟨rfl, rfl, ?_⟩⟩
    intro hv ops hops apply
    obtain ⟨hi2, hv2⟩ := run_keeps_open_handle ops { h with is_in_stop_state_ := true } hi hv
      hops
    unfold ObLogHandler.safe_to_destroy
    rw [if_pos hi2, if_pos (Or.inl hv2)]
  · have hok : apply_status_stop = ObRet.OB_SUCCESS := not_not.mp hs
    unfold ObLogHandler.stop
    rw [if_pos hi]
    dsimp only
    rw [if_neg hs]
    by_cases hv : h.palf_handle_.is_valid = true
    · rw [if_pos hv]
      exact ⟨rfl, hi, fun _ => ⟨rfl, rfl⟩, fun hc => absurd hok hc⟩
    · rw [if_neg hv]
      exact ⟨rfl, hi, fun _ => ⟨rfl, by simpa using hv⟩, fun hc => absurd hok hc⟩

theorem stop_failure_keeps_handle_witness :
    sample_running.is_inited_ = true ∧ sample_running.palf_handle_.is_valid = true ∧
    (sample_running.stop ObRet.OB_ERR_UNEXPECTED).1 = ObRet.OB_ERR_UNEXPECTED ∧
    ((((sample_running.stop ObRet.OB_ERR_UNEXPECTED).2.run
        [Op.switch_role ObRole.LEADER 7, Op.stop ObRet.OB_TIMEOUT,
          Op.other true 100 200 300]).safe_to_destroy
        { ret := ObRet.OB_SUCCESS, is_done := true, end_lsn := { val_ := 9 } }).1 =
      ObRet.OB_STATE_NOT_MATCH) :=
  ⟨by decide, by decide,
    ((stop_failure_keeps_handle sample_running (by decide) ObRet.OB_ERR_UNEXPECTED).2.2.2
      (by decide)).1,
    ((stop_failure_keeps_handle sample_running (by decide) ObRet.OB_ERR_UNEXPECTED).2.2.2
      (by decide)).2.2 (by decide)
      [Op.switch_role ObRole.LEADER 7, Op.stop ObRet.OB_TIMEOUT, Op.other true 100 200 300]
      (by decide) { ret := ObRet.OB_SUCCESS, is_done := true, end_lsn := { val_ := 9 } }⟩

end logservice
end oceanbase
